import Mathlib

/-!
# Admin handler of rocksplicator (`rocksdb_admin/admin_handler.cpp`)

A shallow embedding of `admin::AdminHandler`.  The handler's members (the
database registry, the metadata store, the watcher map, the two transfer
counters and the cached object-store client) form an explicit `State`; every
RPC handler is a function from a request and a state to a new state and either
a response or an `AdminException`.  The storage engine, the backup engine, the
file system, the object store and the address parser are outside the file:
their answers are fields of `Ext`, and every call made to them is appended to
the state's `trace`.
-/

namespace admin

/-! ## Data model -/

/-- Replication role, `replicator::DBRole`. -/
inductive DBRole
  | MASTER
  | SLAVE
  | NOOP
  deriving DecidableEq

/-- Error codes carried by `AdminException`, `admin::AdminErrorCode`. -/
inductive AdminErrorCode
  | DB_NOT_FOUND
  | DB_EXIST
  | INVALID_DB_ROLE
  | INVALID_UPSTREAM
  | DB_ADMIN_ERROR
  | DB_ERROR
  deriving DecidableEq

/-- The exception of the RPC surface.  `errorCode` is `none` for an exception
object whose code was never assigned (`AdminException e;`). -/
structure AdminException where
  errorCode : Option AdminErrorCode := none
  message : String := ""
  deriving DecidableEq

/-- Status value of the storage engine, `rocksdb::Status`: either ok or a
failure with its text. -/
inductive Status
  | OK
  | NotOK (text : String)
  deriving DecidableEq

/-- Test `status.ok()`. -/
def Status.ok : Status → Bool
  | .OK => true
  | .NotOK _ => false

/-- Text `status.ToString()`. -/
def Status.ToString : Status → String
  | .OK => "OK"
  | .NotOK text => text

/-- Address `folly::SocketAddress`, as the pair it is set from. -/
structure SocketAddress where
  ip : String
  port : Nat
  deriving DecidableEq

/-- Modelled from the spec: `ApplicationDB` (`rocksdb_admin/application_db.h`,
not among the sources) is the database handle "(segment, storage-engine
instance, role, optional upstream address)".  The storage-engine instance is
represented by the path it was opened at. -/
structure ApplicationDB where
  rocksdb : String
  role : DBRole
  upstream_addr : Option SocketAddress
  deriving DecidableEq

/-- Modelled from the spec: `ApplicationDB::IsSlave` (not among the sources)
tells whether the handle's role is secondary. -/
def ApplicationDB.IsSlave (db : ApplicationDB) : Bool :=
  db.role == DBRole.SLAVE

/-- Metadata record `admin::DBMetaData`; the three payload fields are optional. -/
structure DBMetaData where
  db_name : String
  s3_bucket : Option String := none
  s3_path : Option String := none
  last_kafka_msg_timestamp_ms : Option Int := none
  deriving DecidableEq

/-- Object-store client `common::S3Util`, as the pair it is built from. -/
structure S3Util where
  bucket : String
  rate_limit_mb : Nat
  deriving DecidableEq

/-- What the handler knows of a `KafkaWatcher` it has started: the partition it
consumes, the topic, the timestamp it was started with, and the two captures of
the message callback (`should_deserialize`, `message_count`). -/
structure KafkaWatcher where
  partition_id : Int
  topic_name : String
  replay_timestamp_ms : Int
  should_deserialize : Bool
  message_count : Int
  deriving DecidableEq

/-- Options `rocksdb::BackupableDBOptions` as far as the handler sets them; a
rate limit of 0 is the engine's default and means unlimited. -/
structure BackupableDBOptions where
  backup_dir : String
  max_background_operations : Int
  backup_rate_limit : Nat := 0
  restore_rate_limit : Nat := 0
  deriving DecidableEq

/-- Options `rocksdb::IngestExternalFileOptions` as far as the handler sets them. -/
structure IngestExternalFileOptions where
  move_files : Bool
  allow_global_seqno : Bool
  allow_blocking_flush : Bool
  deriving DecidableEq

/-- Calls that leave the handler, in the order they are made. -/
inductive Effect
  | Lock (db_name : String)
  | Unlock (db_name : String)
  | DestroyDB (db_path : String)
  | DB_Open (db_path : String)
  | NewHdfsEnv (full_path : String)
  | NewS3Env (s3_dir local_path : String)
  | BackupEngine_Open (options : BackupableDBOptions)
  | CreateNewBackup (rocksdb : String)
  | RestoreDBFromLatestBackup (db_path : String)
  | remove_all (path : String)
  | create_directories (path : String)
  | BuildS3Util (rate_limit_mb : Nat) (bucket : String)
  | getObjects (s3_path local_path : String)
  | IngestExternalFile (rocksdb : String) (files : List String)
      (ifo : IngestExternalFileOptions)
  | CompactRange (rocksdb : String)
  | SetOptions (rocksdb : String) (options : List (String × String))
  | GetLatestSequenceNumber (rocksdb : String)
  | GetUpdatesSince (rocksdb : String) (seq_num : Nat)
  | StartWith (db_name : String) (replay_timestamp_ms : Int)
  | StopAndWait (db_name : String)
  | Put (rocksdb key value : String)
  | Delete (rocksdb key : String)
  | Merge (rocksdb key value : String)
  | Stats_Incr (counter : String)
  | Stats_AddMetric (name : String) (value : Int)
  deriving DecidableEq

/-- Calls to the storage engine or to the backup engine. -/
def Effect.isEngineCall : Effect → Bool
  | .DestroyDB _ => true
  | .DB_Open _ => true
  | .BackupEngine_Open _ => true
  | .CreateNewBackup _ => true
  | .RestoreDBFromLatestBackup _ => true
  | .IngestExternalFile _ _ _ => true
  | .CompactRange _ => true
  | .SetOptions _ _ => true
  | .GetLatestSequenceNumber _ => true
  | .GetUpdatesSince _ _ => true
  | .Put _ _ _ => true
  | .Delete _ _ => true
  | .Merge _ _ _ => true
  | _ => false

/-- Answer of `S3Util::getObjects`: the listing error (empty when none) and,
per object, whether it was fetched and its error text. -/
structure GetObjectsResponse where
  Error : String
  Body : List (Bool × String)
  deriving DecidableEq

/-- Process flags (`DEFINE_*` and `DECLARE_*` of the file) and the constants of
declarations that are not among the sources. -/
structure Flags where
  hdfs_name_node : String
  rocksdb_dir : String
  num_hdfs_access_threads : Int
  rocksdb_allow_overlapping_keys : Bool
  compact_db_after_load_sst : Bool
  rocksdb_replicator_port : Int
  s3_direct_io_flag : Bool
  max_s3_sst_loading_concurrency : Int
  s3_download_limit_mb : Int
  kafka_ts_update_interval : Int
  /-- Member `allow_overlapping_keys_segments_`, the flag of that name split at
  commas by the constructor. -/
  allow_overlapping_keys_segments_ : List String
  /-- Default of the last parameter of `writeMetaData`, declared in
  `admin_handler.h` (not among the sources). -/
  writeMetaData_default_timestamp_ms : Int

/-- Answers of the collaborators during one handler call. -/
structure Ext where
  /-- Does `folly::SocketAddress::setFromIpPort` accept the ip (no throw)? -/
  setFromIpPort_ok : String → Bool
  /-- Helper `admin::DbNameToSegment` of `rocksdb_admin/utils.h`. -/
  DbNameToSegment : String → String
  /-- Helper `admin::ExtractShardId` of `rocksdb_admin/utils.h`. -/
  ExtractShardId : String → Int
  /-- Text `err_msg` set by the registry when an operation on a name fails. -/
  db_manager_err_msg : String → String
  DestroyDB : String → Status
  DB_Open : String → Status
  NewHdfsEnv : String → Status
  BackupEngine_Open : BackupableDBOptions → Status
  CreateNewBackup : String → Status
  RestoreDBFromLatestBackup : String → Status
  /-- Did `boost::filesystem::remove_all` report an error? -/
  remove_all_err : String → Bool
  /-- Did `boost::filesystem::create_directories` report an error? -/
  create_directories_err : String → Bool
  getObjects : String → String → GetObjectsResponse
  /-- File names found by the directory iterator over the scratch directory. -/
  directory_listing : String → List String
  IngestExternalFile : String → List String → IngestExternalFileOptions → Status
  CompactRange : String → Status
  SetOptions : String → List (String × String) → Status
  GetLatestSequenceNumber : String → Nat
  WAL_ttl_seconds : String → Nat
  /-- Timestamp extracted from the batch at a sequence number, when the
  iterator is valid and the extraction succeeds. -/
  GetUpdatesSince : String → Nat → Option Int
  /-- Do `meta_db_->Put` and `meta_db_->Delete` return an ok status? -/
  meta_db_Put_ok : String → Bool
  meta_db_Delete_ok : String → Bool

/-- One change of the registry, recorded when it is made: whether the name was
added (`true`) or removed (`false`), the name, and the number of calls in the
trace at that moment. -/
structure RegistryMutation where
  added : Bool
  db_name : String
  calls_before : Nat
  deriving DecidableEq

/-- Members of `AdminHandler`, the trace of the calls made so far, and the
changes made to the registry so far, each with its place in the trace. -/
structure State where
  db_manager_ : List (String × ApplicationDB)
  meta_db_ : List (String × DBMetaData)
  kafka_watcher_map_ : List (String × KafkaWatcher)
  num_current_s3_sst_downloadings_ : Int
  num_current_s3_sst_uploadings_ : Int
  s3_util_ : Option S3Util
  trace : List Effect
  registry_log : List RegistryMutation := []
  deriving DecidableEq

/-- Record a call in the trace. -/
def State.emit (s : State) (e : Effect) : State :=
  { s with trace := s.trace ++ [e] }

/-- The state after `db_manager_->addDB` (`added = true`) or
`db_manager_->removeDB` (`added = false`) has changed the registry to `m`: the
change is recorded with the number of calls made before it. -/
@[simp] def State.setRegistry (s : State) (added : Bool) (db_name : String)
    (m : List (String × ApplicationDB)) : State :=
  { s with
    db_manager_ := m
    registry_log := s.registry_log ++ [⟨added, db_name, s.trace.length⟩] }

/-- Outcome of a handler: `callback->result(r)` or `exceptionInThread(e)`. -/
abbrev Result (α : Type) := Except AdminException α

/-- Outcomes can be compared. -/
instance Result.decEq {α : Type} [DecidableEq α] : DecidableEq (Result α) :=
  fun a b =>
    match a, b with
    | Except.ok x, Except.ok y =>
      if h : x = y then isTrue (by rw [h]) else isFalse (fun hh => h (Except.ok.inj hh))
    | Except.error x, Except.error y =>
      if h : x = y then isTrue (by rw [h]) else isFalse (fun hh => h (Except.error.inj hh))
    | Except.ok _, Except.error _ => isFalse (fun hh => Except.noConfusion hh)
    | Except.error _, Except.ok _ => isFalse (fun hh => Except.noConfusion hh)

/-! ## Name-keyed maps -/

/-- Lookup by name, `map.find(name)`. -/
def NameMap.find {α : Type} (m : List (String × α)) (name : String) : Option α :=
  match m with
  | [] => none
  | (k, v) :: rest => if k = name then some v else NameMap.find rest name

/-- Removal of a name, `map.erase(name)`. -/
def NameMap.erase {α : Type} (m : List (String × α)) (name : String) :
    List (String × α) :=
  match m with
  | [] => []
  | (k, v) :: rest =>
    if k = name then NameMap.erase rest name else (k, v) :: NameMap.erase rest name

/-- Assignment `map[name] = v`. -/
def NameMap.insert {α : Type} (m : List (String × α)) (name : String) (v : α) :
    List (String × α) :=
  (name, v) :: NameMap.erase m name

/-! ## Registry -/

/-- Modelled from the spec: `ApplicationDBManager::getDB` (not among the
sources); "get returns a not-found signal when absent". -/
def ApplicationDBManager.getDB (m : List (String × ApplicationDB))
    (db_name : String) : Option ApplicationDB :=
  NameMap.find m db_name

/-- Modelled from the spec: `ApplicationDBManager::removeDB` (not among the
sources); "remove returns a not-found signal when absent", otherwise the
storage-engine handle of the removed entry. -/
def ApplicationDBManager.removeDB (m : List (String × ApplicationDB))
    (db_name : String) : Option String × List (String × ApplicationDB) :=
  match NameMap.find m db_name with
  | none => (none, m)
  | some db => (some db.rocksdb, NameMap.erase m db_name)

/-- Modelled from the spec: `ApplicationDBManager::addDB` (not among the
sources); "add fails when name already present" (`none`), otherwise the handle
is registered with the given role and upstream. -/
def ApplicationDBManager.addDB (m : List (String × ApplicationDB))
    (db_name : String) (db : String) (role : DBRole)
    (upstream_addr : Option SocketAddress) : Option (List (String × ApplicationDB)) :=
  match NameMap.find m db_name with
  | some _ => none
  | none => some (NameMap.insert m db_name ⟨db, role, upstream_addr⟩)

/-! ## Helpers of the handler -/

/-- Conversion of an `int32` flag to the `uint16_t` parameter of
`SetAddressOrException`. -/
def uint16_t (x : Int) : Nat := (x % 65536).toNat

/-- Conversion to `uint32_t`. -/
def uint32_t (x : Nat) : Nat := x % 4294967296

/-- Constant `kMB`. -/
def kMB : Nat := 1024 * 1024

/-- Member `AdminHandler::getDB` called with an exception object: the handle
when registered, otherwise the object is set to `DB_NOT_FOUND` with the
registry's message.  A call with `nullptr` for the exception is
`(getDB ext s db_name e).1`. -/
def getDB (ext : Ext) (s : State) (db_name : String) (ex : AdminException) :
    Option ApplicationDB × AdminException :=
  match ApplicationDBManager.getDB s.db_manager_ db_name with
  | some db => (some db, ex)
  | none =>
    (none, { errorCode := some AdminErrorCode.DB_NOT_FOUND,
             message := ext.db_manager_err_msg db_name })

/-- Member `AdminHandler::removeDB` called with an exception object: the
storage-engine handle of the removed entry, the exception object (set to
`DB_NOT_FOUND` when the name is absent) and the state after the removal. -/
def removeDB (ext : Ext) (s : State) (db_name : String) (ex : AdminException) :
    Option String × AdminException × State :=
  match ApplicationDBManager.removeDB s.db_manager_ db_name with
  | (some db, m) => (some db, ex, s.setRegistry false db_name m)
  | (none, m) =>
    (none, { errorCode := some AdminErrorCode.DB_NOT_FOUND,
             message := ext.db_manager_err_msg db_name },
     { s with db_manager_ := m })

/-- Member `AdminHandler::getMetaData`: the stored record, or a record with
only the name when the store has none. -/
def getMetaData (s : State) (db_name : String) : DBMetaData :=
  match NameMap.find s.meta_db_ db_name with
  | some m => m
  | none => { db_name := db_name }

/-- Member `AdminHandler::clearMetaData`: delete the record; the flag is
`s.ok()`. -/
def clearMetaData (ext : Ext) (s : State) (db_name : String) : Bool × State :=
  if ext.meta_db_Delete_ok db_name then
    (true, { s with meta_db_ := NameMap.erase s.meta_db_ db_name })
  else (false, s)

/-- Member `AdminHandler::writeMetaData`: put a full record; the flag is
`s.ok()`. -/
def writeMetaData (ext : Ext) (s : State) (db_name s3_bucket s3_path : String)
    (last_kafka_msg_timestamp_ms : Int) : Bool × State :=
  if ext.meta_db_Put_ok db_name then
    let record : DBMetaData :=
      { db_name := db_name, s3_bucket := some s3_bucket, s3_path := some s3_path,
        last_kafka_msg_timestamp_ms := some last_kafka_msg_timestamp_ms }
    (true, { s with meta_db_ := NameMap.insert s.meta_db_ db_name record })
  else (false, s)

/-- Helper `OKOrSetException`: `none` when the status is ok, otherwise the
exception handed to the callback. -/
def OKOrSetException (status : Status) (code : AdminErrorCode) : Option AdminException :=
  if status.ok then none
  else some { errorCode := some code, message := status.ToString }

/-- Helper `SetAddressOrException`: the address set from ip and port, or the
`INVALID_UPSTREAM` exception handed to the callback when the ip is refused. -/
def SetAddressOrException (ext : Ext) (ip : String) (port : Nat) :
    Except AdminException SocketAddress :=
  if ext.setFromIpPort_ok ip then Except.ok ⟨ip, port⟩
  else Except.error
    { errorCode := some AdminErrorCode.INVALID_UPSTREAM,
      message := "Invalid ip:port " ++ ip ++ ":" ++ toString port }

/-- Scope of the per-database admin lock: `db_admin_lock_.Lock(name)` followed
by the `SCOPE_EXIT` that calls `db_admin_lock_.Unlock(name)`. -/
def withLock {α : Type} (db_name : String) (body : State → State × α) (s : State) :
    State × α :=
  let r := body (s.emit (Effect.Lock db_name))
  (r.1.emit (Effect.Unlock db_name), r.2)

/-! ## add-db -/

/-- Request `AddDBRequest`. -/
structure AddDBRequest where
  db_name : String
  upstream_ip : String
  db_role : Option String := none
  overwrite : Option Bool := none
  deriving DecidableEq

/-- Handler `AdminHandler::async_tm_addDB`. -/
def async_tm_addDB (cfg : Flags) (ext : Ext) (request : AddDBRequest) (s0 : State) :
    State × Result Unit :=
  withLock request.db_name (fun s =>
    let got := getDB ext s request.db_name {}
    let e := got.2
    match got.1 with
    | some _ =>
      (s, Except.error { e with errorCode := some AdminErrorCode.DB_EXIST,
                                message := "Db already exists" })
    | none =>
    -- Get the upstream for the db to be added
    match SetAddressOrException ext request.upstream_ip
        (uint16_t cfg.rocksdb_replicator_port) with
    | Except.error ex => (s, Except.error ex)
    | Except.ok upstream_addr =>
    let db_path := cfg.rocksdb_dir ++ request.db_name
    let cleared : State × Option AdminException :=
      if request.overwrite.getD false then
        let s1 := (clearMetaData ext s request.db_name).2
        (s1.emit (Effect.DestroyDB db_path),
         OKOrSetException (ext.DestroyDB db_path) AdminErrorCode.DB_ADMIN_ERROR)
      else (s, none)
    match cleared.2 with
    | some ex => (cleared.1, Except.error ex)
    | none =>
    -- Open the actual rocksdb instance
    let s2 := cleared.1.emit (Effect.DB_Open db_path)
    match OKOrSetException (ext.DB_Open db_path) AdminErrorCode.DB_ERROR with
    | some ex => (s2, Except.error ex)
    | none =>
    -- add the db to db_manager
    let role : Option DBRole :=
      match request.db_role with
      | none => some DBRole.SLAVE
      | some r =>
        if r = "SLAVE" then some DBRole.SLAVE
        else if r = "NOOP" then some DBRole.NOOP
        else none
    match role with
    | none =>
      (s2, Except.error { e with errorCode := some AdminErrorCode.INVALID_DB_ROLE,
                                 message := request.db_role.getD "" })
    | some role =>
    match ApplicationDBManager.addDB s2.db_manager_ request.db_name db_path role
        (some upstream_addr) with
    | none =>
      (s2, Except.error { e with errorCode := some AdminErrorCode.DB_ADMIN_ERROR,
                                 message := ext.db_manager_err_msg request.db_name })
    | some m => (s2.setRegistry true request.db_name m, Except.ok ())) s0

/-! ## backup and restore -/

/-- Member `AdminHandler::backupDBHelper`: the flag it returns, the exception
object as it leaves it, and the state. -/
def backupDBHelper (cfg : Flags) (ext : Ext) (db_name backup_dir : String)
    (enable_backup_rate_limit : Bool) (backup_rate_limit : Nat) (e : AdminException)
    (s0 : State) : State × Bool × AdminException :=
  withLock db_name (fun s =>
    let got := getDB ext s db_name e
    match got.1 with
    | none => (s, false, got.2)
    | some db =>
    let options : BackupableDBOptions :=
      { backup_dir := backup_dir,
        max_background_operations := cfg.num_hdfs_access_threads,
        backup_rate_limit :=
          if enable_backup_rate_limit && decide (backup_rate_limit > 0) then
            uint32_t (backup_rate_limit * kMB)
          else 0 }
    let s1 := s.emit (Effect.BackupEngine_Open options)
    match ext.BackupEngine_Open options with
    | Status.NotOK text =>
      (s1, false, { errorCode := some AdminErrorCode.DB_ADMIN_ERROR,
                    message := (Status.NotOK text).ToString })
    | Status.OK =>
    let s2 := s1.emit (Effect.CreateNewBackup db.rocksdb)
    (s2, (ext.CreateNewBackup db.rocksdb).ok, got.2)) s0

/-- Member `AdminHandler::restoreDBHelper`: the flag it returns, the exception
object as it leaves it, and the state. -/
def restoreDBHelper (cfg : Flags) (ext : Ext) (db_name backup_dir : String)
    (upstream_addr : SocketAddress) (enable_restore_rate_limit : Bool)
    (restore_rate_limit : Nat) (e : AdminException) (s0 : State) :
    State × Bool × AdminException :=
  withLock db_name (fun s =>
    match ApplicationDBManager.getDB s.db_manager_ db_name with
    | some _ =>
      (s, false, { errorCode := some AdminErrorCode.DB_EXIST,
                   message := "Could not restore an opened DB, close it first" })
    | none =>
    let options : BackupableDBOptions :=
      { backup_dir := backup_dir,
        max_background_operations := cfg.num_hdfs_access_threads,
        restore_rate_limit :=
          if enable_restore_rate_limit && decide (restore_rate_limit > 0) then
            uint32_t (restore_rate_limit * kMB)
          else 0 }
    let s1 := s.emit (Effect.BackupEngine_Open options)
    match ext.BackupEngine_Open options with
    | Status.NotOK text =>
      (s1, false, { errorCode := some AdminErrorCode.DB_ADMIN_ERROR,
                    message := (Status.NotOK text).ToString })
    | Status.OK =>
    let db_path := cfg.rocksdb_dir ++ db_name
    let s2 := s1.emit (Effect.RestoreDBFromLatestBackup db_path)
    match ext.RestoreDBFromLatestBackup db_path with
    | Status.NotOK text =>
      (s2, false, { errorCode := some AdminErrorCode.DB_ADMIN_ERROR,
                    message := (Status.NotOK text).ToString })
    | Status.OK =>
    let s3 := s2.emit (Effect.DB_Open db_path)
    match ext.DB_Open db_path with
    | Status.NotOK text =>
      (s3, false, { errorCode := some AdminErrorCode.DB_ERROR,
                    message := (Status.NotOK text).ToString })
    | Status.OK =>
    match ApplicationDBManager.addDB s3.db_manager_ db_name db_path DBRole.SLAVE
        (some upstream_addr) with
    | none =>
      (s3, false, { errorCode := some AdminErrorCode.DB_ADMIN_ERROR,
                    message := ext.db_manager_err_msg db_name })
    | some m => (s3.setRegistry true db_name m, true, e)) s0

/-- Request `BackupDBRequest`; `limit_mbs` is the optional rate limit, a
32-bit unsigned number of MiB/s. -/
structure BackupDBRequest where
  db_name : String
  hdfs_backup_dir : String
  limit_mbs : Option Nat := none
  deriving DecidableEq

/-- Handler `AdminHandler::async_tm_backupDB` (distributed file system). -/
def async_tm_backupDB (cfg : Flags) (ext : Ext) (request : BackupDBRequest)
    (s0 : State) : State × Result Unit :=
  let full_path := cfg.hdfs_name_node ++ request.hdfs_backup_dir
  let s1 := s0.emit (Effect.NewHdfsEnv full_path)
  match OKOrSetException (ext.NewHdfsEnv full_path) AdminErrorCode.DB_ADMIN_ERROR with
  | some ex => (s1, Except.error ex)
  | none =>
  let r := backupDBHelper cfg ext request.db_name full_path request.limit_mbs.isSome
    (uint32_t (request.limit_mbs.getD 0)) {} s1
  if r.2.1 then (r.1, Except.ok ()) else (r.1, Except.error r.2.2)

/-- Request `RestoreDBRequest`. -/
structure RestoreDBRequest where
  db_name : String
  hdfs_backup_dir : String
  upstream_ip : String
  limit_mbs : Option Nat := none
  deriving DecidableEq

/-- Handler `AdminHandler::async_tm_restoreDB` (distributed file system). -/
def async_tm_restoreDB (cfg : Flags) (ext : Ext) (request : RestoreDBRequest)
    (s0 : State) : State × Result Unit :=
  match SetAddressOrException ext request.upstream_ip
      (uint16_t cfg.rocksdb_replicator_port) with
  | Except.error ex => (s0, Except.error ex)
  | Except.ok upstream_addr =>
  let full_path := cfg.hdfs_name_node ++ request.hdfs_backup_dir
  let s1 := s0.emit (Effect.NewHdfsEnv full_path)
  match OKOrSetException (ext.NewHdfsEnv full_path) AdminErrorCode.DB_ADMIN_ERROR with
  | some ex => (s1, Except.error ex)
  | none =>
  let r := restoreDBHelper cfg ext request.db_name full_path upstream_addr
    request.limit_mbs.isSome (uint32_t (request.limit_mbs.getD 0)) {} s1
  if r.2.1 then (r.1, Except.ok ()) else (r.1, Except.error r.2.2)

/-- Helper `rtrim`: drop one trailing `c`. -/
def rtrim (str : String) (c : Char) : String :=
  if str.length > 0 && str.back == c then str.dropRight 1 else str

/-- Helper `should_new_s3_client`. -/
def should_new_s3_client (s3_util : S3Util) (s3_download_limit_mb : Nat)
    (s3_bucket : String) : Bool :=
  s3_util.bucket != s3_bucket || s3_util.rate_limit_mb != s3_download_limit_mb

/-- Member `AdminHandler::createLocalS3Util`: the cached client is rebuilt when
there is none or when bucket or rate limit differ. -/
def createLocalS3Util (s : State) (read_ratelimit_mb : Nat) (bucket : String) :
    State × S3Util :=
  let rebuild :=
    match s.s3_util_ with
    | none => true
    | some u => should_new_s3_client u read_ratelimit_mb bucket
  if rebuild then
    ({ s with s3_util_ := some ⟨bucket, read_ratelimit_mb⟩ }.emit
        (Effect.BuildS3Util read_ratelimit_mb bucket),
     ⟨bucket, read_ratelimit_mb⟩)
  else (s, ⟨bucket, read_ratelimit_mb⟩)

/-- Scope of the upload counter in `async_tm_backupDBToS3`: `fetch_add(1)`
hands the previous value `n` to the body, and the scope exit does
`fetch_sub(1)`. -/
def withUploadCount {α : Type} (body : Int → State → State × α) (s : State) :
    State × α :=
  let n := s.num_current_s3_sst_uploadings_
  let r := body n { s with num_current_s3_sst_uploadings_ := n + 1 }
  ({ r.1 with num_current_s3_sst_uploadings_ :=
       r.1.num_current_s3_sst_uploadings_ - 1 }, r.2)

/-- Scope of the download counter in `async_tm_restoreDBFromS3` and
`async_tm_addS3SstFilesToDB`. -/
def withDownloadCount {α : Type} (body : Int → State → State × α) (s : State) :
    State × α :=
  let n := s.num_current_s3_sst_downloadings_
  let r := body n { s with num_current_s3_sst_downloadings_ := n + 1 }
  ({ r.1 with num_current_s3_sst_downloadings_ :=
       r.1.num_current_s3_sst_downloadings_ - 1 }, r.2)

/-- Staging of the scratch directory: `remove_all`, `create_directories`, and
the `SCOPE_EXIT` that calls `remove_all` around the rest; the rest runs only when neither
call reported an error. -/
def withScratchDir {α : Type} (ext : Ext) (local_path : String)
    (failed : AdminException) (body : State → State × Result α) (s : State) :
    State × Result α :=
  let s1 := (s.emit (Effect.remove_all local_path)).emit
    (Effect.create_directories local_path)
  let r : State × Result α :=
    if ext.remove_all_err local_path || ext.create_directories_err local_path then
      (s1, Except.error failed)
    else body s1
  (r.1.emit (Effect.remove_all local_path), r.2)

/-- Request `BackupDBToS3Request`. -/
structure BackupDBToS3Request where
  db_name : String
  s3_bucket : String
  s3_backup_dir : String
  limit_mbs : Option Nat := none
  deriving DecidableEq

/-- Handler `AdminHandler::async_tm_backupDBToS3`. -/
def async_tm_backupDBToS3 (cfg : Flags) (ext : Ext) (request : BackupDBToS3Request)
    (s0 : State) : State × Result Unit :=
  withUploadCount (fun n s =>
    let e : AdminException := {}
    if n ≥ cfg.max_s3_sst_loading_concurrency then
      (s, Except.error { e with message :=
        "Concurrent uploading/downloading limit hits " ++ toString n ++ " by " ++
          request.db_name })
    else
    let local_path := cfg.rocksdb_dir ++ "s3_tmp/" ++ request.db_name ++ "/"
    withScratchDir ext local_path
      { errorCode := some AdminErrorCode.DB_ADMIN_ERROR,
        message := "Cannot remove/create dir: " ++ local_path }
      (fun s1 =>
        let c := createLocalS3Util s1 (uint32_t (request.limit_mbs.getD 0))
          request.s3_bucket
        let formatted_s3_dir_path := rtrim request.s3_backup_dir '/'
        let s2 := c.1.emit (Effect.NewS3Env formatted_s3_dir_path local_path)
        let r := backupDBHelper cfg ext request.db_name formatted_s3_dir_path
          request.limit_mbs.isSome (uint32_t (request.limit_mbs.getD 0)) e s2
        if r.2.1 then (r.1, Except.ok ()) else (r.1, Except.error r.2.2)) s) s0

/-- Request `RestoreDBFromS3Request`. -/
structure RestoreDBFromS3Request where
  db_name : String
  s3_bucket : String
  s3_backup_dir : String
  upstream_ip : String
  limit_mbs : Option Nat := none
  deriving DecidableEq

/-- Handler `AdminHandler::async_tm_restoreDBFromS3`. -/
def async_tm_restoreDBFromS3 (cfg : Flags) (ext : Ext)
    (request : RestoreDBFromS3Request) (s0 : State) : State × Result Unit :=
  withDownloadCount (fun n s =>
    let e : AdminException := {}
    if n ≥ cfg.max_s3_sst_loading_concurrency then
      (s, Except.error { e with message :=
        "Concurrent uploading/downloading limit hits " ++ toString n ++ " by " ++
          request.db_name })
    else
    let local_path := cfg.rocksdb_dir ++ "s3_tmp/" ++ request.db_name ++ "/"
    withScratchDir ext local_path
      { errorCode := some AdminErrorCode.DB_ADMIN_ERROR,
        message := "Cannot remove/create dir: " ++ local_path }
      (fun s1 =>
        match SetAddressOrException ext request.upstream_ip
            (uint16_t cfg.rocksdb_replicator_port) with
        | Except.error ex => (s1, Except.error ex)
        | Except.ok upstream_addr =>
        let c := createLocalS3Util s1 (uint32_t (request.limit_mbs.getD 0))
          request.s3_bucket
        let formatted_s3_dir_path := rtrim request.s3_backup_dir '/'
        let s2 := c.1.emit (Effect.NewS3Env formatted_s3_dir_path local_path)
        let r := restoreDBHelper cfg ext request.db_name formatted_s3_dir_path
          upstream_addr request.limit_mbs.isSome
          (uint32_t (request.limit_mbs.getD 0)) e s2
        if r.2.1 then (r.1, Except.ok ()) else (r.1, Except.error r.2.2)) s) s0

/-! ## check-db, close-db, change-role-and-upstream, get-sequence-number -/

/-- Response `CheckDBResponse`. -/
structure CheckDBResponse where
  seq_num : Nat
  wal_ttl_seconds : Nat
  is_master : Bool
  last_update_timestamp_ms : Option Int := none
  deriving DecidableEq

/-- Handler `AdminHandler::async_tm_checkDB`. -/
def async_tm_checkDB (ext : Ext) (db_name : String) (s : State) :
    State × Result CheckDBResponse :=
  let got := getDB ext s db_name {}
  match got.1 with
  | none => (s, Except.error got.2)
  | some db =>
  let s1 := s.emit (Effect.GetLatestSequenceNumber db.rocksdb)
  let seq_num := ext.GetLatestSequenceNumber db.rocksdb
  let response : CheckDBResponse :=
    { seq_num := seq_num,
      wal_ttl_seconds := ext.WAL_ttl_seconds db.rocksdb,
      is_master := !db.IsSlave }
  -- If there is at least one update
  if seq_num ≠ 0 then
    (s1.emit (Effect.GetUpdatesSince db.rocksdb seq_num),
     Except.ok { response with
       last_update_timestamp_ms := ext.GetUpdatesSince db.rocksdb seq_num })
  else (s1, Except.ok response)

/-- Handler `AdminHandler::async_tm_closeDB`. -/
def async_tm_closeDB (ext : Ext) (db_name : String) (s0 : State) :
    State × Result Unit :=
  withLock db_name (fun s =>
    let r := removeDB ext s db_name {}
    match r.1 with
    | none => (r.2.2, Except.error r.2.1)
    | some _ => (r.2.2, Except.ok ())) s0

/-- Request `ChangeDBRoleAndUpstreamRequest`. -/
structure ChangeDBRoleAndUpstreamRequest where
  db_name : String
  new_role : String
  upstream_ip : Option String := none
  upstream_port : Option Int := none
  deriving DecidableEq

/-- Handler `AdminHandler::async_tm_changeDBRoleAndUpStream`. -/
def async_tm_changeDBRoleAndUpStream (cfg : Flags) (ext : Ext)
    (request : ChangeDBRoleAndUpstreamRequest) (s0 : State) : State × Result Unit :=
  withLock request.db_name (fun s =>
    let e : AdminException := {}
    let new_role : Option DBRole :=
      if request.new_role = "MASTER" then some DBRole.MASTER
      else if request.new_role = "SLAVE" then some DBRole.SLAVE
      else none
    match new_role with
    | none =>
      (s, Except.error { e with errorCode := some AdminErrorCode.INVALID_DB_ROLE,
                                message := request.new_role })
    | some new_role =>
    let parsed : Except AdminException (Option SocketAddress) :=
      if new_role = DBRole.SLAVE ∧ request.upstream_ip.isSome ∧
          request.upstream_port.isSome then
        match SetAddressOrException ext (request.upstream_ip.getD "")
            (uint16_t cfg.rocksdb_replicator_port) with
        | Except.error ex => Except.error ex
        | Except.ok addr => Except.ok (some addr)
      else Except.ok none
    match parsed with
    | Except.error ex => (s, Except.error ex)
    | Except.ok upstream_addr =>
    let r := removeDB ext s request.db_name e
    match r.1 with
    | none => (r.2.2, Except.error r.2.1)
    | some db =>
    match ApplicationDBManager.addDB r.2.2.db_manager_ request.db_name db new_role
        upstream_addr with
    | none =>
      (r.2.2, Except.error { r.2.1 with
        errorCode := some AdminErrorCode.DB_ADMIN_ERROR,
        message := ext.db_manager_err_msg request.db_name })
    | some m => (r.2.2.setRegistry true request.db_name m, Except.ok ())) s0

/-- Handler `AdminHandler::async_tm_getSequenceNumber`. -/
def async_tm_getSequenceNumber (ext : Ext) (db_name : String) (s : State) :
    State × Result Nat :=
  let got := getDB ext s db_name {}
  match got.1 with
  | none => (s, Except.error got.2)
  | some db =>
    (s.emit (Effect.GetLatestSequenceNumber db.rocksdb),
     Except.ok (ext.GetLatestSequenceNumber db.rocksdb))

/-! ## clear-db -/

/-- Request `ClearDBRequest`. -/
structure ClearDBRequest where
  db_name : String
  reopen_db : Option Bool := none
  deriving DecidableEq

/-- Handler `AdminHandler::async_tm_clearDB`. -/
def async_tm_clearDB (cfg : Flags) (ext : Ext) (request : ClearDBRequest)
    (s0 : State) : State × Result Unit :=
  withLock request.db_name (fun s =>
    -- role and upstream of the registered database, NOOP and none otherwise
    let seen : Bool × DBRole × Option SocketAddress :=
      match (getDB ext s request.db_name {}).1 with
      | some db =>
        (true, if db.IsSlave then DBRole.SLAVE else DBRole.MASTER, db.upstream_addr)
      | none => (false, DBRole.NOOP, none)
    let need_to_reopen := seen.1
    let db_role := seen.2.1
    let upstream_addr := seen.2.2
    let s1 := (removeDB ext s request.db_name {}).2.2
    let db_path := cfg.rocksdb_dir ++ request.db_name
    let s2 := (clearMetaData ext s1 request.db_name).2
    let s3 := s2.emit (Effect.DestroyDB db_path)
    match OKOrSetException (ext.DestroyDB db_path) AdminErrorCode.DB_ADMIN_ERROR with
    | some ex => (s3, Except.error ex)
    | none =>
    if request.reopen_db.getD false && need_to_reopen then
      let s4 := s3.emit (Effect.DB_Open db_path)
      if (ext.DB_Open db_path).ok then
        match ApplicationDBManager.addDB s4.db_manager_ request.db_name db_path db_role
            upstream_addr with
        | none =>
          (s4, Except.error { errorCode := some AdminErrorCode.DB_ADMIN_ERROR,
                              message := ext.db_manager_err_msg request.db_name })
        | some m => (s4.setRegistry true request.db_name m, Except.ok ())
      else
        (s4, Except.error { errorCode := some AdminErrorCode.DB_ADMIN_ERROR,
                            message := "Failed to open DB: " ++ request.db_name })
    else (s3, Except.ok ())) s0

/-! ## add-object-store-files-to-db -/

/-- Request `AddS3SstFilesToDBRequest`. -/
structure AddS3SstFilesToDBRequest where
  db_name : String
  s3_bucket : String
  s3_path : String
  s3_download_limit_mb : Option Nat := none
  deriving DecidableEq

/-- The test under which the directory loop of `async_tm_addS3SstFilesToDB`
skips a file name (`continue`): shorter than the suffix plus one, or not
ending in the suffix.  Sizes are byte counts; the last bytes are compared as
characters, which is the same for the one-byte characters of the suffix. -/
def skip_non_sst_file (file_name : String) : Bool :=
  let suffix := ".sst"
  decide (file_name.utf8ByteSize < suffix.utf8ByteSize + 1) ||
    (file_name.toList.drop (file_name.length - suffix.length) != suffix.toList)

/-- The part of `async_tm_addS3SstFilesToDB` that runs when overlapping keys
are not allowed: remove the database from the registry, destroy it on disk,
open it again and register it; the result is the handle used for the ingest. -/
def addS3_clear_and_reopen (cfg : Flags) (ext : Ext) (db_name : String)
    (db : ApplicationDB) (s : State) : State × Result ApplicationDB :=
  let db_role := if db.IsSlave then DBRole.SLAVE else DBRole.MASTER
  let upstream_addr : Option SocketAddress :=
    if db_role = DBRole.SLAVE ∧ db.upstream_addr ≠ none then db.upstream_addr else none
  let s1 := (removeDB ext s db_name {}).2.2
  let db_path := cfg.rocksdb_dir ++ db_name
  let s2 := s1.emit (Effect.DestroyDB db_path)
  match OKOrSetException (ext.DestroyDB db_path) AdminErrorCode.DB_ADMIN_ERROR with
  | some ex => (s2, Except.error ex)
  | none =>
  -- reopen it
  let s3 := s2.emit (Effect.DB_Open db_path)
  if (ext.DB_Open db_path).ok then
    match ApplicationDBManager.addDB s3.db_manager_ db_name db_path db_role
        upstream_addr with
    | none =>
      (s3, Except.error { errorCode := some AdminErrorCode.DB_ADMIN_ERROR,
                          message := ext.db_manager_err_msg db_name })
    | some m =>
      let s4 := s3.setRegistry true db_name m
      match (getDB ext s4 db_name {}).1 with
      | some reopened => (s4, Except.ok reopened)
      -- the code dereferences the handle it has just registered
      | none => (s4, Except.error { errorCode := some AdminErrorCode.DB_ADMIN_ERROR,
                                    message := ext.db_manager_err_msg db_name })
  else
    (s3, Except.error { errorCode := some AdminErrorCode.DB_ADMIN_ERROR,
                        message := "Failed to open DB: " ++ db_name })

/-- Handler `AdminHandler::async_tm_addS3SstFilesToDB`. -/
def async_tm_addS3SstFilesToDB (cfg : Flags) (ext : Ext)
    (request : AddS3SstFilesToDBRequest) (s0 : State) : State × Result Unit :=
  let e : AdminException := { errorCode := some AdminErrorCode.DB_ADMIN_ERROR }
  withLock request.db_name (fun s =>
    match (getDB ext s request.db_name {}).1 with
    | none => (s, Except.error { e with message := request.db_name ++ " doesnt exist." })
    | some db =>
    let mdata := getMetaData s request.db_name
    if mdata.s3_bucket = some request.s3_bucket ∧ mdata.s3_path = some request.s3_path then
      (s, Except.ok ())
    else
    -- limit the allowed concurrent loadings
    withDownloadCount (fun n s =>
      if n ≥ cfg.max_s3_sst_loading_concurrency then
        (s, Except.error { e with message :=
          "Concurrent downloading limit hits " ++ toString n ++ " by " ++
            request.db_name })
      else
      let local_path := cfg.rocksdb_dir ++ "s3_tmp/" ++ request.db_name ++ "/"
      withScratchDir ext local_path
        { e with message := "Cannot remove/create dir: " ++ local_path }
        (fun s1 =>
          let limit_mb : Nat :=
            if cfg.s3_download_limit_mb > 0 then cfg.s3_download_limit_mb.toNat
            else request.s3_download_limit_mb.getD 0
          let c := createLocalS3Util s1 (uint32_t limit_mb) request.s3_bucket
          let s2 := c.1.emit (Effect.getObjects request.s3_path local_path)
          let responses := ext.getObjects request.s3_path local_path
          if responses.Error ≠ "" ∨ responses.Body.length = 0 then
            (s2, Except.error { e with message :=
              "Failed to list any object from " ++ request.s3_path ++
                (if responses.Error ≠ "" then " AWS Error: " ++ responses.Error
                 else "") })
          else
          match responses.Body.find? (fun response => !response.1) with
          | some response => (s2, Except.error { e with message := response.2 })
          | none =>
          let sst_file_paths : List String :=
            ((ext.directory_listing local_path).filter
              (fun file_name => !skip_non_sst_file file_name)).map
              (fun file_name => local_path ++ file_name)
          let s3 := (clearMetaData ext s2 request.db_name).2
          let segment := ext.DbNameToSegment request.db_name
          let allow_overlapping_keys :=
            cfg.allow_overlapping_keys_segments_.contains segment ||
              cfg.rocksdb_allow_overlapping_keys
          let cleared : State × Result ApplicationDB :=
            if !allow_overlapping_keys then
              -- clear DB if overlapping keys are not allowed
              addS3_clear_and_reopen cfg ext request.db_name db s3
            else (s3, Except.ok db)
          match cleared.2 with
          | Except.error ex => (cleared.1, Except.error ex)
          | Except.ok db =>
          let ifo : IngestExternalFileOptions :=
            { move_files := true,
              allow_global_seqno := allow_overlapping_keys,
              allow_blocking_flush := allow_overlapping_keys }
          let s4 := cleared.1.emit (Effect.IngestExternalFile db.rocksdb sst_file_paths ifo)
          match OKOrSetException (ext.IngestExternalFile db.rocksdb sst_file_paths ifo)
              AdminErrorCode.DB_ADMIN_ERROR with
          | some ex => (s4, Except.error ex)
          | none =>
          let s5 := (writeMetaData ext s4 request.db_name request.s3_bucket
            request.s3_path cfg.writeMetaData_default_timestamp_ms).2
          let s6 :=
            if cfg.compact_db_after_load_sst then s5.emit (Effect.CompactRange db.rocksdb)
            else s5
          (s6, Except.ok ())) s) s) s0

/-! ## start and stop message ingestion -/

/-- Request `StartMessageIngestionRequest`. -/
structure StartMessageIngestionRequest where
  db_name : String
  topic_name : String
  kafka_broker_serverset_path : String
  replay_timestamp_ms : Int
  is_kafka_payload_serialized : Bool
  deriving DecidableEq

/-- Handler `AdminHandler::async_tm_startMessageIngestion`, up to and
including the call of `StartWith`; the messages the watcher then delivers are
handled by the callback, one call per message. -/
def async_tm_startMessageIngestion (ext : Ext)
    (request : StartMessageIngestionRequest) (s0 : State) : State × Result Unit :=
  let db_name := request.db_name
  withLock db_name (fun s =>
    let got := getDB ext s db_name { errorCode := some AdminErrorCode.DB_ADMIN_ERROR }
    let e := got.2
    match got.1 with
    | none => (s, Except.error { e with message := db_name ++ " doesn't exist." })
    | some _ =>
    -- Compare the value in local_meta_db with replay_timestamp_ms and choose
    -- the latest.
    let mdata := getMetaData s db_name
    let replay_timestamp_ms :=
      max (mdata.last_kafka_msg_timestamp_ms.getD 0) request.replay_timestamp_ms
    -- Check if there's already a thread consuming the same partition.
    if (NameMap.find s.kafka_watcher_map_ db_name).isSome then
      (s, Except.error { e with message := db_name ++ " is already being consumed" })
    else
    -- Kafka partition to consume is the shard id in rocksdb.
    let partition_id := ext.ExtractShardId db_name
    if partition_id = -1 then
      (s, Except.error { e with message := "Invalid db_name: " ++ db_name })
    else
    let kafka_watcher : KafkaWatcher :=
      { partition_id := partition_id,
        topic_name := request.topic_name,
        replay_timestamp_ms := replay_timestamp_ms,
        should_deserialize := request.is_kafka_payload_serialized,
        message_count := 0 }
    let watchers := NameMap.insert s.kafka_watcher_map_ db_name kafka_watcher
    let s1 := { s with kafka_watcher_map_ := watchers }
    (s1.emit (Effect.StartWith db_name replay_timestamp_ms), Except.ok ())) s0

/-- Handler `AdminHandler::async_tm_stopMessageIngestion`. -/
def async_tm_stopMessageIngestion (ext : Ext) (db_name : String) (s0 : State) :
    State × Result Unit :=
  withLock db_name (fun s =>
    let got := getDB ext s db_name { errorCode := some AdminErrorCode.DB_ADMIN_ERROR }
    let e := got.2
    match got.1 with
    | none => (s, Except.error { e with message := db_name ++ " doesn't exist." })
    | some _ =>
    -- Verify that there is thread consuming messages for this db.
    match NameMap.find s.kafka_watcher_map_ db_name with
    | none => (s, Except.error { e with message := db_name ++ " is not being consumed" })
    | some _ =>
    -- Stop the watcher.
    let s1 := s.emit (Effect.StopAndWait db_name)
    ({ s1 with kafka_watcher_map_ := NameMap.erase s1.kafka_watcher_map_ db_name },
     Except.ok ())) s0

/-! ## set-db-options, compact-db -/

/-- Handler `AdminHandler::async_tm_setDBOptions`. -/
def async_tm_setDBOptions (ext : Ext) (db_name : String)
    (options : List (String × String)) (s0 : State) : State × Result Unit :=
  withLock db_name (fun s =>
    let got := getDB ext s db_name {}
    match got.1 with
    | none => (s, Except.error got.2)
    | some db =>
    -- Assume we always use default column family
    let s1 := s.emit (Effect.SetOptions db.rocksdb options)
    match OKOrSetException (ext.SetOptions db.rocksdb options)
        AdminErrorCode.DB_ADMIN_ERROR with
    | some ex => (s1, Except.error ex)
    | none => (s1, Except.ok ())) s0

/-- Handler `AdminHandler::async_tm_compactDB`. -/
def async_tm_compactDB (ext : Ext) (db_name : String) (s : State) :
    State × Result Unit :=
  let got := getDB ext s db_name {}
  match got.1 with
  | none => (s, Except.error got.2)
  | some db =>
  let s1 := s.emit (Effect.CompactRange db.rocksdb)
  match ext.CompactRange db.rocksdb with
  | Status.NotOK text =>
    (s1, Except.error { got.2 with message := (Status.NotOK text).ToString,
                                   errorCode := some AdminErrorCode.DB_ERROR })
  | Status.OK => (s1, Except.ok ())

/-! ## Concrete configurations, collaborators and states -/

/-- Flags with the defaults of the file; replication port 9091. -/
def cfg0 : Flags :=
  { hdfs_name_node := "hdfs://namenode:8020"
    rocksdb_dir := "/tmp/"
    num_hdfs_access_threads := 8
    rocksdb_allow_overlapping_keys := false
    compact_db_after_load_sst := false
    rocksdb_replicator_port := 9091
    s3_direct_io_flag := false
    max_s3_sst_loading_concurrency := 999
    s3_download_limit_mb := 0
    kafka_ts_update_interval := 1000
    allow_overlapping_keys_segments_ := [""]
    writeMetaData_default_timestamp_ms := -1 }

/-- Collaborators that succeed at everything; the only ip accepted is
`10.0.0.2`, every name is shard 0 of segment `alpha`. -/
def ext_ok : Ext :=
  { setFromIpPort_ok := fun ip => decide (ip = "10.0.0.2")
    DbNameToSegment := fun _ => "alpha"
    ExtractShardId := fun _ => 0
    db_manager_err_msg := fun db_name => db_name ++ " not usable"
    DestroyDB := fun _ => Status.OK
    DB_Open := fun _ => Status.OK
    NewHdfsEnv := fun _ => Status.OK
    BackupEngine_Open := fun _ => Status.OK
    CreateNewBackup := fun _ => Status.OK
    RestoreDBFromLatestBackup := fun _ => Status.OK
    remove_all_err := fun _ => false
    create_directories_err := fun _ => false
    getObjects := fun _ _ => ⟨"", [(true, "")]⟩
    directory_listing := fun _ => ["000001.sst"]
    IngestExternalFile := fun _ _ _ => Status.OK
    CompactRange := fun _ => Status.OK
    SetOptions := fun _ _ => Status.OK
    GetLatestSequenceNumber := fun _ => 0
    WAL_ttl_seconds := fun _ => 0
    GetUpdatesSince := fun _ _ => none
    meta_db_Put_ok := fun _ => true
    meta_db_Delete_ok := fun _ => true }

/-- Collaborators as `ext_ok`, but the distributed file system environment
cannot be created. -/
def ext_no_hdfs : Ext :=
  { ext_ok with NewHdfsEnv := fun _ => Status.NotOK "Not compiled with hdfs support" }

/-- A handler with nothing registered. -/
def st_empty : State :=
  { db_manager_ := []
    meta_db_ := []
    kafka_watcher_map_ := []
    num_current_s3_sst_downloadings_ := 0
    num_current_s3_sst_uploadings_ := 0
    s3_util_ := none
    trace := [] }

/-- A handler hosting `alpha_0` with the given role and upstream. -/
def st_hosting (role : DBRole) (upstream_addr : Option SocketAddress) : State :=
  { st_empty with db_manager_ := [("alpha_0", ⟨"/tmp/alpha_0", role, upstream_addr⟩)] }

/-- A handler hosting `alpha_0` as a secondary of `10.0.0.2:9091`. -/
def st_alpha : State := st_hosting DBRole.SLAVE (some ⟨"10.0.0.2", 9091⟩)

/-- The calls made between two states: none goes to the storage engine or to
the backup engine. -/
def NoEngineCallSince (s s' : State) : Prop :=
  ∃ calls, s'.trace = s.trace ++ calls ∧ ∀ c ∈ calls, c.isEngineCall = false

/-- The sequence add-db; close-db; add-db with the same request: the three
outcomes, each with the state it leaves. -/
def add_close_add (cfg : Flags) (ext1 ext2 ext3 : Ext) (request : AddDBRequest)
    (s : State) :
    (State × Result Unit) × (State × Result Unit) × (State × Result Unit) :=
  let r1 := async_tm_addDB cfg ext1 request s
  let r2 := async_tm_closeDB ext2 request.db_name r1.1
  let r3 := async_tm_addDB cfg ext3 request r2.1
  (r1, r2, r3)

/-- The registry, the metadata store and the watcher map of two states agree. -/
def SameStores (s s' : State) : Prop :=
  s'.db_manager_ = s.db_manager_ ∧ s'.meta_db_ = s.meta_db_ ∧
    s'.kafka_watcher_map_ = s.kafka_watcher_map_

/-- The outcome is an exception with the given error code. -/
def FailsWith {α : Type} (r : Result α) (code : AdminErrorCode) : Prop :=
  ∃ message, r = Except.error ⟨some code, message⟩

/-- A handler hosting `alpha_0` with role inert, as add-db with role "NOOP"
leaves it. -/
def st_noop : State := st_hosting DBRole.NOOP (some ⟨"10.0.0.2", 9091⟩)

/-- Flags as `cfg0`, with at most one object-store transfer at a time. -/
def cfg_cap1 : Flags := { cfg0 with max_s3_sst_loading_concurrency := 1 }

/-- A handler hosting `alpha_0` whose metadata record names bucket `b` and
path `snap/1`. -/
def st_snapshot : State :=
  { st_alpha with
      meta_db_ := [("alpha_0",
        { db_name := "alpha_0", s3_bucket := some "b", s3_path := some "snap/1" })] }

/-- Collaborators as `ext_ok`, but the backup engine fails to create a backup. -/
def ext_backup_fails : Ext :=
  { ext_ok with CreateNewBackup := fun _ => Status.NotOK "IO error: No space left on device" }

/-- Collaborators as `ext_ok`, but writes to the metadata store fail. -/
def ext_meta_put_fails : Ext := { ext_ok with meta_db_Put_ok := fun _ => false }

/-- Collaborators as `ext_ok`, but the on-disk database cannot be destroyed. -/
def ext_destroy_fails : Ext :=
  { ext_ok with DestroyDB := fun _ => Status.NotOK "IO error: lock held" }

/-- Collaborators as `ext_ok`, but the database cannot be opened. -/
def ext_open_fails : Ext :=
  { ext_ok with DB_Open := fun _ => Status.NotOK "Corruption: bad manifest" }

/-- Collaborators as `ext_ok`, but the ingest of the files fails. -/
def ext_ingest_fails : Ext :=
  { ext_ok with IngestExternalFile := fun _ _ _ => Status.NotOK "Corruption: bad table" }

/-- Collaborators as `ext_ok`, with a scratch directory that holds a file
named exactly `.sst`, a table file and a text file. -/
def ext_listing : Ext :=
  { ext_ok with directory_listing := fun _ => [".sst", "a.sst", "notes.txt"] }

/-- Does bulk ingest allow overlapping keys for the database?  The flag, or
the segment being in the configured set (lines 1154-1160). -/
def allow_overlapping_keys (cfg : Flags) (ext : Ext) (db_name : String) : Bool :=
  cfg.allow_overlapping_keys_segments_.contains (ext.DbNameToSegment db_name) ||
    cfg.rocksdb_allow_overlapping_keys

/-- The run of `async_tm_addS3SstFilesToDB` gets as far as clearing the
metadata record: the name is registered, the stored bucket and path differ
from the request, the gate is open, the scratch directory was staged and every
object was listed and fetched. -/
def ReachesMetadataClear (cfg : Flags) (ext : Ext) (request : AddS3SstFilesToDBRequest)
    (s : State) : Prop :=
  NameMap.find s.db_manager_ request.db_name ≠ none ∧
  ¬ ((getMetaData s request.db_name).s3_bucket = some request.s3_bucket ∧
      (getMetaData s request.db_name).s3_path = some request.s3_path) ∧
  s.num_current_s3_sst_downloadings_ < cfg.max_s3_sst_loading_concurrency ∧
  ext.remove_all_err (cfg.rocksdb_dir ++ "s3_tmp/" ++ request.db_name ++ "/") = false ∧
  ext.create_directories_err (cfg.rocksdb_dir ++ "s3_tmp/" ++ request.db_name ++ "/") = false ∧
  (ext.getObjects request.s3_path
    (cfg.rocksdb_dir ++ "s3_tmp/" ++ request.db_name ++ "/")).Error = "" ∧
  (ext.getObjects request.s3_path
    (cfg.rocksdb_dir ++ "s3_tmp/" ++ request.db_name ++ "/")).Body ≠ [] ∧
  (ext.getObjects request.s3_path
    (cfg.rocksdb_dir ++ "s3_tmp/" ++ request.db_name ++ "/")).Body.find?
      (fun response => !response.1) = none

/-- Whether a run gets as far as clearing the metadata record can be computed. -/
instance ReachesMetadataClear.decidable (cfg : Flags) (ext : Ext)
    (request : AddS3SstFilesToDBRequest) (s : State) :
    Decidable (ReachesMetadataClear cfg ext request s) := by
  unfold ReachesMetadataClear
  infer_instance

/-! ## The concurrency gate under interleaving -/

/-- The three handlers that pass the gate. -/
inductive GatedOp
  | backupDBToS3
  | restoreDBFromS3
  | addS3SstFilesToDB
  deriving DecidableEq

/-- Does the handler count on `num_current_s3_sst_uploadings_`?  The other two
count on `num_current_s3_sst_downloadings_`. -/
def GatedOp.isUpload : GatedOp → Bool
  | GatedOp.backupDBToS3 => true
  | GatedOp.restoreDBFromS3 => false
  | GatedOp.addS3SstFilesToDB => false

/-- The two counters as concurrent handlers see them, and the number of
handlers that have done `fetch_add(1)` and not yet `fetch_sub(1)`: per counter,
those that passed the comparison with the cap and those that were rejected. -/
structure GateState where
  num_current_s3_sst_uploadings_ : Int
  num_current_s3_sst_downloadings_ : Int
  uploads_passed : Nat
  uploads_rejected : Nat
  downloads_passed : Nat
  downloads_rejected : Nat
  deriving DecidableEq

/-- Steps of one handler at the gate: the entry (`fetch_add(1)` and the
comparison `n >= FLAGS_max_s3_sst_loading_concurrency`), and the scope exit
(`fetch_sub(1)`) of a handler that passed or of one that was rejected. -/
inductive GateStep
  | enter (op : GatedOp)
  | exit_passed (op : GatedOp)
  | exit_rejected (op : GatedOp)
  deriving DecidableEq

/-- One step at the gate; `none` when the step belongs to no handler in
flight. -/
def gateStep (max_concurrency : Int) (g : GateState) : GateStep → Option GateState
  | GateStep.enter op =>
    if op.isUpload then
      let n := g.num_current_s3_sst_uploadings_
      if n ≥ max_concurrency then
        some { g with num_current_s3_sst_uploadings_ := n + 1,
                      uploads_rejected := g.uploads_rejected + 1 }
      else
        some { g with num_current_s3_sst_uploadings_ := n + 1,
                      uploads_passed := g.uploads_passed + 1 }
    else
      let n := g.num_current_s3_sst_downloadings_
      if n ≥ max_concurrency then
        some { g with num_current_s3_sst_downloadings_ := n + 1,
                      downloads_rejected := g.downloads_rejected + 1 }
      else
        some { g with num_current_s3_sst_downloadings_ := n + 1,
                      downloads_passed := g.downloads_passed + 1 }
  | GateStep.exit_passed op =>
    if op.isUpload then
      if g.uploads_passed = 0 then none
      else some { g with
        num_current_s3_sst_uploadings_ := g.num_current_s3_sst_uploadings_ - 1,
        uploads_passed := g.uploads_passed - 1 }
    else
      if g.downloads_passed = 0 then none
      else some { g with
        num_current_s3_sst_downloadings_ := g.num_current_s3_sst_downloadings_ - 1,
        downloads_passed := g.downloads_passed - 1 }
  | GateStep.exit_rejected op =>
    if op.isUpload then
      if g.uploads_rejected = 0 then none
      else some { g with
        num_current_s3_sst_uploadings_ := g.num_current_s3_sst_uploadings_ - 1,
        uploads_rejected := g.uploads_rejected - 1 }
    else
      if g.downloads_rejected = 0 then none
      else some { g with
        num_current_s3_sst_downloadings_ := g.num_current_s3_sst_downloadings_ - 1,
        downloads_rejected := g.downloads_rejected - 1 }

/-- A sequence of steps at the gate. -/
def gateRun (max_concurrency : Int) : List GateStep → GateState → Option GateState
  | [], g => some g
  | step :: rest, g =>
    match gateStep max_concurrency g step with
    | none => none
    | some g1 => gateRun max_concurrency rest g1

/-- The gate of a handler that has just been constructed. -/
def gate_init : GateState :=
  { num_current_s3_sst_uploadings_ := 0
    num_current_s3_sst_downloadings_ := 0
    uploads_passed := 0
    uploads_rejected := 0
    downloads_passed := 0
    downloads_rejected := 0 }

/-- What holds of the gate in every reachable state: each counter is the
number of its handlers in flight, and the handlers of a counter that passed
are at most the cap. -/
def GateInvariant (max_concurrency : Int) (g : GateState) : Prop :=
  g.num_current_s3_sst_uploadings_ = (g.uploads_passed : Int) + g.uploads_rejected ∧
  g.num_current_s3_sst_downloadings_ = (g.downloads_passed : Int) + g.downloads_rejected ∧
  (g.uploads_passed : Int) ≤ max_concurrency ∧
  (g.downloads_passed : Int) ≤ max_concurrency

/-! ## The message callback of an ingestion watcher -/

/-- Modelled from the spec: `admin::KafkaOperationCode` (thrift definition, not
among the sources), "op-code ∈ {PUT, DELETE, MERGE}"; `other` stands for a
decoded code that is none of the three, which the callback handles in the
`default` branch of its switch. -/
inductive KafkaOperationCode
  | PUT
  | DELETE
  | MERGE
  | other (code : Int)
  deriving DecidableEq

/-- Modelled from the spec: `admin::KafkaMessagePayload` (thrift definition, not
among the sources), "a compact-serialized record { op-code, value? }". -/
structure KafkaMessagePayload where
  op_code : KafkaOperationCode
  value : Option String := none
  deriving DecidableEq

/-- What the callback reads of an `RdKafka::Message`: key, payload and
`timestamp().timestamp` (milliseconds). -/
structure KafkaMessage where
  key : String
  payload : String
  timestamp : Int
  deriving DecidableEq

/-- Answers of the collaborators of the message callback. -/
structure KafkaExt where
  /-- What `apache::thrift::BinarySerializer::deserialize` reads from a payload;
  `none` when it throws. -/
  deserialize : String → Option KafkaMessagePayload
  /-- Answer of `common::timeutil::GetCurrentTimestamp` in milliseconds. -/
  GetCurrentTimestamp : Int
  Put : String → String → String → Status
  Delete : String → String → Status
  Merge : String → String → String → Status

def kKafkaConsumerLatency : String := "kafka_consumer_latency"
def kKafkaDbPutMessage : String := "kafka_put_msg_consumed"
def kKafkaDbDelMessage : String := "kafka_del_msg_consumed"
def kKafkaDbMergeMessage : String := "kafka_merge_msg_consumed"
def kKafkaDbPutErrors : String := "kafka_db_put_errors"
def kKafkaDbDeleteErrors : String := "kafka_db_delete_errors"
def kKafkaDbMergeErrors : String := "kafka_db_merge_errors"
def kKafkaDeserFailure : String := "kafka_deser_failure"
def kKafkaInvalidOpcode : String := "kafka_invalid_opcode"

/-- Helper `DecodeThriftStruct<admin::KafkaMessagePayload>`: the decoded struct,
or `none` for `false`. -/
def DecodeThriftStruct (kext : KafkaExt) (data : String) : Option KafkaMessagePayload :=
  kext.deserialize data

/-- Helper `DeserializeKafkaPayload`: `some (op_code, value)` for `true`, where
`value` keeps what it held on entry when the payload carries no value; `none`
for `false`, after the failure counter has been incremented. -/
def DeserializeKafkaPayload (kext : KafkaExt) (kafka_payload : String) (value : String)
    (s : State) : State × Option (KafkaOperationCode × String) :=
  match DecodeThriftStruct kext kafka_payload with
  | some msg_payload =>
    (s, some (msg_payload.op_code,
      match msg_payload.value with
      | some v => v
      | none => value))
  | none => (s.emit (Effect.Stats_Incr kKafkaDeserFailure), none)

/-- The callback that `async_tm_startMessageIngestion` hands to `StartWith`.
Its captures `db_name`, `db`, `should_deserialize` and `segment` are parameters;
the mutable capture `message_count` is passed in and returned.  `message` is
`none` for a null pointer.  Logging is left out; `message_count` is positive
whenever the remainder is taken, where `%` agrees with the remainder of C++. -/
def message_callback (cfg : Flags) (ext : Ext) (kext : KafkaExt) (db_name : String)
    (db : ApplicationDB) (should_deserialize : Bool) (segment : String)
    (message : Option KafkaMessage) (is_replay : Bool) (message_count : Int)
    (s : State) : Int × State :=
  match message with
  | none => (message_count, s)
  | some message =>
    let message_count := message_count + 1
    let s0 : State :=
      if !is_replay then
        let latency_ms := kext.GetCurrentTimestamp - message.timestamp
        s.emit (Effect.Stats_AddMetric (kKafkaConsumerLatency ++ " segment=" ++ segment)
          latency_ms)
      else s
    let deser_val : String := ""
    -- Deserialize the kafka payload
    let d : State × Option (KafkaOperationCode × String) :=
      if should_deserialize then DeserializeKafkaPayload kext message.payload deser_val s0
      else (s0, some (KafkaOperationCode.PUT, message.payload))
    match d.2 with
    | none => (message_count, d.1)
    | some (op_code, value) =>
      -- Write the message to rocksdb
      let s1 : State :=
        match op_code with
        | KafkaOperationCode.PUT =>
          let s1 := (d.1.emit (Effect.Stats_Incr (kKafkaDbPutMessage ++ " segment=" ++ segment))).emit
            (Effect.Put db.rocksdb message.key value)
          if !(kext.Put db.rocksdb message.key value).ok then
            s1.emit (Effect.Stats_Incr (kKafkaDbPutErrors ++ " segment=" ++ segment))
          else s1
        | KafkaOperationCode.DELETE =>
          let s1 := (d.1.emit (Effect.Stats_Incr (kKafkaDbDelMessage ++ " segment=" ++ segment))).emit
            (Effect.Delete db.rocksdb message.key)
          if !(kext.Delete db.rocksdb message.key).ok then
            s1.emit (Effect.Stats_Incr (kKafkaDbDeleteErrors ++ " segment=" ++ segment))
          else s1
        | KafkaOperationCode.MERGE =>
          let s1 := (d.1.emit (Effect.Stats_Incr (kKafkaDbMergeMessage ++ " segment=" ++ segment))).emit
            (Effect.Merge db.rocksdb message.key value)
          if !(kext.Merge db.rocksdb message.key value).ok then
            s1.emit (Effect.Stats_Incr (kKafkaDbMergeErrors ++ " segment=" ++ segment))
          else s1
        | KafkaOperationCode.other _ =>
          d.1.emit (Effect.Stats_Incr (kKafkaInvalidOpcode ++ " segment=" ++ segment))
      -- Update meta_db with kafka message timestamp periodically.
      if message_count % cfg.kafka_ts_update_interval = 0 then
        let timestamp_ms := message.timestamp
        let mdata := getMetaData s1 db_name
        (message_count,
          (writeMetaData ext s1 db_name (mdata.s3_bucket.getD "") (mdata.s3_path.getD "")
            timestamp_ms).2)
      else (message_count, s1)

/-- The callback applied to the messages of a watcher in the order they are
delivered, each with its `is_replay` flag. -/
def message_callback_run (cfg : Flags) (ext : Ext) (kext : KafkaExt) (db_name : String)
    (db : ApplicationDB) (should_deserialize : Bool) (segment : String) :
    List (Option KafkaMessage × Bool) → Int × State → Int × State
  | [], cs => cs
  | m :: ms, cs =>
    message_callback_run cfg ext kext db_name db should_deserialize segment ms
      (message_callback cfg ext kext db_name db should_deserialize segment m.1 m.2 cs.1 cs.2)

/-- The engine writes among the calls of a trace. -/
def engineWrites (t : List Effect) : List Effect :=
  t.filter (fun e =>
    match e with
    | Effect.Put _ _ _ => true
    | Effect.Delete _ _ => true
    | Effect.Merge _ _ _ => true
    | _ => false)

/-- The last-event timestamp stored for a database, an absent record or field
read as 0. -/
def stored_timestamp_ms (s : State) (db_name : String) : Int :=
  (getMetaData s db_name).last_kafka_msg_timestamp_ms.getD 0

/-- Following the specification of the ingestor: the engine write that one
message stands for, given how payloads decode: a put of the raw payload when
deserialization is disabled; otherwise the put, delete or merge the decoded
record names (an absent value read as the empty string), and nothing when the
payload does not decode or names another operation. -/
def spec_message_writes (should_deserialize : Bool)
    (decode : String → Option KafkaMessagePayload) (rocksdb : String)
    (m : KafkaMessage) : List Effect :=
  if should_deserialize then
    match decode m.payload with
    | some ⟨KafkaOperationCode.PUT, value⟩ => [Effect.Put rocksdb m.key (value.getD "")]
    | some ⟨KafkaOperationCode.DELETE, _⟩ => [Effect.Delete rocksdb m.key]
    | some ⟨KafkaOperationCode.MERGE, value⟩ => [Effect.Merge rocksdb m.key (value.getD "")]
    | some ⟨KafkaOperationCode.other _, _⟩ => []
    | none => []
  else [Effect.Put rocksdb m.key m.payload]

/-- Following the specification of the ingestor: the engine writes that a
sequence of deliveries stands for, one message after the other; a null message
stands for none. -/
def spec_run_writes (should_deserialize : Bool)
    (decode : String → Option KafkaMessagePayload) (rocksdb : String) :
    List (Option KafkaMessage × Bool) → List Effect
  | [] => []
  | (none, _) :: ms => spec_run_writes should_deserialize decode rocksdb ms
  | (some m, _) :: ms =>
    spec_message_writes should_deserialize decode rocksdb m ++
      spec_run_writes should_deserialize decode rocksdb ms

/-- Is the message applied by the callback: deserialization is disabled, or the
payload decodes? -/
def is_applied (kext : KafkaExt) (should_deserialize : Bool) (m : KafkaMessage) : Bool :=
  !should_deserialize || (kext.deserialize m.payload).isSome

/-- Payloads `put:v`, `del` and `merge:v` decode to the three operations, `op9`
to an operation code 9, nothing else decodes; every engine write succeeds; the
clock stands at 1700000000000 ms. -/
def kext_ok : KafkaExt :=
  { deserialize := fun p =>
      if p = "put:v" then some ⟨KafkaOperationCode.PUT, some "v"⟩
      else if p = "del" then some ⟨KafkaOperationCode.DELETE, none⟩
      else if p = "merge:v" then some ⟨KafkaOperationCode.MERGE, some "v"⟩
      else if p = "op9" then some ⟨KafkaOperationCode.other 9, none⟩
      else none
    GetCurrentTimestamp := 1700000000000
    Put := fun _ _ _ => Status.OK
    Delete := fun _ _ => Status.OK
    Merge := fun _ _ _ => Status.OK }

/-- Flags as `cfg0`, with a checkpoint every second message. -/
def cfg_interval2 : Flags := { cfg0 with kafka_ts_update_interval := 2 }

/-- The handle of `alpha_0` in `st_alpha`. -/
def db_alpha_0 : ApplicationDB := ⟨"/tmp/alpha_0", DBRole.SLAVE, some ⟨"10.0.0.2", 9091⟩⟩

/-- A handler hosting `alpha_0` whose metadata record holds the snapshot
`b`, `snap/1` and the last-event timestamp 5000. -/
def st_checkpointed : State :=
  { st_alpha with
      meta_db_ := [("alpha_0",
        { db_name := "alpha_0", s3_bucket := some "b", s3_path := some "snap/1",
          last_kafka_msg_timestamp_ms := some 5000 })] }

/-- Collaborators as `kext_ok`, but every engine write fails. -/
def kext_writes_fail : KafkaExt :=
  { kext_ok with
    Put := fun _ _ _ => Status.NotOK "IO error"
    Delete := fun _ _ => Status.NotOK "IO error"
    Merge := fun _ _ _ => Status.NotOK "IO error" }

/-- The table files that `async_tm_addS3SstFilesToDB` passes to the engine:
the files of the scratch directory that the directory loop keeps, under the
scratch path. -/
def sst_file_paths (cfg : Flags) (ext : Ext) (db_name : String) : List String :=
  ((ext.directory_listing (cfg.rocksdb_dir ++ "s3_tmp/" ++ db_name ++ "/")).filter
    (fun file_name => !skip_non_sst_file file_name)).map
    (fun file_name => cfg.rocksdb_dir ++ "s3_tmp/" ++ db_name ++ "/" ++ file_name)

/-- Flags as `cfg0`, with overlapping keys allowed for every segment. -/
def cfg_overlap : Flags := { cfg0 with rocksdb_allow_overlapping_keys := true }

/-- A handler that hosts no database and still holds the metadata record of
`alpha_0`: the snapshot `b`, `snap/1` and the last-event timestamp 5000. -/
def st_checkpointed_unregistered : State :=
  { st_checkpointed with db_manager_ := [] }

/-- Collaborators as `ext_ok`, but deletes in the metadata store fail. -/
def ext_meta_delete_fails : Ext := { ext_ok with meta_db_Delete_ok := fun _ => false }

/-! ## Lock events of a trace -/

/-- The lock and unlock calls among the calls of a trace. -/
def lockEvents (t : List Effect) : List Effect :=
  t.filter (fun e =>
    match e with
    | Effect.Lock _ => true
    | Effect.Unlock _ => true
    | _ => false)

/-- The held locks after one call. -/
def heldAfter (e : Effect) (held : List String) : List String :=
  match e with
  | Effect.Lock x => x :: held
  | Effect.Unlock x => held.erase x
  | _ => held

/-- The names whose lock is held after the calls of a trace, from the names
held before it. -/
def heldLocks : List Effect → List String → List String
  | [], held => held
  | e :: t, held => heldLocks t (heldAfter e held)

/-- The calls a run has added to the trace of the state it started from. -/
def newCalls (s r : State) : List Effect :=
  r.trace.drop s.trace.length

/-- The calls of a handler run that holds the lock of `db_name` from its first
call to its last: the first call takes the lock, the last call releases it,
there is no other lock or unlock call, and the names held after the run are the
names held before it. -/
def LockedThroughout (db_name : String) (calls : List Effect) : Prop :=
  calls.head? = some (Effect.Lock db_name) ∧
  calls.getLast? = some (Effect.Unlock db_name) ∧
  lockEvents calls = [Effect.Lock db_name, Effect.Unlock db_name] ∧
  ∀ held, heldLocks calls held = held

/-- The changes of the registry that a run has added to the log of the state
it started from. -/
def newMutations (s r : State) : List RegistryMutation :=
  r.registry_log.drop s.registry_log.length

/-- The names whose lock a run holds once the trace has `n` calls: the locks
taken and not yet released among the calls the run has made by then. -/
def heldByRunAt (s r : State) (n : Nat) : List String :=
  heldLocks ((r.trace.take n).drop s.trace.length) []

/-- Is every change a run makes to the registry made while the run holds the
lock of the name it adds or removes? -/
def mutationsUnderLock (s r : State) : Bool :=
  (newMutations s r).all
    (fun m => (heldByRunAt s r m.calls_before).contains m.db_name)

/-- Is every call of the trace that satisfies `p` made while the lock of
`db_name` is held? -/
def allUnderLock (p : Effect → Bool) (db_name : String) :
    List Effect → List String → Bool
  | [], _ => true
  | e :: t, held =>
    (!p e || held.contains db_name) && allUnderLock p db_name t (heldAfter e held)

/-- Removal or creation of the scratch directory of a database. -/
def isScratchOp (cfg : Flags) (db_name : String) : Effect → Bool
  | Effect.remove_all path => path == cfg.rocksdb_dir ++ "s3_tmp/" ++ db_name ++ "/"
  | Effect.create_directories path => path == cfg.rocksdb_dir ++ "s3_tmp/" ++ db_name ++ "/"
  | _ => false

/-! ## The per-DB admin lock under interleaving -/

/-- Where a handler call stands with respect to the lock of its database: it
has not taken it yet, it holds it, or it has released it. -/
inductive LockPhase
  | waiting
  | holding
  | released
  deriving DecidableEq

/-- Modelled from the spec: the per-DB admin lock (`common/object_lock.h`, not
among the sources) is "a name-keyed exclusive lock".  One step of the handler
call at position `i` among the calls in flight, each with the name it locks and
its phase, given the names held: a waiting call takes the lock of its name when
that name is not held and cannot step otherwise (`none`); a holding call
releases it; a call that has released it has no step left. -/
def lockStep : Nat → List (String × LockPhase) → List String →
    Option (List (String × LockPhase) × List String)
  | _, [], _ => none
  | 0, (x, LockPhase.waiting) :: cs, held =>
    if held.contains x then none else some ((x, LockPhase.holding) :: cs, x :: held)
  | 0, (x, LockPhase.holding) :: cs, held =>
    some ((x, LockPhase.released) :: cs, held.erase x)
  | 0, (_, LockPhase.released) :: _, _ => none
  | i + 1, c :: cs, held =>
    match lockStep i cs held with
    | some r => some (c :: r.1, r.2)
    | none => none

/-- The calls in flight and the names held after a schedule: the positions of
the calls that step, in order; `none` when a step of the schedule cannot be
taken. -/
def lockRun : List Nat → List (String × LockPhase) → List String →
    Option (List (String × LockPhase) × List String)
  | [], cs, held => some (cs, held)
  | i :: schedule, cs, held =>
    match lockStep i cs held with
    | some r => lockRun schedule r.1 r.2
    | none => none

/-- The names locked by the calls that hold their lock. -/
def lockHolders (cs : List (String × LockPhase)) : List String :=
  (cs.filter (fun c => c.2 == LockPhase.holding)).map (fun c => c.1)

/-! ## Lemmas on name-keyed maps -/

theorem NameMap.find_erase_self {α : Type} (m : List (String × α)) (name : String) :
    NameMap.find (NameMap.erase m name) name = none := by
  induction m with
  | nil => rfl
  | cons p rest ih =>
    obtain ⟨k, v⟩ := p
    by_cases h : k = name
    · simp [NameMap.erase, h, ih]
    · simp [NameMap.erase, NameMap.find, h, ih]

theorem NameMap.find_erase_ne {α : Type} (m : List (String × α)) (name other : String)
    (h : other ≠ name) :
    NameMap.find (NameMap.erase m name) other = NameMap.find m other := by
  induction m with
  | nil => rfl
  | cons p rest ih =>
    obtain ⟨k, v⟩ := p
    by_cases hk : k = name
    · have hko : ¬ k = other := fun hh => h (hh ▸ hk)
      rw [NameMap.erase, if_pos hk, NameMap.find, if_neg hko, ih]
    · by_cases ho : k = other
      · rw [NameMap.erase, if_neg hk, NameMap.find, if_pos ho, NameMap.find, if_pos ho]
      · rw [NameMap.erase, if_neg hk, NameMap.find, if_neg ho, NameMap.find, if_neg ho, ih]

theorem NameMap.erase_of_find_none {α : Type} (m : List (String × α)) (name : String)
    (h : NameMap.find m name = none) : NameMap.erase m name = m := by
  induction m with
  | nil => rfl
  | cons p rest ih =>
    obtain ⟨k, v⟩ := p
    by_cases hk : k = name
    · simp [NameMap.find, hk] at h
    · simp [NameMap.find, hk] at h
      simp [NameMap.erase, hk, ih h]

theorem NameMap.find_insert_self {α : Type} (m : List (String × α)) (name : String)
    (v : α) : NameMap.find (NameMap.insert m name v) name = some v := by
  simp [NameMap.insert, NameMap.find]

theorem NameMap.find_insert_ne {α : Type} (m : List (String × α)) (name other : String)
    (v : α) (h : other ≠ name) :
    NameMap.find (NameMap.insert m name v) other = NameMap.find m other := by
  have h2 : name ≠ other := fun hh => h hh.symm
  simp [NameMap.insert, NameMap.find, h2, NameMap.find_erase_ne m name other h]

/-! ## The already-exists rejection (C1, C2) -/

theorem addDB_of_registered (cfg : Flags) (ext : Ext) (request : AddDBRequest) (s : State)
    (h : NameMap.find s.db_manager_ request.db_name ≠ none) :
    async_tm_addDB cfg ext request s =
      ((s.emit (Effect.Lock request.db_name)).emit (Effect.Unlock request.db_name),
       Except.error ⟨some AdminErrorCode.DB_EXIST, "Db already exists"⟩) := by
  obtain ⟨db, hdb⟩ := Option.ne_none_iff_exists'.mp h
  simp [async_tm_addDB, withLock, getDB, ApplicationDBManager.getDB, State.emit, hdb]

theorem restoreDBHelper_of_registered (cfg : Flags) (ext : Ext) (db_name backup_dir : String)
    (upstream_addr : SocketAddress) (enable : Bool) (limit : Nat) (e : AdminException)
    (s : State) (h : NameMap.find s.db_manager_ db_name ≠ none) :
    restoreDBHelper cfg ext db_name backup_dir upstream_addr enable limit e s =
      ((s.emit (Effect.Lock db_name)).emit (Effect.Unlock db_name), false,
       ⟨some AdminErrorCode.DB_EXIST, "Could not restore an opened DB, close it first"⟩) := by
  obtain ⟨db, hdb⟩ := Option.ne_none_iff_exists'.mp h
  simp [restoreDBHelper, withLock, ApplicationDBManager.getDB, State.emit, hdb]

theorem createLocalS3Util_frame (s : State) (limit : Nat) (bucket : String) :
    (createLocalS3Util s limit bucket).1.db_manager_ = s.db_manager_ ∧
    (createLocalS3Util s limit bucket).1.meta_db_ = s.meta_db_ ∧
    (createLocalS3Util s limit bucket).1.kafka_watcher_map_ = s.kafka_watcher_map_ ∧
    (createLocalS3Util s limit bucket).1.num_current_s3_sst_downloadings_ =
      s.num_current_s3_sst_downloadings_ ∧
    (createLocalS3Util s limit bucket).1.num_current_s3_sst_uploadings_ =
      s.num_current_s3_sst_uploadings_ ∧
    ((createLocalS3Util s limit bucket).1.trace = s.trace ∨
     (createLocalS3Util s limit bucket).1.trace =
       s.trace ++ [Effect.BuildS3Util limit bucket]) := by
  unfold createLocalS3Util
  cases s.s3_util_ with
  | none => simp [State.emit]
  | some u =>
    by_cases hb : should_new_s3_client u limit bucket = true <;> simp [State.emit, hb]

theorem addDB_of_unregistered (cfg : Flags) (ext : Ext) (request : AddDBRequest) (s : State)
    (role : DBRole)
    (hX : NameMap.find s.db_manager_ request.db_name = none)
    (hip : ext.setFromIpPort_ok request.upstream_ip = true)
    (hdestroy : request.overwrite.getD false = true →
      ext.DestroyDB (cfg.rocksdb_dir ++ request.db_name) = Status.OK)
    (hopen : ext.DB_Open (cfg.rocksdb_dir ++ request.db_name) = Status.OK)
    (hrole : (request.db_role = none ∧ role = DBRole.SLAVE) ∨
      (request.db_role = some "SLAVE" ∧ role = DBRole.SLAVE) ∨
      (request.db_role = some "NOOP" ∧ role = DBRole.NOOP)) :
    async_tm_addDB cfg ext request s =
      ({ s with
          db_manager_ :=
            (request.db_name,
              ⟨cfg.rocksdb_dir ++ request.db_name, role,
               some ⟨request.upstream_ip, uint16_t cfg.rocksdb_replicator_port⟩⟩) ::
              s.db_manager_,
          meta_db_ :=
            if request.overwrite.getD false = true then
              (clearMetaData ext s request.db_name).2.meta_db_
            else s.meta_db_,
          trace :=
            s.trace ++
              (if request.overwrite.getD false = true then
                [Effect.Lock request.db_name,
                 Effect.DestroyDB (cfg.rocksdb_dir ++ request.db_name),
                 Effect.DB_Open (cfg.rocksdb_dir ++ request.db_name),
                 Effect.Unlock request.db_name]
               else
                [Effect.Lock request.db_name,
                 Effect.DB_Open (cfg.rocksdb_dir ++ request.db_name),
                 Effect.Unlock request.db_name]),
          registry_log :=
            s.registry_log ++
              [⟨true, request.db_name,
                if request.overwrite.getD false = true then s.trace.length + 3
                else s.trace.length + 2⟩] },
       Except.ok ()) := by
  have herase := NameMap.erase_of_find_none s.db_manager_ request.db_name hX
  cases ho : request.overwrite.getD false with
  | false =>
    rcases hrole with ⟨hr, rfl⟩ | ⟨hr, rfl⟩ | ⟨hr, rfl⟩ <;>
    simp [async_tm_addDB, withLock, getDB, ApplicationDBManager.getDB,
      ApplicationDBManager.addDB, NameMap.insert, State.emit, SetAddressOrException,
      OKOrSetException, Status.ok, hX, hip, hopen, hr, ho, herase]
  | true =>
    have hd := hdestroy ho
    cases hdel : ext.meta_db_Delete_ok request.db_name <;>
    rcases hrole with ⟨hr, rfl⟩ | ⟨hr, rfl⟩ | ⟨hr, rfl⟩ <;>
    simp [async_tm_addDB, withLock, getDB, ApplicationDBManager.getDB,
      ApplicationDBManager.addDB, NameMap.insert, State.emit, SetAddressOrException,
      OKOrSetException, Status.ok, hX, hip, hopen, hr, ho, herase, hd, clearMetaData, hdel]

/-- C1 (amended): when `X` is registered, add-db(X) with overwrite unset or
false, restore-db(X) from the distributed file system once the upstream ip has
parsed and the file-system environment was created, and restore-db(X) from the
object store once past the gate, the scratch staging and the upstream parsing,
fail with `DB_EXIST`, call neither the storage engine nor the backup engine,
and leave the registry and the metadata store unchanged. -/
theorem C1_registered_name_is_rejected_with_DB_EXIST (cfg : Flags) (ext : Ext) (s : State)
    (X : String) (hX : NameMap.find s.db_manager_ X ≠ none) :
    (∀ request : AddDBRequest, request.db_name = X → request.overwrite.getD false = false →
      (async_tm_addDB cfg ext request s).2 =
          Except.error ⟨some AdminErrorCode.DB_EXIST, "Db already exists"⟩ ∧
        NoEngineCallSince s (async_tm_addDB cfg ext request s).1 ∧
        (async_tm_addDB cfg ext request s).1.db_manager_ = s.db_manager_ ∧
        (async_tm_addDB cfg ext request s).1.meta_db_ = s.meta_db_) ∧
    (∀ request : RestoreDBRequest, request.db_name = X →
      ext.setFromIpPort_ok request.upstream_ip = true →
      ext.NewHdfsEnv (cfg.hdfs_name_node ++ request.hdfs_backup_dir) = Status.OK →
      (async_tm_restoreDB cfg ext request s).2 =
          Except.error ⟨some AdminErrorCode.DB_EXIST,
            "Could not restore an opened DB, close it first"⟩ ∧
        NoEngineCallSince s (async_tm_restoreDB cfg ext request s).1 ∧
        (async_tm_restoreDB cfg ext request s).1.db_manager_ = s.db_manager_ ∧
        (async_tm_restoreDB cfg ext request s).1.meta_db_ = s.meta_db_) ∧
    (∀ request : RestoreDBFromS3Request, request.db_name = X →
      s.num_current_s3_sst_downloadings_ < cfg.max_s3_sst_loading_concurrency →
      ext.remove_all_err (cfg.rocksdb_dir ++ "s3_tmp/" ++ X ++ "/") = false →
      ext.create_directories_err (cfg.rocksdb_dir ++ "s3_tmp/" ++ X ++ "/") = false →
      ext.setFromIpPort_ok request.upstream_ip = true →
      (async_tm_restoreDBFromS3 cfg ext request s).2 =
          Except.error ⟨some AdminErrorCode.DB_EXIST,
            "Could not restore an opened DB, close it first"⟩ ∧
        NoEngineCallSince s (async_tm_restoreDBFromS3 cfg ext request s).1 ∧
        (async_tm_restoreDBFromS3 cfg ext request s).1.db_manager_ = s.db_manager_ ∧
        (async_tm_restoreDBFromS3 cfg ext request s).1.meta_db_ = s.meta_db_) := by
  refine ⟨?_, ?_, ?_⟩
  · intro request hname _
    subst hname
    rw [addDB_of_registered cfg ext request s hX]
    refine ⟨rfl, ⟨[Effect.Lock request.db_name, Effect.Unlock request.db_name], ?_, ?_⟩, rfl, rfl⟩
    · simp [State.emit]
    · intro c hc
      simp at hc
      rcases hc with rfl | rfl <;> rfl
  · intro request hname hip henv
    subst hname
    have hreg : NameMap.find
        (s.emit (Effect.NewHdfsEnv (cfg.hdfs_name_node ++ request.hdfs_backup_dir))).db_manager_
        request.db_name ≠ none := hX
    simp only [async_tm_restoreDB, SetAddressOrException, hip, henv, OKOrSetException,
      Status.ok, if_true, restoreDBHelper_of_registered _ _ _ _ _ _ _ _ _ hreg]
    refine ⟨by simp, ⟨[Effect.NewHdfsEnv (cfg.hdfs_name_node ++ request.hdfs_backup_dir),
      Effect.Lock request.db_name, Effect.Unlock request.db_name], ?_, ?_⟩, by simp [State.emit],
      by simp [State.emit]⟩
    · simp [State.emit]
    · intro c hc
      simp at hc
      rcases hc with rfl | rfl | rfl <;> rfl
  · intro request hname hgate hrm hmk hip
    subst hname
    obtain ⟨db, hdb⟩ := Option.ne_none_iff_exists'.mp hX
    have hg : ¬ cfg.max_s3_sst_loading_concurrency ≤ s.num_current_s3_sst_downloadings_ :=
      not_le.mpr hgate
    unfold NoEngineCallSince
    cases hs : s.s3_util_ with
    | none =>
      simp [async_tm_restoreDBFromS3, withDownloadCount, withScratchDir, State.emit,
        SetAddressOrException, hip, hrm, hmk, hg, createLocalS3Util, hs, restoreDBHelper,
        withLock, ApplicationDBManager.getDB, hdb, Effect.isEngineCall]
    | some u =>
      by_cases hb : should_new_s3_client u (uint32_t (request.limit_mbs.getD 0))
          request.s3_bucket = true <;>
      simp [async_tm_restoreDBFromS3, withDownloadCount, withScratchDir, State.emit,
        SetAddressOrException, hip, hrm, hmk, hg, createLocalS3Util, hs, hb, restoreDBHelper,
        withLock, ApplicationDBManager.getDB, hdb, Effect.isEngineCall]

/-- C1, counterexample: `alpha_0` is registered, yet restore-db from the
distributed file system fails with `DB_ADMIN_ERROR` when the file-system
environment cannot be created, and with `INVALID_UPSTREAM` when the upstream ip
does not parse; neither is `DB_EXIST`. -/
theorem C1_counterexample_restoreDB_other_error :
    NameMap.find st_alpha.db_manager_ "alpha_0" ≠ none ∧
    (async_tm_restoreDB cfg0 ext_no_hdfs ⟨"alpha_0", "/backup/alpha_0", "10.0.0.2", none⟩
        st_alpha).2 =
      Except.error ⟨some AdminErrorCode.DB_ADMIN_ERROR, "Not compiled with hdfs support"⟩ ∧
    (async_tm_restoreDB cfg0 ext_ok ⟨"alpha_0", "/backup/alpha_0", "not-an-ip", none⟩
        st_alpha).2 =
      Except.error ⟨some AdminErrorCode.INVALID_UPSTREAM, "Invalid ip:port not-an-ip:9091"⟩ := by
  decide

/-- C1, witness: the three rejections at the handler hosting `alpha_0`. -/
theorem C1_witness :
    NameMap.find st_alpha.db_manager_ "alpha_0" ≠ none ∧
    (async_tm_addDB cfg0 ext_ok ⟨"alpha_0", "10.0.0.2", some "SLAVE", none⟩ st_alpha).2 =
      Except.error ⟨some AdminErrorCode.DB_EXIST, "Db already exists"⟩ ∧
    (async_tm_restoreDB cfg0 ext_ok ⟨"alpha_0", "/backup/alpha_0", "10.0.0.2", none⟩
        st_alpha).2 =
      Except.error ⟨some AdminErrorCode.DB_EXIST,
        "Could not restore an opened DB, close it first"⟩ ∧
    (async_tm_restoreDBFromS3 cfg0 ext_ok ⟨"alpha_0", "bucket", "backup/alpha_0/", "10.0.0.2",
        none⟩ st_alpha).2 =
      Except.error ⟨some AdminErrorCode.DB_EXIST,
        "Could not restore an opened DB, close it first"⟩ :=
  ⟨by decide,
   ((C1_registered_name_is_rejected_with_DB_EXIST cfg0 ext_ok st_alpha "alpha_0"
      (by decide)).1 ⟨"alpha_0", "10.0.0.2", some "SLAVE", none⟩ rfl rfl).1,
   ((C1_registered_name_is_rejected_with_DB_EXIST cfg0 ext_ok st_alpha "alpha_0"
      (by decide)).2.1 ⟨"alpha_0", "/backup/alpha_0", "10.0.0.2", none⟩ rfl
      (by decide) (by decide)).1,
   ((C1_registered_name_is_rejected_with_DB_EXIST cfg0 ext_ok st_alpha "alpha_0"
      (by decide)).2.2 ⟨"alpha_0", "bucket", "backup/alpha_0/", "10.0.0.2", none⟩ rfl
      (by decide) (by decide) (by decide) (by decide)).1⟩

/-- C2 (amended): with overwrite = true, add-db on a registered name still
fails with `DB_EXIST`, without any engine call and with registry and metadata
unchanged; the flag takes effect only for a name that is not registered, where
(parseable upstream, valid role, engine destroy and open succeeding) the
on-disk database is destroyed, opened again and the name is registered. -/
theorem C2_addDB_overwrite_does_not_lift_DB_EXIST (cfg : Flags) (ext : Ext)
    (request : AddDBRequest) (s : State) (hover : request.overwrite = some true) :
    (NameMap.find s.db_manager_ request.db_name ≠ none →
      (async_tm_addDB cfg ext request s).2 =
          Except.error ⟨some AdminErrorCode.DB_EXIST, "Db already exists"⟩ ∧
        NoEngineCallSince s (async_tm_addDB cfg ext request s).1 ∧
        (async_tm_addDB cfg ext request s).1.db_manager_ = s.db_manager_ ∧
        (async_tm_addDB cfg ext request s).1.meta_db_ = s.meta_db_) ∧
    (NameMap.find s.db_manager_ request.db_name = none →
      ext.setFromIpPort_ok request.upstream_ip = true →
      (request.db_role = none ∨ request.db_role = some "SLAVE" ∨
        request.db_role = some "NOOP") →
      ext.DestroyDB (cfg.rocksdb_dir ++ request.db_name) = Status.OK →
      ext.DB_Open (cfg.rocksdb_dir ++ request.db_name) = Status.OK →
      (async_tm_addDB cfg ext request s).2 = Except.ok () ∧
        (async_tm_addDB cfg ext request s).1.trace =
          s.trace ++ [Effect.Lock request.db_name,
            Effect.DestroyDB (cfg.rocksdb_dir ++ request.db_name),
            Effect.DB_Open (cfg.rocksdb_dir ++ request.db_name),
            Effect.Unlock request.db_name] ∧
        NameMap.find (async_tm_addDB cfg ext request s).1.db_manager_ request.db_name ≠
          none) := by
  have ho : request.overwrite.getD false = true := by simp [hover]
  refine ⟨?_, ?_⟩
  · intro hX
    rw [addDB_of_registered cfg ext request s hX]
    refine ⟨rfl, ⟨[Effect.Lock request.db_name, Effect.Unlock request.db_name], ?_, ?_⟩,
      rfl, rfl⟩
    · simp [State.emit]
    · intro c hc
      simp at hc
      rcases hc with rfl | rfl <;> rfl
  · intro hX hip hrole hd hopen
    have hr : ∃ role, (request.db_role = none ∧ role = DBRole.SLAVE) ∨
        (request.db_role = some "SLAVE" ∧ role = DBRole.SLAVE) ∨
        (request.db_role = some "NOOP" ∧ role = DBRole.NOOP) := by
      rcases hrole with h | h | h
      · exact ⟨DBRole.SLAVE, Or.inl ⟨h, rfl⟩⟩
      · exact ⟨DBRole.SLAVE, Or.inr (Or.inl ⟨h, rfl⟩)⟩
      · exact ⟨DBRole.NOOP, Or.inr (Or.inr ⟨h, rfl⟩)⟩
    obtain ⟨role, hr⟩ := hr
    rw [addDB_of_unregistered cfg ext request s role hX hip (fun _ => hd) hopen hr]
    simp [ho, NameMap.find]

/-- C2, counterexample: `alpha_0` is registered and add-db is called with
overwrite = true (parseable upstream, valid role, all engine calls
succeeding); it fails with `DB_EXIST`, and the database is neither destroyed
nor opened: the only calls are the lock and its release. -/
theorem C2_counterexample_overwrite_registered :
    async_tm_addDB cfg0 ext_ok ⟨"alpha_0", "10.0.0.2", some "SLAVE", some true⟩ st_alpha =
      ({ st_alpha with trace := [Effect.Lock "alpha_0", Effect.Unlock "alpha_0"] },
       Except.error ⟨some AdminErrorCode.DB_EXIST, "Db already exists"⟩) := by
  decide

/-- C2, witness: overwrite = true on the registered `alpha_0` is refused, and
on the empty handler it destroys, opens and registers. -/
theorem C2_witness :
    (async_tm_addDB cfg0 ext_ok ⟨"alpha_0", "10.0.0.2", some "SLAVE", some true⟩ st_alpha).2 =
      Except.error ⟨some AdminErrorCode.DB_EXIST, "Db already exists"⟩ ∧
    (async_tm_addDB cfg0 ext_ok ⟨"alpha_0", "10.0.0.2", some "SLAVE", some true⟩ st_empty).2 =
      Except.ok () :=
  ⟨((C2_addDB_overwrite_does_not_lift_DB_EXIST cfg0 ext_ok
      ⟨"alpha_0", "10.0.0.2", some "SLAVE", some true⟩ st_alpha rfl).1 (by decide)).1,
   ((C2_addDB_overwrite_does_not_lift_DB_EXIST cfg0 ext_ok
      ⟨"alpha_0", "10.0.0.2", some "SLAVE", some true⟩ st_empty rfl).2 (by decide)
      (by decide) (by decide) (by decide) (by decide)).1⟩

/-! ## add-db; close-db; add-db (C3) -/

theorem closeDB_of_registered (ext : Ext) (db_name : String) (s : State) (db : ApplicationDB)
    (h : NameMap.find s.db_manager_ db_name = some db) :
    async_tm_closeDB ext db_name s =
      ({ s with db_manager_ := NameMap.erase s.db_manager_ db_name,
                trace := s.trace ++ [Effect.Lock db_name, Effect.Unlock db_name],
                registry_log := s.registry_log ++ [⟨false, db_name, s.trace.length + 1⟩] },
       Except.ok ()) := by
  simp [async_tm_closeDB, withLock, removeDB, ApplicationDBManager.removeDB, State.emit, h]

/-- C3 (amended): for a state in which `X` is not registered and an add-db
request whose role is unset, "SLAVE" or "NOOP", whose upstream ip parses and
for which the engine calls succeed, the sequence add-db; close-db; add-db
succeeds at every step, and the registry after the third call equals the
registry after the first: `X` is registered with the same handle, every other
name is as before the sequence. -/
theorem C3_add_close_add_same_registry (cfg : Flags) (ext1 ext2 ext3 : Ext)
    (request : AddDBRequest) (s : State)
    (hX : NameMap.find s.db_manager_ request.db_name = none)
    (hrole : request.db_role = none ∨ request.db_role = some "SLAVE" ∨
      request.db_role = some "NOOP")
    (hip1 : ext1.setFromIpPort_ok request.upstream_ip = true)
    (hip3 : ext3.setFromIpPort_ok request.upstream_ip = true)
    (hdestroy1 : request.overwrite.getD false = true →
      ext1.DestroyDB (cfg.rocksdb_dir ++ request.db_name) = Status.OK)
    (hdestroy3 : request.overwrite.getD false = true →
      ext3.DestroyDB (cfg.rocksdb_dir ++ request.db_name) = Status.OK)
    (hopen1 : ext1.DB_Open (cfg.rocksdb_dir ++ request.db_name) = Status.OK)
    (hopen3 : ext3.DB_Open (cfg.rocksdb_dir ++ request.db_name) = Status.OK) :
    (add_close_add cfg ext1 ext2 ext3 request s).1.2 = Except.ok () ∧
    (add_close_add cfg ext1 ext2 ext3 request s).2.1.2 = Except.ok () ∧
    (add_close_add cfg ext1 ext2 ext3 request s).2.2.2 = Except.ok () ∧
    (add_close_add cfg ext1 ext2 ext3 request s).2.2.1.db_manager_ =
      (add_close_add cfg ext1 ext2 ext3 request s).1.1.db_manager_ ∧
    NameMap.find (add_close_add cfg ext1 ext2 ext3 request s).2.2.1.db_manager_
        request.db_name ≠ none ∧
    ∀ other, other ≠ request.db_name →
      NameMap.find (add_close_add cfg ext1 ext2 ext3 request s).2.2.1.db_manager_ other =
        NameMap.find s.db_manager_ other := by
  have hr : ∃ role, (request.db_role = none ∧ role = DBRole.SLAVE) ∨
      (request.db_role = some "SLAVE" ∧ role = DBRole.SLAVE) ∨
      (request.db_role = some "NOOP" ∧ role = DBRole.NOOP) := by
    rcases hrole with h | h | h
    · exact ⟨DBRole.SLAVE, Or.inl ⟨h, rfl⟩⟩
    · exact ⟨DBRole.SLAVE, Or.inr (Or.inl ⟨h, rfl⟩)⟩
    · exact ⟨DBRole.NOOP, Or.inr (Or.inr ⟨h, rfl⟩)⟩
  obtain ⟨role, hr⟩ := hr
  have h1 := addDB_of_unregistered cfg ext1 request s role hX hip1 hdestroy1 hopen1 hr
  have hfind1 : NameMap.find (async_tm_addDB cfg ext1 request s).1.db_manager_
      request.db_name = some ⟨cfg.rocksdb_dir ++ request.db_name, role,
        some ⟨request.upstream_ip, uint16_t cfg.rocksdb_replicator_port⟩⟩ := by
    rw [h1]; simp [NameMap.find]
  have h2 := closeDB_of_registered ext2 request.db_name
    (async_tm_addDB cfg ext1 request s).1 _ hfind1
  have hreg2 : (async_tm_closeDB ext2 request.db_name
      (async_tm_addDB cfg ext1 request s).1).1.db_manager_ = s.db_manager_ := by
    rw [h2, h1]
    simp [NameMap.erase, NameMap.erase_of_find_none s.db_manager_ request.db_name hX]
  have hX2 : NameMap.find (async_tm_closeDB ext2 request.db_name
      (async_tm_addDB cfg ext1 request s).1).1.db_manager_ request.db_name = none := by
    rw [hreg2]; exact hX
  have h3 := addDB_of_unregistered cfg ext3 request
    (async_tm_closeDB ext2 request.db_name (async_tm_addDB cfg ext1 request s).1).1 role
    hX2 hip3 hdestroy3 hopen3 hr
  have hreg3 : (async_tm_addDB cfg ext3 request (async_tm_closeDB ext2 request.db_name
      (async_tm_addDB cfg ext1 request s).1).1).1.db_manager_ =
      (async_tm_addDB cfg ext1 request s).1.db_manager_ := by
    rw [h3]
    simp only [hreg2]
    rw [h1]
  refine ⟨?_, ?_, ?_, ?_, ?_, ?_⟩
  · simp only [add_close_add]; rw [h1]
  · simp only [add_close_add]; rw [h2]
  · simp only [add_close_add]; rw [h3]
  · simp only [add_close_add]; exact hreg3
  · simp only [add_close_add]; rw [hreg3, hfind1]; simp
  · intro other hother
    have hne : ¬ request.db_name = other := fun hh => hother hh.symm
    simp only [add_close_add]; rw [hreg3, h1]
    simp [NameMap.find, hne]

/-- C3, counterexample: on the empty handler, with a parseable upstream ip and
every engine call succeeding, add-db with role "MASTER" fails at the first step
of the sequence with `INVALID_DB_ROLE`. -/
theorem C3_counterexample_role_MASTER :
    ext_ok.setFromIpPort_ok "10.0.0.2" = true ∧
    ext_ok.DB_Open "/tmp/alpha_0" = Status.OK ∧
    (add_close_add cfg0 ext_ok ext_ok ext_ok ⟨"alpha_0", "10.0.0.2", some "MASTER", none⟩
        st_empty).1.2 =
      Except.error ⟨some AdminErrorCode.INVALID_DB_ROLE, "MASTER"⟩ := by
  decide

/-- C3, witness: the sequence on the empty handler with role "SLAVE". -/
theorem C3_witness :
    (add_close_add cfg0 ext_ok ext_ok ext_ok ⟨"alpha_0", "10.0.0.2", some "SLAVE", none⟩
        st_empty).2.2.1.db_manager_ =
      (add_close_add cfg0 ext_ok ext_ok ext_ok ⟨"alpha_0", "10.0.0.2", some "SLAVE", none⟩
        st_empty).1.1.db_manager_ :=
  (C3_add_close_add_same_registry cfg0 ext_ok ext_ok ext_ok
    ⟨"alpha_0", "10.0.0.2", some "SLAVE", none⟩ st_empty (by decide) (by decide) (by decide)
    (by decide) (by decide) (by decide) (by decide) (by decide)).2.2.2.1

/-! ## Role selection of add-db (C4) -/

theorem uint16_t_of_port (p : Int) (h : 0 ≤ p ∧ p < 65536) : uint16_t p = p.toNat := by
  unfold uint16_t
  rw [Int.emod_eq_of_lt h.1 h.2]

theorem addDB_of_unknown_role (cfg : Flags) (ext : Ext) (request : AddDBRequest) (s : State)
    (role : String)
    (hX : NameMap.find s.db_manager_ request.db_name = none)
    (hip : ext.setFromIpPort_ok request.upstream_ip = true)
    (hdestroy : request.overwrite.getD false = true →
      ext.DestroyDB (cfg.rocksdb_dir ++ request.db_name) = Status.OK)
    (hopen : ext.DB_Open (cfg.rocksdb_dir ++ request.db_name) = Status.OK)
    (hrole : request.db_role = some role) (h1 : role ≠ "SLAVE") (h2 : role ≠ "NOOP") :
    (async_tm_addDB cfg ext request s).2 =
        Except.error ⟨some AdminErrorCode.INVALID_DB_ROLE, role⟩ ∧
      (async_tm_addDB cfg ext request s).1.db_manager_ = s.db_manager_ := by
  cases ho : request.overwrite.getD false with
  | false =>
    simp [async_tm_addDB, withLock, getDB, ApplicationDBManager.getDB, State.emit,
      SetAddressOrException, OKOrSetException, Status.ok, hX, hip, hopen, hrole, ho, h1, h2]
  | true =>
    have hd := hdestroy ho
    cases hdel : ext.meta_db_Delete_ok request.db_name <;>
    simp [async_tm_addDB, withLock, getDB, ApplicationDBManager.getDB, State.emit,
      SetAddressOrException, OKOrSetException, Status.ok, hX, hip, hopen, hrole, ho, h1, h2,
      hd, clearMetaData, hdel]

/-- C4: an add-db request on an unregistered name, with a parseable upstream
ip and a successful engine open (the open is reached, so under overwrite the
preceding destroy succeeded), registers the database as secondary when the role
is unset or "SLAVE" and as inert when it is "NOOP", in both cases with
upstream (upstream ip, configured replication port); for every other role
string, "MASTER" included, it fails with `INVALID_DB_ROLE` and the registry is
unchanged. -/
theorem C4_addDB_role_selection (cfg : Flags) (ext : Ext) (request : AddDBRequest)
    (s : State)
    (hX : NameMap.find s.db_manager_ request.db_name = none)
    (hip : ext.setFromIpPort_ok request.upstream_ip = true)
    (hdestroy : request.overwrite.getD false = true →
      ext.DestroyDB (cfg.rocksdb_dir ++ request.db_name) = Status.OK)
    (hopen : ext.DB_Open (cfg.rocksdb_dir ++ request.db_name) = Status.OK)
    (hport : 0 ≤ cfg.rocksdb_replicator_port ∧ cfg.rocksdb_replicator_port < 65536) :
    ((request.db_role = none ∨ request.db_role = some "SLAVE") →
      (async_tm_addDB cfg ext request s).2 = Except.ok () ∧
      NameMap.find (async_tm_addDB cfg ext request s).1.db_manager_ request.db_name =
        some ⟨cfg.rocksdb_dir ++ request.db_name, DBRole.SLAVE,
          some ⟨request.upstream_ip, cfg.rocksdb_replicator_port.toNat⟩⟩) ∧
    (request.db_role = some "NOOP" →
      (async_tm_addDB cfg ext request s).2 = Except.ok () ∧
      NameMap.find (async_tm_addDB cfg ext request s).1.db_manager_ request.db_name =
        some ⟨cfg.rocksdb_dir ++ request.db_name, DBRole.NOOP,
          some ⟨request.upstream_ip, cfg.rocksdb_replicator_port.toNat⟩⟩) ∧
    (∀ role, request.db_role = some role → role ≠ "SLAVE" → role ≠ "NOOP" →
      (async_tm_addDB cfg ext request s).2 =
        Except.error ⟨some AdminErrorCode.INVALID_DB_ROLE, role⟩ ∧
      (async_tm_addDB cfg ext request s).1.db_manager_ = s.db_manager_) := by
  refine ⟨?_, ?_, ?_⟩
  · intro h
    have hr : (request.db_role = none ∧ DBRole.SLAVE = DBRole.SLAVE) ∨
        (request.db_role = some "SLAVE" ∧ DBRole.SLAVE = DBRole.SLAVE) ∨
        (request.db_role = some "NOOP" ∧ DBRole.SLAVE = DBRole.NOOP) := by
      rcases h with h | h
      · exact Or.inl ⟨h, rfl⟩
      · exact Or.inr (Or.inl ⟨h, rfl⟩)
    rw [addDB_of_unregistered cfg ext request s DBRole.SLAVE hX hip hdestroy hopen hr]
    simp [NameMap.find, uint16_t_of_port _ hport]
  · intro h
    rw [addDB_of_unregistered cfg ext request s DBRole.NOOP hX hip hdestroy hopen
      (Or.inr (Or.inr ⟨h, rfl⟩))]
    simp [NameMap.find, uint16_t_of_port _ hport]
  · intro role hrole h1 h2
    exact addDB_of_unknown_role cfg ext request s role hX hip hdestroy hopen hrole h1 h2

/-- C4, witness: on the empty handler, role "SLAVE" registers `alpha_0` as a
secondary of `10.0.0.2:9091`, role "NOOP" registers it as inert, and role
"MASTER" is refused. -/
theorem C4_witness :
    NameMap.find
        (async_tm_addDB cfg0 ext_ok ⟨"alpha_0", "10.0.0.2", some "SLAVE", none⟩
          st_empty).1.db_manager_ "alpha_0" =
      some ⟨"/tmp/alpha_0", DBRole.SLAVE, some ⟨"10.0.0.2", 9091⟩⟩ ∧
    NameMap.find
        (async_tm_addDB cfg0 ext_ok ⟨"alpha_0", "10.0.0.2", some "NOOP", none⟩
          st_empty).1.db_manager_ "alpha_0" =
      some ⟨"/tmp/alpha_0", DBRole.NOOP, some ⟨"10.0.0.2", 9091⟩⟩ ∧
    (async_tm_addDB cfg0 ext_ok ⟨"alpha_0", "10.0.0.2", some "MASTER", none⟩ st_empty).2 =
      Except.error ⟨some AdminErrorCode.INVALID_DB_ROLE, "MASTER"⟩ :=
  ⟨((C4_addDB_role_selection cfg0 ext_ok ⟨"alpha_0", "10.0.0.2", some "SLAVE", none⟩
      st_empty (by decide) (by decide) (by decide) (by decide) (by decide)).1
      (Or.inr rfl)).2,
   ((C4_addDB_role_selection cfg0 ext_ok ⟨"alpha_0", "10.0.0.2", some "NOOP", none⟩
      st_empty (by decide) (by decide) (by decide) (by decide) (by decide)).2.1 rfl).2,
   ((C4_addDB_role_selection cfg0 ext_ok ⟨"alpha_0", "10.0.0.2", some "MASTER", none⟩
      st_empty (by decide) (by decide) (by decide) (by decide) (by decide)).2.2
      "MASTER" rfl (by decide) (by decide)).1⟩

/-! ## change-role-and-upstream (C5, C6) -/

theorem NameMap.erase_erase {α : Type} (m : List (String × α)) (name : String) :
    NameMap.erase (NameMap.erase m name) name = NameMap.erase m name :=
  NameMap.erase_of_find_none _ _ (NameMap.find_erase_self m name)

theorem changeRole_of_registered (cfg : Flags) (ext : Ext)
    (request : ChangeDBRoleAndUpstreamRequest) (s : State) (db : ApplicationDB)
    (role : DBRole)
    (hX : NameMap.find s.db_manager_ request.db_name = some db)
    (hrole : (request.new_role = "MASTER" ∧ role = DBRole.MASTER) ∨
      (request.new_role = "SLAVE" ∧ role = DBRole.SLAVE))
    (hip : role = DBRole.SLAVE → request.upstream_ip.isSome = true →
      request.upstream_port.isSome = true →
      ext.setFromIpPort_ok (request.upstream_ip.getD "") = true) :
    async_tm_changeDBRoleAndUpStream cfg ext request s =
      ({ s with
          db_manager_ :=
            (request.db_name,
              ⟨db.rocksdb, role,
               if role = DBRole.SLAVE ∧ request.upstream_ip.isSome = true ∧
                   request.upstream_port.isSome = true then
                 some ⟨request.upstream_ip.getD "", uint16_t cfg.rocksdb_replicator_port⟩
               else none⟩) :: NameMap.erase s.db_manager_ request.db_name,
          trace := s.trace ++ [Effect.Lock request.db_name, Effect.Unlock request.db_name],
          registry_log :=
            s.registry_log ++
              [⟨false, request.db_name, s.trace.length + 1⟩,
               ⟨true, request.db_name, s.trace.length + 1⟩] },
       Except.ok ()) := by
  rcases hrole with ⟨hr, rfl⟩ | ⟨hr, rfl⟩
  · have hne : ¬ ("MASTER" = "SLAVE") := by decide
    simp [async_tm_changeDBRoleAndUpStream, withLock, removeDB,
      ApplicationDBManager.removeDB, ApplicationDBManager.addDB, NameMap.insert, State.emit,
      hX, hr, NameMap.find_erase_self, NameMap.erase_erase]
  · have hne : ¬ ("SLAVE" = "MASTER") := by decide
    by_cases hboth : request.upstream_ip.isSome = true ∧ request.upstream_port.isSome = true
    · have hok := hip rfl hboth.1 hboth.2
      simp [async_tm_changeDBRoleAndUpStream, withLock, removeDB,
        ApplicationDBManager.removeDB, ApplicationDBManager.addDB, NameMap.insert,
        State.emit, SetAddressOrException, hX, hr, hne, hboth, hok,
        NameMap.find_erase_self, NameMap.erase_erase]
    · simp [async_tm_changeDBRoleAndUpStream, withLock, removeDB,
        ApplicationDBManager.removeDB, ApplicationDBManager.addDB, NameMap.insert,
        State.emit, hX, hr, hne, hboth, NameMap.find_erase_self, NameMap.erase_erase]

/-- C5 (amended): change-role-and-upstream(X, "SLAVE") on a registered `X`
without an upstream address (ip or port not supplied) is not rejected: it
succeeds and registers `X` as secondary with no upstream, every other name
unchanged.  `INVALID_UPSTREAM` is the answer only when ip and port are both
supplied and the ip does not parse, and then the registry is unchanged. -/
theorem C5_changeRole_SLAVE_without_upstream (cfg : Flags) (ext : Ext)
    (request : ChangeDBRoleAndUpstreamRequest) (s : State) (db : ApplicationDB)
    (hX : NameMap.find s.db_manager_ request.db_name = some db)
    (hrole : request.new_role = "SLAVE") :
    ((request.upstream_ip = none ∨ request.upstream_port = none) →
      (async_tm_changeDBRoleAndUpStream cfg ext request s).2 = Except.ok () ∧
      NameMap.find (async_tm_changeDBRoleAndUpStream cfg ext request s).1.db_manager_
          request.db_name = some ⟨db.rocksdb, DBRole.SLAVE, none⟩ ∧
      ∀ other, other ≠ request.db_name →
        NameMap.find (async_tm_changeDBRoleAndUpStream cfg ext request s).1.db_manager_
          other = NameMap.find s.db_manager_ other) ∧
    (∀ ip port, request.upstream_ip = some ip → request.upstream_port = some port →
      ext.setFromIpPort_ok ip = false →
      (async_tm_changeDBRoleAndUpStream cfg ext request s).2 =
        Except.error ⟨some AdminErrorCode.INVALID_UPSTREAM,
          "Invalid ip:port " ++ ip ++ ":" ++
            toString (uint16_t cfg.rocksdb_replicator_port)⟩ ∧
      (async_tm_changeDBRoleAndUpStream cfg ext request s).1.db_manager_ =
        s.db_manager_) := by
  refine ⟨?_, ?_⟩
  · intro hmissing
    have hnot : ¬ (request.upstream_ip.isSome = true ∧ request.upstream_port.isSome = true) := by
      rcases hmissing with h | h <;> simp [h]
    rw [changeRole_of_registered cfg ext request s db DBRole.SLAVE hX
      (Or.inr ⟨hrole, rfl⟩) (fun _ h1 h2 => absurd ⟨h1, h2⟩ hnot)]
    refine ⟨rfl, ?_, ?_⟩
    · simp [NameMap.find, hnot]
    · intro other hother
      have hne : ¬ request.db_name = other := fun hh => hother hh.symm
      simp [NameMap.find, hne, NameMap.find_erase_ne _ _ _ hother]
  · intro ip port hi hp hbad
    have hne : ¬ ("SLAVE" = "MASTER") := by decide
    simp [async_tm_changeDBRoleAndUpStream, withLock, State.emit, SetAddressOrException,
      hrole, hne, hi, hp, hbad]

/-- C5, counterexample: `alpha_0` is a secondary of `10.0.0.2:9091`;
change-role-and-upstream to "SLAVE" without an upstream address succeeds, and
afterwards `alpha_0` is registered as a secondary without upstream. -/
theorem C5_counterexample_SLAVE_registered_without_upstream :
    (async_tm_changeDBRoleAndUpStream cfg0 ext_ok ⟨"alpha_0", "SLAVE", none, none⟩
        st_alpha).2 = Except.ok () ∧
    NameMap.find st_alpha.db_manager_ "alpha_0" =
      some ⟨"/tmp/alpha_0", DBRole.SLAVE, some ⟨"10.0.0.2", 9091⟩⟩ ∧
    NameMap.find
        (async_tm_changeDBRoleAndUpStream cfg0 ext_ok ⟨"alpha_0", "SLAVE", none, none⟩
          st_alpha).1.db_manager_ "alpha_0" =
      some ⟨"/tmp/alpha_0", DBRole.SLAVE, none⟩ := by
  decide

/-- C5, witness: on the handler hosting `alpha_0` as a primary, the role
change to "SLAVE" without upstream succeeds. -/
theorem C5_witness :
    (async_tm_changeDBRoleAndUpStream cfg0 ext_ok ⟨"alpha_0", "SLAVE", none, none⟩
        (st_hosting DBRole.MASTER none)).2 = Except.ok () ∧
    NameMap.find
        (async_tm_changeDBRoleAndUpStream cfg0 ext_ok ⟨"alpha_0", "SLAVE", none, none⟩
          (st_hosting DBRole.MASTER none)).1.db_manager_ "alpha_0" =
      some ⟨"/tmp/alpha_0", DBRole.SLAVE, none⟩ :=
  ⟨((C5_changeRole_SLAVE_without_upstream cfg0 ext_ok ⟨"alpha_0", "SLAVE", none, none⟩
      (st_hosting DBRole.MASTER none) ⟨"/tmp/alpha_0", DBRole.MASTER, none⟩ (by decide)
      rfl).1 (Or.inl rfl)).1,
   ((C5_changeRole_SLAVE_without_upstream cfg0 ext_ok ⟨"alpha_0", "SLAVE", none, none⟩
      (st_hosting DBRole.MASTER none) ⟨"/tmp/alpha_0", DBRole.MASTER, none⟩ (by decide)
      rfl).1 (Or.inl rfl)).2.1⟩

theorem checkDB_is_master (ext : Ext) (db_name : String) (s : State) (db : ApplicationDB)
    (h : NameMap.find s.db_manager_ db_name = some db) :
    ∃ response, (async_tm_checkDB ext db_name s).2 = Except.ok response ∧
      response.is_master = !db.IsSlave := by
  by_cases hseq : ext.GetLatestSequenceNumber db.rocksdb = 0 <;>
  simp [async_tm_checkDB, getDB, ApplicationDBManager.getDB, h, hseq]

/-- C6: on a registered `X`, change-role-and-upstream(X, "MASTER") succeeds,
leaves `X` registered as primary without upstream and every other name
unchanged, and check-db(X) then reports is_master = true;
change-role-and-upstream(X, "SLAVE", ip, port) with a parseable ip leaves `X`
registered as secondary with upstream (ip, configured replication port); any
role string other than "MASTER" and "SLAVE" fails with `INVALID_DB_ROLE` and
leaves the registry unchanged. -/
theorem C6_changeRole_MASTER_SLAVE_other (cfg : Flags) (ext : Ext)
    (request : ChangeDBRoleAndUpstreamRequest) (s : State) (db : ApplicationDB)
    (hX : NameMap.find s.db_manager_ request.db_name = some db) :
    (request.new_role = "MASTER" →
      (async_tm_changeDBRoleAndUpStream cfg ext request s).2 = Except.ok () ∧
      NameMap.find (async_tm_changeDBRoleAndUpStream cfg ext request s).1.db_manager_
          request.db_name = some ⟨db.rocksdb, DBRole.MASTER, none⟩ ∧
      (∀ other, other ≠ request.db_name →
        NameMap.find (async_tm_changeDBRoleAndUpStream cfg ext request s).1.db_manager_
          other = NameMap.find s.db_manager_ other) ∧
      ∀ ext2 : Ext, ∃ response,
        (async_tm_checkDB ext2 request.db_name
          (async_tm_changeDBRoleAndUpStream cfg ext request s).1).2 = Except.ok response ∧
        response.is_master = true) ∧
    (request.new_role = "SLAVE" →
      ∀ ip port, request.upstream_ip = some ip → request.upstream_port = some port →
      ext.setFromIpPort_ok ip = true →
      0 ≤ cfg.rocksdb_replicator_port ∧ cfg.rocksdb_replicator_port < 65536 →
      (async_tm_changeDBRoleAndUpStream cfg ext request s).2 = Except.ok () ∧
      NameMap.find (async_tm_changeDBRoleAndUpStream cfg ext request s).1.db_manager_
          request.db_name =
        some ⟨db.rocksdb, DBRole.SLAVE, some ⟨ip, cfg.rocksdb_replicator_port.toNat⟩⟩) ∧
    (request.new_role ≠ "MASTER" → request.new_role ≠ "SLAVE" →
      (async_tm_changeDBRoleAndUpStream cfg ext request s).2 =
        Except.error ⟨some AdminErrorCode.INVALID_DB_ROLE, request.new_role⟩ ∧
      (async_tm_changeDBRoleAndUpStream cfg ext request s).1.db_manager_ =
        s.db_manager_) := by
  refine ⟨?_, ?_, ?_⟩
  · intro hrole
    have hfind : NameMap.find
        (async_tm_changeDBRoleAndUpStream cfg ext request s).1.db_manager_
          request.db_name = some ⟨db.rocksdb, DBRole.MASTER, none⟩ := by
      rw [changeRole_of_registered cfg ext request s db DBRole.MASTER hX
        (Or.inl ⟨hrole, rfl⟩) (fun h => by cases h)]
      simp [NameMap.find]
    refine ⟨?_, hfind, ?_, ?_⟩
    · rw [changeRole_of_registered cfg ext request s db DBRole.MASTER hX
        (Or.inl ⟨hrole, rfl⟩) (fun h => by cases h)]
    · intro other hother
      have hne : ¬ request.db_name = other := fun hh => hother hh.symm
      rw [changeRole_of_registered cfg ext request s db DBRole.MASTER hX
        (Or.inl ⟨hrole, rfl⟩) (fun h => by cases h)]
      simp [NameMap.find, hne, NameMap.find_erase_ne _ _ _ hother]
    · intro ext2
      obtain ⟨response, hresp, hm⟩ := checkDB_is_master ext2 request.db_name _ _ hfind
      exact ⟨response, hresp, by rw [hm]; rfl⟩
  · intro hrole ip port hi hp hok hport
    rw [changeRole_of_registered cfg ext request s db DBRole.SLAVE hX
      (Or.inr ⟨hrole, rfl⟩) (fun _ _ _ => by simpa [hi] using hok)]
    simp [NameMap.find, hi, hp, uint16_t_of_port _ hport]
  · intro h1 h2
    simp [async_tm_changeDBRoleAndUpStream, withLock, State.emit, h1, h2]

/-- C6, witness: on the handler hosting `alpha_0` as a secondary, the role
change to "MASTER" registers it as primary without upstream and check-db then
reports is_master = true; the role change to "SLAVE" with ip `10.0.0.2` and
port 1 registers upstream `10.0.0.2:9091`; the role "NOOP" is refused. -/
theorem C6_witness :
    NameMap.find
        (async_tm_changeDBRoleAndUpStream cfg0 ext_ok ⟨"alpha_0", "MASTER", none, none⟩
          st_alpha).1.db_manager_ "alpha_0" = some ⟨"/tmp/alpha_0", DBRole.MASTER, none⟩ ∧
    (∃ response,
      (async_tm_checkDB ext_ok "alpha_0"
        (async_tm_changeDBRoleAndUpStream cfg0 ext_ok ⟨"alpha_0", "MASTER", none, none⟩
          st_alpha).1).2 = Except.ok response ∧ response.is_master = true) ∧
    NameMap.find
        (async_tm_changeDBRoleAndUpStream cfg0 ext_ok
          ⟨"alpha_0", "SLAVE", some "10.0.0.2", some 1⟩
          (st_hosting DBRole.MASTER none)).1.db_manager_ "alpha_0" =
      some ⟨"/tmp/alpha_0", DBRole.SLAVE, some ⟨"10.0.0.2", 9091⟩⟩ ∧
    (async_tm_changeDBRoleAndUpStream cfg0 ext_ok ⟨"alpha_0", "NOOP", none, none⟩
        st_alpha).2 = Except.error ⟨some AdminErrorCode.INVALID_DB_ROLE, "NOOP"⟩ :=
  ⟨((C6_changeRole_MASTER_SLAVE_other cfg0 ext_ok ⟨"alpha_0", "MASTER", none, none⟩ st_alpha
      ⟨"/tmp/alpha_0", DBRole.SLAVE, some ⟨"10.0.0.2", 9091⟩⟩ (by decide)).1 rfl).2.1,
   ((C6_changeRole_MASTER_SLAVE_other cfg0 ext_ok ⟨"alpha_0", "MASTER", none, none⟩ st_alpha
      ⟨"/tmp/alpha_0", DBRole.SLAVE, some ⟨"10.0.0.2", 9091⟩⟩ (by decide)).1 rfl).2.2.2
      ext_ok,
   ((C6_changeRole_MASTER_SLAVE_other cfg0 ext_ok
      ⟨"alpha_0", "SLAVE", some "10.0.0.2", some 1⟩ (st_hosting DBRole.MASTER none)
      ⟨"/tmp/alpha_0", DBRole.MASTER, none⟩ (by decide)).2.1 rfl "10.0.0.2" 1 rfl rfl
      (by decide) (by decide)).2,
   ((C6_changeRole_MASTER_SLAVE_other cfg0 ext_ok ⟨"alpha_0", "NOOP", none, none⟩ st_alpha
      ⟨"/tmp/alpha_0", DBRole.SLAVE, some ⟨"10.0.0.2", 9091⟩⟩ (by decide)).2.2
      (by decide) (by decide)).1⟩

/-! ## check-db and the inert role (C7) -/

/-- C7, evaluation at the failing input: add-db with role "NOOP" registers
`alpha_0` with role inert, and check-db then answers is_master = true although
the registered role is not primary. -/
theorem C7_checkDB_is_master_true_for_NOOP :
    NameMap.find
        (async_tm_addDB cfg0 ext_ok ⟨"alpha_0", "10.0.0.2", some "NOOP", none⟩
          st_empty).1.db_manager_ "alpha_0" =
      some ⟨"/tmp/alpha_0", DBRole.NOOP, some ⟨"10.0.0.2", 9091⟩⟩ ∧
    (async_tm_checkDB ext_ok "alpha_0"
        (async_tm_addDB cfg0 ext_ok ⟨"alpha_0", "10.0.0.2", some "NOOP", none⟩
          st_empty).1).2 =
      Except.ok { seq_num := 0, wal_ttl_seconds := 0, is_master := true } := by
  decide

/-! ## clear-db on an unregistered name (C8) -/

theorem clearDB_of_unregistered (cfg : Flags) (ext : Ext) (request : ClearDBRequest)
    (s : State) (hX : NameMap.find s.db_manager_ request.db_name = none) :
    async_tm_clearDB cfg ext request s =
      ({ s with
          meta_db_ := (clearMetaData ext s request.db_name).2.meta_db_,
          trace := s.trace ++ [Effect.Lock request.db_name,
            Effect.DestroyDB (cfg.rocksdb_dir ++ request.db_name),
            Effect.Unlock request.db_name] },
       match ext.DestroyDB (cfg.rocksdb_dir ++ request.db_name) with
       | Status.OK => Except.ok ()
       | Status.NotOK text =>
         Except.error ⟨some AdminErrorCode.DB_ADMIN_ERROR, text⟩) := by
  cases hdel : ext.meta_db_Delete_ok request.db_name <;>
  cases hd : ext.DestroyDB (cfg.rocksdb_dir ++ request.db_name) <;>
  simp [async_tm_clearDB, withLock, getDB, removeDB, ApplicationDBManager.getDB,
    ApplicationDBManager.removeDB, State.emit, OKOrSetException, Status.ok, Status.ToString,
    clearMetaData, hX, hdel, hd]

/-- C8 (amended): clear-db on a name that is not in the registry, with or
without reopen, never fails with `DB_NOT_FOUND`: it deletes the metadata
record, destroys the on-disk database and succeeds when the destroy succeeds,
and fails with `DB_ADMIN_ERROR` and the engine's status text when the destroy
fails; the registry is unchanged and nothing is opened. -/
theorem C8_clearDB_unregistered_is_not_DB_NOT_FOUND (cfg : Flags) (ext : Ext)
    (request : ClearDBRequest) (s : State)
    (hX : NameMap.find s.db_manager_ request.db_name = none) :
    (ext.DestroyDB (cfg.rocksdb_dir ++ request.db_name) = Status.OK →
      (async_tm_clearDB cfg ext request s).2 = Except.ok ()) ∧
    (∀ text, ext.DestroyDB (cfg.rocksdb_dir ++ request.db_name) = Status.NotOK text →
      (async_tm_clearDB cfg ext request s).2 =
        Except.error ⟨some AdminErrorCode.DB_ADMIN_ERROR, text⟩) ∧
    ¬ FailsWith (async_tm_clearDB cfg ext request s).2 AdminErrorCode.DB_NOT_FOUND ∧
    (async_tm_clearDB cfg ext request s).1.db_manager_ = s.db_manager_ ∧
    (ext.meta_db_Delete_ok request.db_name = true →
      NameMap.find (async_tm_clearDB cfg ext request s).1.meta_db_ request.db_name = none) ∧
    (async_tm_clearDB cfg ext request s).1.trace =
      s.trace ++ [Effect.Lock request.db_name,
        Effect.DestroyDB (cfg.rocksdb_dir ++ request.db_name),
        Effect.Unlock request.db_name] := by
  rw [clearDB_of_unregistered cfg ext request s hX]
  refine ⟨?_, ?_, ?_, rfl, ?_, rfl⟩
  · intro h; simp [h]
  · intro text h; simp [h]
  · rintro ⟨message, h⟩
    cases hd : ext.DestroyDB (cfg.rocksdb_dir ++ request.db_name) <;> simp [hd] at h
  · intro hdel
    simp [clearMetaData, hdel, NameMap.find_erase_self]

/-- C8, counterexample: on the empty handler clear-db of `alpha_0` succeeds,
with reopen and without. -/
theorem C8_counterexample_clearDB_unregistered_succeeds :
    NameMap.find st_empty.db_manager_ "alpha_0" = none ∧
    (async_tm_clearDB cfg0 ext_ok ⟨"alpha_0", some true⟩ st_empty).2 = Except.ok () ∧
    (async_tm_clearDB cfg0 ext_ok ⟨"alpha_0", none⟩ st_empty).2 = Except.ok () := by
  decide

/-- C8, witness: clear-db of the unregistered `alpha_0` on the empty handler. -/
theorem C8_witness :
    (async_tm_clearDB cfg0 ext_ok ⟨"alpha_0", some true⟩ st_empty).2 = Except.ok () ∧
    ¬ FailsWith (async_tm_clearDB cfg0 ext_ok ⟨"alpha_0", some true⟩ st_empty).2
      AdminErrorCode.DB_NOT_FOUND :=
  ⟨(C8_clearDB_unregistered_is_not_DB_NOT_FOUND cfg0 ext_ok ⟨"alpha_0", some true⟩ st_empty
      (by decide)).1 (by decide),
   (C8_clearDB_unregistered_is_not_DB_NOT_FOUND cfg0 ext_ok ⟨"alpha_0", some true⟩ st_empty
      (by decide)).2.2.1⟩

/-! ## Destroy and re-open (C9) -/

/-- C9, evaluation at the failing input: `alpha_0` is registered with role
inert and upstream `10.0.0.2:9091`.  Clear-db with reopen = true succeeds and
registers it again as primary (keeping the upstream); bulk ingest with
overlapping keys not allowed succeeds and registers it again as primary
without upstream. -/
theorem C9_reopen_turns_NOOP_into_MASTER :
    NameMap.find st_noop.db_manager_ "alpha_0" =
      some ⟨"/tmp/alpha_0", DBRole.NOOP, some ⟨"10.0.0.2", 9091⟩⟩ ∧
    (async_tm_clearDB cfg0 ext_ok ⟨"alpha_0", some true⟩ st_noop).2 = Except.ok () ∧
    NameMap.find
        (async_tm_clearDB cfg0 ext_ok ⟨"alpha_0", some true⟩ st_noop).1.db_manager_
        "alpha_0" =
      some ⟨"/tmp/alpha_0", DBRole.MASTER, some ⟨"10.0.0.2", 9091⟩⟩ ∧
    (async_tm_addS3SstFilesToDB cfg0 ext_ok ⟨"alpha_0", "b", "snap/1", none⟩ st_noop).2 =
      Except.ok () ∧
    (async_tm_addS3SstFilesToDB cfg0 ext_ok ⟨"alpha_0", "b", "snap/1", none⟩
        st_noop).1.trace =
      [Effect.Lock "alpha_0",
       Effect.remove_all "/tmp/s3_tmp/alpha_0/",
       Effect.create_directories "/tmp/s3_tmp/alpha_0/",
       Effect.BuildS3Util 0 "b",
       Effect.getObjects "snap/1" "/tmp/s3_tmp/alpha_0/",
       Effect.DestroyDB "/tmp/alpha_0",
       Effect.DB_Open "/tmp/alpha_0",
       Effect.IngestExternalFile "/tmp/alpha_0" ["/tmp/s3_tmp/alpha_0/000001.sst"]
         ⟨true, false, false⟩,
       Effect.remove_all "/tmp/s3_tmp/alpha_0/",
       Effect.Unlock "alpha_0"] ∧
    NameMap.find
        (async_tm_addS3SstFilesToDB cfg0 ext_ok ⟨"alpha_0", "b", "snap/1", none⟩
          st_noop).1.db_manager_ "alpha_0" =
      some ⟨"/tmp/alpha_0", DBRole.MASTER, none⟩ := by
  decide

/-! ## Operations on an unregistered name (C10) -/

/-- C10 (amended): for a name `X` that is not in the registry, close-db,
change-role-and-upstream (valid role and upstream), backup-db (distributed
file system once the file-system environment has been created, object store
once past the gate and the scratch staging), get-sequence-number, check-db,
set-db-options, compact-db, start-message-ingestion and stop-message-ingestion
fail with `DB_NOT_FOUND`, whereas add-object-store-files-to-db fails with
`DB_ADMIN_ERROR`; each of them leaves the registry, the metadata store and the
watcher map unchanged. -/
theorem C10_unregistered_name_is_rejected (cfg : Flags) (ext : Ext) (s : State) (X : String)
    (hX : NameMap.find s.db_manager_ X = none) :
    ((async_tm_closeDB ext X s).2 =
        Except.error ⟨some AdminErrorCode.DB_NOT_FOUND, ext.db_manager_err_msg X⟩ ∧
      SameStores s (async_tm_closeDB ext X s).1) ∧
    (∀ request : ChangeDBRoleAndUpstreamRequest, request.db_name = X →
      (request.new_role = "MASTER" ∨ request.new_role = "SLAVE") →
      (∀ ip, request.upstream_ip = some ip → ext.setFromIpPort_ok ip = true) →
      (async_tm_changeDBRoleAndUpStream cfg ext request s).2 =
        Except.error ⟨some AdminErrorCode.DB_NOT_FOUND, ext.db_manager_err_msg X⟩ ∧
      SameStores s (async_tm_changeDBRoleAndUpStream cfg ext request s).1) ∧
    (∀ request : BackupDBRequest, request.db_name = X →
      ext.NewHdfsEnv (cfg.hdfs_name_node ++ request.hdfs_backup_dir) = Status.OK →
      (async_tm_backupDB cfg ext request s).2 =
        Except.error ⟨some AdminErrorCode.DB_NOT_FOUND, ext.db_manager_err_msg X⟩ ∧
      SameStores s (async_tm_backupDB cfg ext request s).1) ∧
    (∀ request : BackupDBToS3Request, request.db_name = X →
      s.num_current_s3_sst_uploadings_ < cfg.max_s3_sst_loading_concurrency →
      ext.remove_all_err (cfg.rocksdb_dir ++ "s3_tmp/" ++ X ++ "/") = false →
      ext.create_directories_err (cfg.rocksdb_dir ++ "s3_tmp/" ++ X ++ "/") = false →
      (async_tm_backupDBToS3 cfg ext request s).2 =
        Except.error ⟨some AdminErrorCode.DB_NOT_FOUND, ext.db_manager_err_msg X⟩ ∧
      SameStores s (async_tm_backupDBToS3 cfg ext request s).1) ∧
    ((async_tm_getSequenceNumber ext X s).2 =
        Except.error ⟨some AdminErrorCode.DB_NOT_FOUND, ext.db_manager_err_msg X⟩ ∧
      SameStores s (async_tm_getSequenceNumber ext X s).1) ∧
    ((async_tm_checkDB ext X s).2 =
        Except.error ⟨some AdminErrorCode.DB_NOT_FOUND, ext.db_manager_err_msg X⟩ ∧
      SameStores s (async_tm_checkDB ext X s).1) ∧
    (∀ options, (async_tm_setDBOptions ext X options s).2 =
        Except.error ⟨some AdminErrorCode.DB_NOT_FOUND, ext.db_manager_err_msg X⟩ ∧
      SameStores s (async_tm_setDBOptions ext X options s).1) ∧
    ((async_tm_compactDB ext X s).2 =
        Except.error ⟨some AdminErrorCode.DB_NOT_FOUND, ext.db_manager_err_msg X⟩ ∧
      SameStores s (async_tm_compactDB ext X s).1) ∧
    (∀ request : AddS3SstFilesToDBRequest, request.db_name = X →
      (async_tm_addS3SstFilesToDB cfg ext request s).2 =
        Except.error ⟨some AdminErrorCode.DB_ADMIN_ERROR, X ++ " doesnt exist."⟩ ∧
      SameStores s (async_tm_addS3SstFilesToDB cfg ext request s).1) ∧
    (∀ request : StartMessageIngestionRequest, request.db_name = X →
      (async_tm_startMessageIngestion ext request s).2 =
        Except.error ⟨some AdminErrorCode.DB_NOT_FOUND, X ++ " doesn't exist."⟩ ∧
      SameStores s (async_tm_startMessageIngestion ext request s).1) ∧
    ((async_tm_stopMessageIngestion ext X s).2 =
        Except.error ⟨some AdminErrorCode.DB_NOT_FOUND, X ++ " doesn't exist."⟩ ∧
      SameStores s (async_tm_stopMessageIngestion ext X s).1) := by
  unfold SameStores
  refine ⟨?_, ?_, ?_, ?_, ?_, ?_, ?_, ?_, ?_, ?_, ?_⟩
  · simp [async_tm_closeDB, withLock, removeDB, ApplicationDBManager.removeDB, State.emit, hX]
  · intro request hname hrole hip
    subst hname
    rcases hrole with hr | hr
    · simp [async_tm_changeDBRoleAndUpStream, withLock, removeDB,
        ApplicationDBManager.removeDB, State.emit, hX, hr]
    · have hne : ¬ ("SLAVE" = "MASTER") := by decide
      cases hi : request.upstream_ip with
      | none =>
        simp [async_tm_changeDBRoleAndUpStream, withLock, removeDB,
          ApplicationDBManager.removeDB, State.emit, hX, hr, hne, hi]
      | some ip =>
        have hok := hip ip hi
        cases hp : request.upstream_port <;>
        simp [async_tm_changeDBRoleAndUpStream, withLock, removeDB,
          ApplicationDBManager.removeDB, State.emit, SetAddressOrException, hX, hr, hne, hi,
          hp, hok]
  · intro request hname henv
    subst hname
    simp [async_tm_backupDB, backupDBHelper, withLock, getDB, ApplicationDBManager.getDB,
      State.emit, OKOrSetException, Status.ok, hX, henv]
  · intro request hname hgate hrm hmk
    subst hname
    have hg : ¬ cfg.max_s3_sst_loading_concurrency ≤ s.num_current_s3_sst_uploadings_ :=
      not_le.mpr hgate
    cases hs : s.s3_util_ with
    | none =>
      simp [async_tm_backupDBToS3, withUploadCount, withScratchDir, backupDBHelper, withLock,
        getDB, ApplicationDBManager.getDB, createLocalS3Util, State.emit, hX, hg, hrm, hmk, hs]
    | some u =>
      by_cases hb : should_new_s3_client u (uint32_t (request.limit_mbs.getD 0))
          request.s3_bucket = true <;>
      simp [async_tm_backupDBToS3, withUploadCount, withScratchDir, backupDBHelper, withLock,
        getDB, ApplicationDBManager.getDB, createLocalS3Util, State.emit, hX, hg, hrm, hmk, hs,
        hb]
  · simp [async_tm_getSequenceNumber, getDB, ApplicationDBManager.getDB, hX]
  · simp [async_tm_checkDB, getDB, ApplicationDBManager.getDB, hX]
  · intro options
    simp [async_tm_setDBOptions, withLock, getDB, ApplicationDBManager.getDB, State.emit, hX]
  · simp [async_tm_compactDB, getDB, ApplicationDBManager.getDB, hX]
  · intro request hname
    subst hname
    simp [async_tm_addS3SstFilesToDB, withLock, getDB, ApplicationDBManager.getDB,
      State.emit, hX]
  · intro request hname
    subst hname
    simp [async_tm_startMessageIngestion, withLock, getDB, ApplicationDBManager.getDB,
      State.emit, hX]
  · simp [async_tm_stopMessageIngestion, withLock, getDB, ApplicationDBManager.getDB,
      State.emit, hX]

/-- C10, counterexample: `alpha_0` is not registered;
add-object-store-files-to-db answers `DB_ADMIN_ERROR`, and backup-db to the
distributed file system answers `DB_ADMIN_ERROR` when the file-system
environment cannot be created; neither answer is `DB_NOT_FOUND`. -/
theorem C10_counterexample_addS3_is_DB_ADMIN_ERROR :
    NameMap.find st_empty.db_manager_ "alpha_0" = none ∧
    (async_tm_addS3SstFilesToDB cfg0 ext_ok ⟨"alpha_0", "b", "snap/1", none⟩ st_empty).2 =
      Except.error ⟨some AdminErrorCode.DB_ADMIN_ERROR, "alpha_0 doesnt exist."⟩ ∧
    (async_tm_backupDB cfg0 ext_no_hdfs ⟨"alpha_0", "/backup/alpha_0", none⟩ st_empty).2 =
      Except.error ⟨some AdminErrorCode.DB_ADMIN_ERROR, "Not compiled with hdfs support"⟩ := by
  decide

/-- C10, witness: close-db, bulk ingest and stop-message-ingestion of the
unregistered `alpha_0` on the empty handler. -/
theorem C10_witness :
    (async_tm_closeDB ext_ok "alpha_0" st_empty).2 =
      Except.error ⟨some AdminErrorCode.DB_NOT_FOUND, "alpha_0 not usable"⟩ ∧
    (async_tm_addS3SstFilesToDB cfg0 ext_ok ⟨"alpha_0", "b", "snap/1", none⟩ st_empty).2 =
      Except.error ⟨some AdminErrorCode.DB_ADMIN_ERROR, "alpha_0 doesnt exist."⟩ ∧
    (async_tm_stopMessageIngestion ext_ok "alpha_0" st_empty).2 =
      Except.error ⟨some AdminErrorCode.DB_NOT_FOUND, "alpha_0 doesn't exist."⟩ :=
  ⟨(C10_unregistered_name_is_rejected cfg0 ext_ok st_empty "alpha_0" (by decide)).1.1,
   ((C10_unregistered_name_is_rejected cfg0 ext_ok st_empty "alpha_0"
      (by decide)).2.2.2.2.2.2.2.2.1 ⟨"alpha_0", "b", "snap/1", none⟩ rfl).1,
   (C10_unregistered_name_is_rejected cfg0 ext_ok st_empty "alpha_0"
      (by decide)).2.2.2.2.2.2.2.2.2.2.1⟩

/-! ## The concurrency gate (C11, C12) -/

theorem gateStep_invariant (max_concurrency : Int) (g g1 : GateState) (step : GateStep)
    (hinv : GateInvariant max_concurrency g)
    (hstep : gateStep max_concurrency g step = some g1) :
    GateInvariant max_concurrency g1 := by
  obtain ⟨h1, h2, h3, h4⟩ := hinv
  unfold GateInvariant
  cases step with
  | enter op =>
    cases op <;> simp [gateStep, GatedOp.isUpload] at hstep <;>
    split at hstep <;> simp at hstep <;> subst hstep <;>
    simp <;> omega
  | exit_passed op =>
    cases op <;> simp [gateStep, GatedOp.isUpload] at hstep <;>
    obtain ⟨hpos, rfl⟩ := hstep <;> simp <;> omega
  | exit_rejected op =>
    cases op <;> simp [gateStep, GatedOp.isUpload] at hstep <;>
    obtain ⟨hpos, rfl⟩ := hstep <;> simp <;> omega

theorem gateRun_invariant (max_concurrency : Int) (steps : List GateStep) :
    ∀ g g1 : GateState, GateInvariant max_concurrency g →
      gateRun max_concurrency steps g = some g1 → GateInvariant max_concurrency g1 := by
  induction steps with
  | nil =>
    intro g g1 hinv hrun
    simp [gateRun] at hrun
    exact hrun ▸ hinv
  | cons step rest ih =>
    intro g g1 hinv hrun
    simp only [gateRun] at hrun
    cases hs : gateStep max_concurrency g step with
    | none => simp [hs] at hrun
    | some g2 =>
      simp [hs] at hrun
      exact ih g2 g1 (gateStep_invariant max_concurrency g g2 step hinv hs) hrun

/-- C11 (amended): in every state reached from the initial gate by entry and
exit steps of the gated operations, with a positive cap, the uploads that have
passed the gate and not yet exited are at most the cap, the downloads that
have passed and not yet exited are at most the cap, and each of the two
counters is the number of its operations in flight, passed or rejected. -/
theorem C11_gate_bounds_each_direction (max_concurrency : Int) (steps : List GateStep)
    (g : GateState) (hmax : 0 < max_concurrency)
    (hrun : gateRun max_concurrency steps gate_init = some g) :
    (g.uploads_passed : Int) ≤ max_concurrency ∧
    (g.downloads_passed : Int) ≤ max_concurrency ∧
    g.num_current_s3_sst_uploadings_ = (g.uploads_passed : Int) + g.uploads_rejected ∧
    g.num_current_s3_sst_downloadings_ =
      (g.downloads_passed : Int) + g.downloads_rejected := by
  have hinit : GateInvariant max_concurrency gate_init := by
    unfold GateInvariant gate_init
    simp
    omega
  obtain ⟨h1, h2, h3, h4⟩ := gateRun_invariant max_concurrency steps gate_init g hinit hrun
  exact ⟨h3, h4, h1, h2⟩

/-- C11, counterexample: with cap 1, a backup to the object store and a
restore from it both pass the gate, so two transfers are in flight; and a
second backup entering while the first is in flight raises the upload counter
to 2 before it is rejected. -/
theorem C11_counterexample_two_counters :
    gateRun 1 [GateStep.enter GatedOp.backupDBToS3, GateStep.enter GatedOp.restoreDBFromS3]
        gate_init =
      some { num_current_s3_sst_uploadings_ := 1, num_current_s3_sst_downloadings_ := 1,
             uploads_passed := 1, uploads_rejected := 0,
             downloads_passed := 1, downloads_rejected := 0 } ∧
    gateRun 1 [GateStep.enter GatedOp.backupDBToS3, GateStep.enter GatedOp.backupDBToS3]
        gate_init =
      some { num_current_s3_sst_uploadings_ := 2, num_current_s3_sst_downloadings_ := 0,
             uploads_passed := 1, uploads_rejected := 1,
             downloads_passed := 0, downloads_rejected := 0 } := by
  decide

/-- C11, witness: with cap 1, after a backup entered, a second backup entered
and was rejected, and the first backup exited. -/
theorem C11_witness :
    (0 : Int) < 1 ∧
    gateRun 1 [GateStep.enter GatedOp.backupDBToS3, GateStep.enter GatedOp.backupDBToS3,
        GateStep.exit_passed GatedOp.backupDBToS3] gate_init =
      some { num_current_s3_sst_uploadings_ := 1, num_current_s3_sst_downloadings_ := 0,
             uploads_passed := 0, uploads_rejected := 1,
             downloads_passed := 0, downloads_rejected := 0 } ∧
    ((0 : Nat) : Int) ≤ 1 :=
  ⟨by decide, by decide,
   (C11_gate_bounds_each_direction 1
      [GateStep.enter GatedOp.backupDBToS3, GateStep.enter GatedOp.backupDBToS3,
        GateStep.exit_passed GatedOp.backupDBToS3]
      { num_current_s3_sst_uploadings_ := 1, num_current_s3_sst_downloadings_ := 0,
        uploads_passed := 0, uploads_rejected := 1,
        downloads_passed := 0, downloads_rejected := 0 } (by decide) (by decide)).1⟩

theorem createLocalS3Util_uploadings (s : State) (limit : Nat) (bucket : String) :
    (createLocalS3Util s limit bucket).1.num_current_s3_sst_uploadings_ =
      s.num_current_s3_sst_uploadings_ :=
  (createLocalS3Util_frame s limit bucket).2.2.2.2.1

theorem createLocalS3Util_downloadings (s : State) (limit : Nat) (bucket : String) :
    (createLocalS3Util s limit bucket).1.num_current_s3_sst_downloadings_ =
      s.num_current_s3_sst_downloadings_ :=
  (createLocalS3Util_frame s limit bucket).2.2.2.1

theorem backupDBHelper_counters (cfg : Flags) (ext : Ext) (db_name backup_dir : String)
    (enable : Bool) (limit : Nat) (e : AdminException) (s : State) :
    (backupDBHelper cfg ext db_name backup_dir enable limit e s).1.num_current_s3_sst_uploadings_ =
      s.num_current_s3_sst_uploadings_ ∧
    (backupDBHelper cfg ext db_name backup_dir enable limit e s).1.num_current_s3_sst_downloadings_ =
      s.num_current_s3_sst_downloadings_ := by
  simp only [backupDBHelper, withLock, getDB, State.emit]
  repeat' split
  all_goals simp

theorem restoreDBHelper_counters (cfg : Flags) (ext : Ext) (db_name backup_dir : String)
    (upstream_addr : SocketAddress) (enable : Bool) (limit : Nat) (e : AdminException)
    (s : State) :
    (restoreDBHelper cfg ext db_name backup_dir upstream_addr enable limit e
        s).1.num_current_s3_sst_uploadings_ = s.num_current_s3_sst_uploadings_ ∧
    (restoreDBHelper cfg ext db_name backup_dir upstream_addr enable limit e
        s).1.num_current_s3_sst_downloadings_ = s.num_current_s3_sst_downloadings_ := by
  simp only [restoreDBHelper, withLock, State.emit, ApplicationDBManager.addDB]
  repeat' split
  all_goals simp

theorem backupDBToS3_counters (cfg : Flags) (ext : Ext) (request : BackupDBToS3Request)
    (s : State) :
    (async_tm_backupDBToS3 cfg ext request s).1.num_current_s3_sst_uploadings_ =
      s.num_current_s3_sst_uploadings_ ∧
    (async_tm_backupDBToS3 cfg ext request s).1.num_current_s3_sst_downloadings_ =
      s.num_current_s3_sst_downloadings_ := by
  simp only [async_tm_backupDBToS3, withUploadCount, withScratchDir, State.emit]
  repeat' split
  all_goals simp [(backupDBHelper_counters _ _ _ _ _ _ _ _).1,
    (backupDBHelper_counters _ _ _ _ _ _ _ _).2, createLocalS3Util_uploadings,
    createLocalS3Util_downloadings]
theorem restoreDBFromS3_counters (cfg : Flags) (ext : Ext) (request : RestoreDBFromS3Request)
    (s : State) :
    (async_tm_restoreDBFromS3 cfg ext request s).1.num_current_s3_sst_uploadings_ =
      s.num_current_s3_sst_uploadings_ ∧
    (async_tm_restoreDBFromS3 cfg ext request s).1.num_current_s3_sst_downloadings_ =
      s.num_current_s3_sst_downloadings_ := by
  simp only [async_tm_restoreDBFromS3, withDownloadCount, withScratchDir, State.emit]
  repeat' split
  all_goals simp [(restoreDBHelper_counters _ _ _ _ _ _ _ _ _).1,
    (restoreDBHelper_counters _ _ _ _ _ _ _ _ _).2, createLocalS3Util_uploadings,
    createLocalS3Util_downloadings]

theorem clearMetaData_counters (ext : Ext) (s : State) (db_name : String) :
    (clearMetaData ext s db_name).2.num_current_s3_sst_uploadings_ =
      s.num_current_s3_sst_uploadings_ ∧
    (clearMetaData ext s db_name).2.num_current_s3_sst_downloadings_ =
      s.num_current_s3_sst_downloadings_ := by
  unfold clearMetaData
  split <;> simp

theorem writeMetaData_counters (ext : Ext) (s : State) (db_name b p : String) (ts : Int) :
    (writeMetaData ext s db_name b p ts).2.num_current_s3_sst_uploadings_ =
      s.num_current_s3_sst_uploadings_ ∧
    (writeMetaData ext s db_name b p ts).2.num_current_s3_sst_downloadings_ =
      s.num_current_s3_sst_downloadings_ := by
  unfold writeMetaData
  split <;> simp

theorem addS3_clear_and_reopen_counters (cfg : Flags) (ext : Ext) (db_name : String)
    (db : ApplicationDB) (s : State) :
    (addS3_clear_and_reopen cfg ext db_name db s).1.num_current_s3_sst_uploadings_ =
      s.num_current_s3_sst_uploadings_ ∧
    (addS3_clear_and_reopen cfg ext db_name db s).1.num_current_s3_sst_downloadings_ =
      s.num_current_s3_sst_downloadings_ := by
  simp only [addS3_clear_and_reopen, removeDB, ApplicationDBManager.removeDB,
    ApplicationDBManager.addDB, getDB, State.emit]
  repeat' split
  all_goals simp

theorem addS3_counters (cfg : Flags) (ext : Ext) (request : AddS3SstFilesToDBRequest)
    (s : State) :
    (async_tm_addS3SstFilesToDB cfg ext request s).1.num_current_s3_sst_uploadings_ =
      s.num_current_s3_sst_uploadings_ ∧
    (async_tm_addS3SstFilesToDB cfg ext request s).1.num_current_s3_sst_downloadings_ =
      s.num_current_s3_sst_downloadings_ := by
  simp only [async_tm_addS3SstFilesToDB, withLock, withDownloadCount, withScratchDir,
    State.emit]
  repeat' split
  all_goals simp [(addS3_clear_and_reopen_counters _ _ _ _ _).1,
    (addS3_clear_and_reopen_counters _ _ _ _ _).2, (clearMetaData_counters _ _ _).1,
    (clearMetaData_counters _ _ _).2, (writeMetaData_counters _ _ _ _ _ _).1,
    (writeMetaData_counters _ _ _ _ _ _).2, createLocalS3Util_uploadings,
    createLocalS3Util_downloadings]

/-- C12 (amended): each gated operation leaves both gate counters as they were
at entry, whatever its outcome.  When the uploads counter is at or above the
cap at entry, backup to the object store is rejected with the limit error and
the state is untouched; likewise restore from the object store with the
downloads counter; bulk ingest is rejected with the limit error when the
downloads counter is at or above the cap, once the name is found registered
and the stored bucket and path differ from the request, and then only the
admin lock is taken and released. -/
theorem C12_gate_counter_restored_and_rejection (cfg : Flags) (ext : Ext) (s : State) :
    (∀ request : BackupDBToS3Request,
      (async_tm_backupDBToS3 cfg ext request s).1.num_current_s3_sst_uploadings_ =
        s.num_current_s3_sst_uploadings_ ∧
      (async_tm_backupDBToS3 cfg ext request s).1.num_current_s3_sst_downloadings_ =
        s.num_current_s3_sst_downloadings_) ∧
    (∀ request : RestoreDBFromS3Request,
      (async_tm_restoreDBFromS3 cfg ext request s).1.num_current_s3_sst_uploadings_ =
        s.num_current_s3_sst_uploadings_ ∧
      (async_tm_restoreDBFromS3 cfg ext request s).1.num_current_s3_sst_downloadings_ =
        s.num_current_s3_sst_downloadings_) ∧
    (∀ request : AddS3SstFilesToDBRequest,
      (async_tm_addS3SstFilesToDB cfg ext request s).1.num_current_s3_sst_uploadings_ =
        s.num_current_s3_sst_uploadings_ ∧
      (async_tm_addS3SstFilesToDB cfg ext request s).1.num_current_s3_sst_downloadings_ =
        s.num_current_s3_sst_downloadings_) ∧
    (∀ request : BackupDBToS3Request,
      s.num_current_s3_sst_uploadings_ ≥ cfg.max_s3_sst_loading_concurrency →
      async_tm_backupDBToS3 cfg ext request s =
        (s, Except.error ⟨none, "Concurrent uploading/downloading limit hits " ++
          toString s.num_current_s3_sst_uploadings_ ++ " by " ++ request.db_name⟩)) ∧
    (∀ request : RestoreDBFromS3Request,
      s.num_current_s3_sst_downloadings_ ≥ cfg.max_s3_sst_loading_concurrency →
      async_tm_restoreDBFromS3 cfg ext request s =
        (s, Except.error ⟨none, "Concurrent uploading/downloading limit hits " ++
          toString s.num_current_s3_sst_downloadings_ ++ " by " ++ request.db_name⟩)) ∧
    (∀ request : AddS3SstFilesToDBRequest,
      NameMap.find s.db_manager_ request.db_name ≠ none →
      ¬ ((getMetaData s request.db_name).s3_bucket = some request.s3_bucket ∧
          (getMetaData s request.db_name).s3_path = some request.s3_path) →
      s.num_current_s3_sst_downloadings_ ≥ cfg.max_s3_sst_loading_concurrency →
      async_tm_addS3SstFilesToDB cfg ext request s =
        ({ s with trace := s.trace ++
            [Effect.Lock request.db_name, Effect.Unlock request.db_name] },
         Except.error ⟨some AdminErrorCode.DB_ADMIN_ERROR,
           "Concurrent downloading limit hits " ++
             toString s.num_current_s3_sst_downloadings_ ++ " by " ++
             request.db_name⟩)) := by
  refine ⟨fun r => backupDBToS3_counters cfg ext r s,
    fun r => restoreDBFromS3_counters cfg ext r s,
    fun r => addS3_counters cfg ext r s, ?_, ?_, ?_⟩
  · intro request hcap
    cases s
    simp_all [async_tm_backupDBToS3, withUploadCount]
  · intro request hcap
    cases s
    simp_all [async_tm_restoreDBFromS3, withDownloadCount]
  · intro request hX hmeta hcap
    obtain ⟨db, hdb⟩ := Option.ne_none_iff_exists'.mp hX
    have hmeta2 : ¬ ((getMetaData (s.emit (Effect.Lock request.db_name))
        request.db_name).s3_bucket = some request.s3_bucket ∧
        (getMetaData (s.emit (Effect.Lock request.db_name)) request.db_name).s3_path =
          some request.s3_path) := hmeta
    simp only [async_tm_addS3SstFilesToDB, withLock, withDownloadCount, getDB,
      ApplicationDBManager.getDB]
    simp only [State.emit] at hmeta2 ⊢
    simp [hdb, hmeta2, hcap]

/-- C12, counterexample: with cap 1 and one download in flight, bulk ingest of
the snapshot that `alpha_0` already hosts is not rejected but answered with
success; and with cap 1 and one upload in flight, a restore from the object
store is not rejected either: it passes the gate and restores `beta_0`. -/
theorem C12_counterexample_at_cap_not_rejected :
    (async_tm_addS3SstFilesToDB cfg_cap1 ext_ok ⟨"alpha_0", "b", "snap/1", none⟩
        { st_snapshot with num_current_s3_sst_downloadings_ := 1 }).2 = Except.ok () ∧
    (async_tm_restoreDBFromS3 cfg_cap1 ext_ok
        ⟨"beta_0", "b", "backup/beta_0", "10.0.0.2", none⟩
        { st_alpha with num_current_s3_sst_uploadings_ := 1 }).2 = Except.ok () ∧
    NameMap.find
        (async_tm_restoreDBFromS3 cfg_cap1 ext_ok
          ⟨"beta_0", "b", "backup/beta_0", "10.0.0.2", none⟩
          { st_alpha with num_current_s3_sst_uploadings_ := 1 }).1.db_manager_ "beta_0" =
      some ⟨"/tmp/beta_0", DBRole.SLAVE, some ⟨"10.0.0.2", 9091⟩⟩ := by
  decide

/-- C12, witness: with cap 1 and one upload in flight a second backup to the
object store is rejected and the state is untouched; with one download in
flight a bulk ingest of a new snapshot is rejected. -/
theorem C12_witness :
    async_tm_backupDBToS3 cfg_cap1 ext_ok ⟨"alpha_0", "b", "backup/alpha_0", none⟩
        { st_alpha with num_current_s3_sst_uploadings_ := 1 } =
      ({ st_alpha with num_current_s3_sst_uploadings_ := 1 },
       Except.error ⟨none, "Concurrent uploading/downloading limit hits 1 by alpha_0"⟩) ∧
    (async_tm_addS3SstFilesToDB cfg_cap1 ext_ok ⟨"alpha_0", "b", "snap/2", none⟩
        { st_snapshot with num_current_s3_sst_downloadings_ := 1 }).2 =
      Except.error ⟨some AdminErrorCode.DB_ADMIN_ERROR,
        "Concurrent downloading limit hits 1 by alpha_0"⟩ :=
  ⟨(C12_gate_counter_restored_and_rejection cfg_cap1 ext_ok
      { st_alpha with num_current_s3_sst_uploadings_ := 1 }).2.2.2.1
      ⟨"alpha_0", "b", "backup/alpha_0", none⟩ (by decide),
   congrArg Prod.snd
    ((C12_gate_counter_restored_and_rejection cfg_cap1 ext_ok
      { st_snapshot with num_current_s3_sst_downloadings_ := 1 }).2.2.2.2.2
      ⟨"alpha_0", "b", "snap/2", none⟩ (by decide) (by decide) (by decide))⟩

/-! ## Bulk ingest: metadata and idempotence (C13, C14) -/

theorem find_writeMetaData (ext : Ext) (s : State) (db_name b p : String) (ts : Int)
    (hput : ext.meta_db_Put_ok db_name = true) :
    NameMap.find (writeMetaData ext s db_name b p ts).2.meta_db_ db_name =
      some { db_name := db_name, s3_bucket := some b, s3_path := some p,
             last_kafka_msg_timestamp_ms := some ts } := by
  simp [writeMetaData, hput, NameMap.find_insert_self]

theorem addS3_success_metadata (cfg : Flags) (ext : Ext) (request : AddS3SstFilesToDBRequest)
    (s : State)
    (hok : (async_tm_addS3SstFilesToDB cfg ext request s).2 = Except.ok ())
    (hput : ext.meta_db_Put_ok request.db_name = true) :
    (getMetaData (async_tm_addS3SstFilesToDB cfg ext request s).1 request.db_name).s3_bucket =
        some request.s3_bucket ∧
    (getMetaData (async_tm_addS3SstFilesToDB cfg ext request s).1 request.db_name).s3_path =
        some request.s3_path := by
  revert hok
  simp only [async_tm_addS3SstFilesToDB, withLock, withDownloadCount, withScratchDir]
  repeat' split
  all_goals simp_all [getMetaData, State.emit, find_writeMetaData]
theorem createLocalS3Util_db_manager (s : State) (limit : Nat) (bucket : String) :
    (createLocalS3Util s limit bucket).1.db_manager_ = s.db_manager_ :=
  (createLocalS3Util_frame s limit bucket).1

theorem createLocalS3Util_meta_db (s : State) (limit : Nat) (bucket : String) :
    (createLocalS3Util s limit bucket).1.meta_db_ = s.meta_db_ :=
  (createLocalS3Util_frame s limit bucket).2.1

theorem createLocalS3Util_watchers (s : State) (limit : Nat) (bucket : String) :
    (createLocalS3Util s limit bucket).1.kafka_watcher_map_ = s.kafka_watcher_map_ :=
  (createLocalS3Util_frame s limit bucket).2.2.1

theorem clearMetaData_db_manager (ext : Ext) (s : State) (db_name : String) :
    (clearMetaData ext s db_name).2.db_manager_ = s.db_manager_ := by
  unfold clearMetaData
  split <;> rfl

theorem writeMetaData_db_manager (ext : Ext) (s : State) (db_name b p : String) (ts : Int) :
    (writeMetaData ext s db_name b p ts).2.db_manager_ = s.db_manager_ := by
  unfold writeMetaData
  split <;> rfl

theorem getDB_fst (ext : Ext) (s : State) (db_name : String) (e : AdminException) :
    (getDB ext s db_name e).1 = NameMap.find s.db_manager_ db_name := by
  unfold getDB ApplicationDBManager.getDB
  split <;> simp_all

theorem State.emit_db_manager (s : State) (e : Effect) :
    (s.emit e).db_manager_ = s.db_manager_ := rfl

theorem State.emit_meta_db (s : State) (e : Effect) :
    (s.emit e).meta_db_ = s.meta_db_ := rfl

theorem State.emit_watchers (s : State) (e : Effect) :
    (s.emit e).kafka_watcher_map_ = s.kafka_watcher_map_ := rfl

theorem addS3_clear_and_reopen_registered (cfg : Flags) (ext : Ext) (db_name : String)
    (db : ApplicationDB) (s : State)
    (hok : (addS3_clear_and_reopen cfg ext db_name db s).2.toBool = true) :
    NameMap.find (addS3_clear_and_reopen cfg ext db_name db s).1.db_manager_ db_name ≠
      none := by
  revert hok
  simp only [addS3_clear_and_reopen, getDB_fst]
  repeat' split
  all_goals simp_all [Except.toBool]

theorem addS3_success_registered (cfg : Flags) (ext : Ext) (request : AddS3SstFilesToDBRequest)
    (s : State)
    (hok : (async_tm_addS3SstFilesToDB cfg ext request s).2 = Except.ok ()) :
    NameMap.find (async_tm_addS3SstFilesToDB cfg ext request s).1.db_manager_
      request.db_name ≠ none := by
  revert hok
  simp only [async_tm_addS3SstFilesToDB, withLock, withDownloadCount, withScratchDir]
  repeat' split
  all_goals simp_all [State.emit_db_manager, getDB_fst,
    createLocalS3Util_db_manager, clearMetaData_db_manager, writeMetaData_db_manager,
    addS3_clear_and_reopen_registered, Except.toBool]

theorem addS3_of_same_snapshot (cfg : Flags) (ext : Ext) (request : AddS3SstFilesToDBRequest)
    (s : State)
    (hX : NameMap.find s.db_manager_ request.db_name ≠ none)
    (hsame : (getMetaData s request.db_name).s3_bucket = some request.s3_bucket ∧
      (getMetaData s request.db_name).s3_path = some request.s3_path) :
    async_tm_addS3SstFilesToDB cfg ext request s =
      ({ s with trace := s.trace ++
          [Effect.Lock request.db_name, Effect.Unlock request.db_name] },
       Except.ok ()) := by
  obtain ⟨db, hdb⟩ := Option.ne_none_iff_exists'.mp hX
  have hsame2 : (getMetaData (s.emit (Effect.Lock request.db_name)) request.db_name).s3_bucket =
      some request.s3_bucket ∧
      (getMetaData (s.emit (Effect.Lock request.db_name)) request.db_name).s3_path =
        some request.s3_path := hsame
  simp only [async_tm_addS3SstFilesToDB, withLock, getDB_fst, State.emit_db_manager, hdb,
    hsame2, and_self, if_true]
  simp [State.emit]

theorem addS3_of_unregistered (cfg : Flags) (ext : Ext) (request : AddS3SstFilesToDBRequest)
    (s : State) (hX : NameMap.find s.db_manager_ request.db_name = none) :
    (async_tm_addS3SstFilesToDB cfg ext request s).2 =
      Except.error ⟨some AdminErrorCode.DB_ADMIN_ERROR,
        request.db_name ++ " doesnt exist."⟩ := by
  simp [async_tm_addS3SstFilesToDB, withLock, getDB_fst, State.emit_db_manager, hX]

/-- C13 (amended): if add-object-store-files-to-db(X, B, P) returns success,
and either the stored record already named bucket B and path P or the write to
the metadata store took effect, then the metadata record read back for `X` has
bucket B and path P. -/
theorem C13_success_leaves_requested_snapshot (cfg : Flags) (ext : Ext)
    (request : AddS3SstFilesToDBRequest) (s : State)
    (hok : (async_tm_addS3SstFilesToDB cfg ext request s).2 = Except.ok ())
    (hwrite : ((getMetaData s request.db_name).s3_bucket = some request.s3_bucket ∧
        (getMetaData s request.db_name).s3_path = some request.s3_path) ∨
      ext.meta_db_Put_ok request.db_name = true) :
    (getMetaData (async_tm_addS3SstFilesToDB cfg ext request s).1 request.db_name).s3_bucket =
        some request.s3_bucket ∧
    (getMetaData (async_tm_addS3SstFilesToDB cfg ext request s).1 request.db_name).s3_path =
        some request.s3_path := by
  rcases hwrite with hsame | hput
  · by_cases hX : NameMap.find s.db_manager_ request.db_name = none
    · rw [addS3_of_unregistered cfg ext request s hX] at hok
      cases hok
    · rw [addS3_of_same_snapshot cfg ext request s hX hsame]
      exact hsame
  · exact addS3_success_metadata cfg ext request s hok hput

/-- C13, counterexample: `alpha_0` is registered and has no metadata record;
the write to the metadata store fails, bulk ingest of bucket `b`, path
`snap/1` still returns success, and the record read back has no bucket and no
path. -/
theorem C13_counterexample_metadata_write_fails :
    NameMap.find st_alpha.db_manager_ "alpha_0" ≠ none ∧
    (async_tm_addS3SstFilesToDB cfg0 ext_meta_put_fails ⟨"alpha_0", "b", "snap/1", none⟩
        st_alpha).2 = Except.ok () ∧
    getMetaData
        (async_tm_addS3SstFilesToDB cfg0 ext_meta_put_fails ⟨"alpha_0", "b", "snap/1", none⟩
          st_alpha).1 "alpha_0" =
      { db_name := "alpha_0", s3_bucket := none, s3_path := none } := by
  decide

/-- C13, witness: bulk ingest of bucket `b`, path `snap/1` into `alpha_0` with
collaborators that succeed. -/
theorem C13_witness :
    (async_tm_addS3SstFilesToDB cfg0 ext_ok ⟨"alpha_0", "b", "snap/1", none⟩ st_alpha).2 =
      Except.ok () ∧
    (getMetaData
        (async_tm_addS3SstFilesToDB cfg0 ext_ok ⟨"alpha_0", "b", "snap/1", none⟩ st_alpha).1
        "alpha_0").s3_bucket = some "b" ∧
    (getMetaData
        (async_tm_addS3SstFilesToDB cfg0 ext_ok ⟨"alpha_0", "b", "snap/1", none⟩ st_alpha).1
        "alpha_0").s3_path = some "snap/1" :=
  ⟨by decide,
   C13_success_leaves_requested_snapshot cfg0 ext_ok ⟨"alpha_0", "b", "snap/1", none⟩
     st_alpha (by decide) (Or.inr rfl)⟩

/-- C14 (amended): when `X` is registered and its metadata record already
names bucket B and path P, add-object-store-files-to-db(X, B, P) returns
success and only takes and releases the admin lock: no download, no change of
the scratch directory, no engine call, and registry, metadata store, object
store client and both gate counters are unchanged, whatever the value of the
counters.  Hence, when a request has returned success and its metadata write
took effect, issuing it again leaves the state as the first call left it. -/
theorem C14_same_snapshot_is_a_no_op (cfg : Flags) (ext : Ext)
    (request : AddS3SstFilesToDBRequest) (s : State)
    (hX : NameMap.find s.db_manager_ request.db_name ≠ none) :
    (((getMetaData s request.db_name).s3_bucket = some request.s3_bucket ∧
        (getMetaData s request.db_name).s3_path = some request.s3_path) →
      async_tm_addS3SstFilesToDB cfg ext request s =
        ({ s with trace := s.trace ++
            [Effect.Lock request.db_name, Effect.Unlock request.db_name] },
         Except.ok ())) ∧
    ((async_tm_addS3SstFilesToDB cfg ext request s).2 = Except.ok () →
      (((getMetaData s request.db_name).s3_bucket = some request.s3_bucket ∧
          (getMetaData s request.db_name).s3_path = some request.s3_path) ∨
        ext.meta_db_Put_ok request.db_name = true) →
      ∀ ext2 : Ext,
        async_tm_addS3SstFilesToDB cfg ext2 request
            (async_tm_addS3SstFilesToDB cfg ext request s).1 =
          ({ (async_tm_addS3SstFilesToDB cfg ext request s).1 with
              trace := (async_tm_addS3SstFilesToDB cfg ext request s).1.trace ++
                [Effect.Lock request.db_name, Effect.Unlock request.db_name] },
           Except.ok ())) := by
  refine ⟨fun hsame => addS3_of_same_snapshot cfg ext request s hX hsame, ?_⟩
  intro hok hwrite ext2
  have hsame : (getMetaData (async_tm_addS3SstFilesToDB cfg ext request s).1
        request.db_name).s3_bucket = some request.s3_bucket ∧
      (getMetaData (async_tm_addS3SstFilesToDB cfg ext request s).1
        request.db_name).s3_path = some request.s3_path := by
    rcases hwrite with hsame | hput
    · rw [addS3_of_same_snapshot cfg ext request s hX hsame]
      exact hsame
    · exact addS3_success_metadata cfg ext request s hok hput
  exact addS3_of_same_snapshot cfg ext2 request _
    (addS3_success_registered cfg ext request s hok) hsame

/-- C14, counterexample: `alpha_0` is registered without metadata record and
the write to the metadata store fails; the first bulk ingest of bucket `b`,
path `snap/1` returns success, and the same request issued again does the full
work again: it downloads, destroys, opens and ingests, and now writes the
record, so the state differs from the state after the first call. -/
theorem C14_counterexample_second_call_repeats_work :
    (async_tm_addS3SstFilesToDB cfg0 ext_meta_put_fails ⟨"alpha_0", "b", "snap/1", none⟩
        st_alpha).2 = Except.ok () ∧
    (async_tm_addS3SstFilesToDB cfg0 ext_ok ⟨"alpha_0", "b", "snap/1", none⟩
        (async_tm_addS3SstFilesToDB cfg0 ext_meta_put_fails
          ⟨"alpha_0", "b", "snap/1", none⟩ st_alpha).1).2 = Except.ok () ∧
    (async_tm_addS3SstFilesToDB cfg0 ext_ok ⟨"alpha_0", "b", "snap/1", none⟩
        (async_tm_addS3SstFilesToDB cfg0 ext_meta_put_fails
          ⟨"alpha_0", "b", "snap/1", none⟩ st_alpha).1).1.trace =
      (async_tm_addS3SstFilesToDB cfg0 ext_meta_put_fails ⟨"alpha_0", "b", "snap/1", none⟩
        st_alpha).1.trace ++
      [Effect.Lock "alpha_0",
       Effect.remove_all "/tmp/s3_tmp/alpha_0/",
       Effect.create_directories "/tmp/s3_tmp/alpha_0/",
       Effect.getObjects "snap/1" "/tmp/s3_tmp/alpha_0/",
       Effect.DestroyDB "/tmp/alpha_0",
       Effect.DB_Open "/tmp/alpha_0",
       Effect.IngestExternalFile "/tmp/alpha_0" ["/tmp/s3_tmp/alpha_0/000001.sst"]
         ⟨true, false, false⟩,
       Effect.remove_all "/tmp/s3_tmp/alpha_0/",
       Effect.Unlock "alpha_0"] ∧
    (async_tm_addS3SstFilesToDB cfg0 ext_ok ⟨"alpha_0", "b", "snap/1", none⟩
        (async_tm_addS3SstFilesToDB cfg0 ext_meta_put_fails
          ⟨"alpha_0", "b", "snap/1", none⟩ st_alpha).1).1.meta_db_ ≠
      (async_tm_addS3SstFilesToDB cfg0 ext_meta_put_fails ⟨"alpha_0", "b", "snap/1", none⟩
        st_alpha).1.meta_db_ := by
  decide

/-- C14, witness: on the handler whose record for `alpha_0` names bucket `b`
and path `snap/1`, with cap 1 and one download in flight, the request for that
snapshot only takes and releases the lock; and after a first successful bulk
ingest on the handler without record, the second call succeeds as well. -/
theorem C14_witness :
    async_tm_addS3SstFilesToDB cfg_cap1 ext_ok ⟨"alpha_0", "b", "snap/1", none⟩
        { st_snapshot with num_current_s3_sst_downloadings_ := 1 } =
      ({ st_snapshot with
          num_current_s3_sst_downloadings_ := 1,
          trace := [Effect.Lock "alpha_0", Effect.Unlock "alpha_0"] },
       Except.ok ()) ∧
    (async_tm_addS3SstFilesToDB cfg0 ext_ok ⟨"alpha_0", "b", "snap/1", none⟩
        (async_tm_addS3SstFilesToDB cfg0 ext_ok ⟨"alpha_0", "b", "snap/1", none⟩
          st_alpha).1).2 = Except.ok () :=
  ⟨(C14_same_snapshot_is_a_no_op cfg_cap1 ext_ok ⟨"alpha_0", "b", "snap/1", none⟩
      { st_snapshot with num_current_s3_sst_downloadings_ := 1 } (by decide)).1 (by decide),
   congrArg Prod.snd
    ((C14_same_snapshot_is_a_no_op cfg0 ext_ok ⟨"alpha_0", "b", "snap/1", none⟩ st_alpha
      (by decide)).2 (by decide) (Or.inr rfl) ext_ok)⟩

/-! ## Bulk ingest: the files passed to the engine (C15) -/

theorem ingest_mem_createLocalS3Util (s : State) (limit : Nat) (bucket : String)
    (r : String) (f : List String) (o : IngestExternalFileOptions) :
    Effect.IngestExternalFile r f o ∈ (createLocalS3Util s limit bucket).1.trace ↔
      Effect.IngestExternalFile r f o ∈ s.trace := by
  rcases (createLocalS3Util_frame s limit bucket).2.2.2.2.2 with h | h <;> rw [h]
  simp

theorem clearMetaData_trace (ext : Ext) (s : State) (db_name : String) :
    (clearMetaData ext s db_name).2.trace = s.trace := by
  unfold clearMetaData
  split <;> rfl

theorem writeMetaData_trace (ext : Ext) (s : State) (db_name b p : String) (ts : Int) :
    (writeMetaData ext s db_name b p ts).2.trace = s.trace := by
  unfold writeMetaData
  split <;> rfl

theorem ingest_mem_addS3_clear_and_reopen (cfg : Flags) (ext : Ext) (db_name : String)
    (db : ApplicationDB) (s : State)
    (r : String) (f : List String) (o : IngestExternalFileOptions) :
    Effect.IngestExternalFile r f o ∈ (addS3_clear_and_reopen cfg ext db_name db s).1.trace ↔
      Effect.IngestExternalFile r f o ∈ s.trace := by
  simp only [addS3_clear_and_reopen, removeDB, ApplicationDBManager.removeDB, State.emit]
  repeat' split
  all_goals simp

theorem addS3_ingest_calls (cfg : Flags) (ext : Ext) (request : AddS3SstFilesToDBRequest)
    (s : State) (r : String) (f : List String) (o : IngestExternalFileOptions)
    (hcall : Effect.IngestExternalFile r f o ∈
      (async_tm_addS3SstFilesToDB cfg ext request s).1.trace) :
    Effect.IngestExternalFile r f o ∈ s.trace ∨
      (f = ((ext.directory_listing
              (cfg.rocksdb_dir ++ "s3_tmp/" ++ request.db_name ++ "/")).filter
            (fun file_name => !skip_non_sst_file file_name)).map
          (fun file_name =>
            cfg.rocksdb_dir ++ "s3_tmp/" ++ request.db_name ++ "/" ++ file_name) ∧
       o = { move_files := true,
             allow_global_seqno :=
               cfg.allow_overlapping_keys_segments_.contains
                 (ext.DbNameToSegment request.db_name) ||
                 cfg.rocksdb_allow_overlapping_keys,
             allow_blocking_flush :=
               cfg.allow_overlapping_keys_segments_.contains
                 (ext.DbNameToSegment request.db_name) ||
                 cfg.rocksdb_allow_overlapping_keys }) := by
  revert hcall
  simp only [async_tm_addS3SstFilesToDB, withLock, withDownloadCount, withScratchDir]
  repeat' split
  all_goals simp [State.emit, ingest_mem_createLocalS3Util, clearMetaData_trace,
    writeMetaData_trace, ingest_mem_addS3_clear_and_reopen]
  all_goals first
    | exact Or.inl
    | (rintro (h | ⟨-, hf, ho⟩)
       · exact Or.inl h
       · exact Or.inr ⟨hf, ho⟩)
theorem skip_non_sst_file_eq_false_iff (file_name : String) :
    skip_non_sst_file file_name = false ↔
      ∃ stem : List Char, stem ≠ [] ∧ file_name.toList = stem ++ ".sst".toList := by
  obtain ⟨cs⟩ := file_name
  have hsuffix : ".sst".toList = ['.', 's', 's', 't'] := rfl
  simp only [skip_non_sst_file, String.toList, String.length, hsuffix,
    String.utf8ByteSize_mk, Bool.or_eq_false_iff, decide_eq_false_iff_not, not_lt,
    bne_eq_false_iff_eq]
  have hlen4 : String.utf8Len ['.', 's', 's', 't'] = 4 := by decide
  have hsize : (".sst" : String).utf8ByteSize = 4 := by decide
  have hl : (['.', 's', 's', 't'] : List Char).length = 4 := rfl
  rw [hsize, hl]
  constructor
  · rintro ⟨hbytes, hdrop⟩
    refine ⟨cs.take (cs.length - 4), ?_, ?_⟩
    · intro hnil
      have hcs : cs = ['.', 's', 's', 't'] := by
        have := List.take_append_drop (cs.length - 4) cs
        rw [hnil, hdrop] at this
        simpa using this.symm
      rw [hcs, hlen4] at hbytes
      omega
    · have := List.take_append_drop (cs.length - 4) cs
      rw [hdrop] at this
      exact this.symm
  · rintro ⟨stem, hstem, hcs⟩
    subst hcs
    refine ⟨?_, ?_⟩
    · rw [String.utf8Len_append, hlen4]
      have : String.utf8Len stem ≠ 0 := fun h => hstem (String.utf8Len_eq_zero.mp h)
      omega
    · simp
/-- C15 (amended): every ingest call that add-object-store-files-to-db makes
passes exactly the files of the scratch directory that the directory loop does
not skip, in the order of the directory and under the scratch path.  A file
name is kept if and only if it ends in ".sst" and has at least one character
before that suffix; every other name is ignored, and so is a file named
exactly ".sst". -/
theorem C15_ingest_passes_files_with_a_stem_before_sst (cfg : Flags) (ext : Ext)
    (request : AddS3SstFilesToDBRequest) (s : State) (r : String) (f : List String)
    (o : IngestExternalFileOptions)
    (hcall : Effect.IngestExternalFile r f o ∈
      (async_tm_addS3SstFilesToDB cfg ext request s).1.trace)
    (hnew : Effect.IngestExternalFile r f o ∉ s.trace) :
    f = ((ext.directory_listing
            (cfg.rocksdb_dir ++ "s3_tmp/" ++ request.db_name ++ "/")).filter
          (fun file_name => !skip_non_sst_file file_name)).map
        (fun file_name =>
          cfg.rocksdb_dir ++ "s3_tmp/" ++ request.db_name ++ "/" ++ file_name) ∧
    (∀ file_name : String,
      skip_non_sst_file file_name = false ↔
        ∃ stem : List Char, stem ≠ [] ∧ file_name.toList = stem ++ ".sst".toList) ∧
    skip_non_sst_file ".sst" = true := by
  refine ⟨?_, skip_non_sst_file_eq_false_iff, by decide⟩
  rcases addS3_ingest_calls cfg ext request s r f o hcall with h | h
  · exact absurd h hnew
  · exact h.1

/-- C15, counterexample: the scratch directory holds `.sst`, `a.sst` and
`notes.txt`; the file named exactly `.sst` ends with the suffix, yet the only
file passed to the ingest call is `a.sst`. -/
theorem C15_counterexample_file_named_sst_is_skipped :
    ext_listing.directory_listing "/tmp/s3_tmp/alpha_0/" = [".sst", "a.sst", "notes.txt"] ∧
    (async_tm_addS3SstFilesToDB cfg0 ext_listing ⟨"alpha_0", "b", "snap/1", none⟩
        st_alpha).1.trace =
      [Effect.Lock "alpha_0",
       Effect.remove_all "/tmp/s3_tmp/alpha_0/",
       Effect.create_directories "/tmp/s3_tmp/alpha_0/",
       Effect.BuildS3Util 0 "b",
       Effect.getObjects "snap/1" "/tmp/s3_tmp/alpha_0/",
       Effect.DestroyDB "/tmp/alpha_0",
       Effect.DB_Open "/tmp/alpha_0",
       Effect.IngestExternalFile "/tmp/alpha_0" ["/tmp/s3_tmp/alpha_0/a.sst"]
         ⟨true, false, false⟩,
       Effect.remove_all "/tmp/s3_tmp/alpha_0/",
       Effect.Unlock "alpha_0"] := by
  decide

/-- C15, witness: the ingest call of the run over the scratch directory
holding `.sst`, `a.sst` and `notes.txt`. -/
theorem C15_witness :
    ["/tmp/s3_tmp/alpha_0/a.sst"] =
      ((ext_listing.directory_listing
            (cfg0.rocksdb_dir ++ "s3_tmp/" ++ "alpha_0" ++ "/")).filter
          (fun file_name => !skip_non_sst_file file_name)).map
        (fun file_name => cfg0.rocksdb_dir ++ "s3_tmp/" ++ "alpha_0" ++ "/" ++ file_name) :=
  (C15_ingest_passes_files_with_a_stem_before_sst cfg0 ext_listing
    ⟨"alpha_0", "b", "snap/1", none⟩ st_alpha "/tmp/alpha_0" ["/tmp/s3_tmp/alpha_0/a.sst"]
    ⟨true, false, false⟩ (by decide) (by decide)).1

/-! ## Bulk ingest: failures after the metadata clear (C16) -/

theorem getMetaData_emit (s : State) (e : Effect) (db_name : String) :
    getMetaData (s.emit e) db_name = getMetaData s db_name := rfl

theorem addS3_destroy_fails (cfg : Flags) (ext : Ext) (request : AddS3SstFilesToDBRequest)
    (s : State) (text : String)
    (hreach : ReachesMetadataClear cfg ext request s)
    (hallow : allow_overlapping_keys cfg ext request.db_name = false)
    (hdestroy : ext.DestroyDB (cfg.rocksdb_dir ++ request.db_name) = Status.NotOK text) :
    (async_tm_addS3SstFilesToDB cfg ext request s).2 =
        Except.error ⟨some AdminErrorCode.DB_ADMIN_ERROR, text⟩ ∧
      NameMap.find (async_tm_addS3SstFilesToDB cfg ext request s).1.db_manager_
        request.db_name = none := by
  obtain ⟨hX, hdiff, hgate, hrm, hmk, herr, hbody, hfetched⟩ := hreach
  obtain ⟨db, hdb⟩ := Option.ne_none_iff_exists'.mp hX
  have hg : ¬ s.num_current_s3_sst_downloadings_ ≥ cfg.max_s3_sst_loading_concurrency :=
    not_le.mpr hgate
  have hallow2 : ext.DbNameToSegment request.db_name ∉ cfg.allow_overlapping_keys_segments_ ∧
      cfg.rocksdb_allow_overlapping_keys = false := by
    simpa [allow_overlapping_keys] using hallow
  simp only [async_tm_addS3SstFilesToDB, withLock, withDownloadCount, withScratchDir,
    getDB_fst, State.emit_db_manager, getMetaData_emit, hdb, hdiff, if_false]
  simp [State.emit, hg, hrm, hmk, herr, hbody, hfetched, hallow2, hdestroy,
    addS3_clear_and_reopen, removeDB, ApplicationDBManager.removeDB,
    clearMetaData_db_manager, createLocalS3Util_db_manager, OKOrSetException, Status.ok,
    Status.ToString, hdb, NameMap.find_erase_self]

theorem addS3_open_fails (cfg : Flags) (ext : Ext) (request : AddS3SstFilesToDBRequest)
    (s : State) (text : String)
    (hreach : ReachesMetadataClear cfg ext request s)
    (hallow : allow_overlapping_keys cfg ext request.db_name = false)
    (hdestroy : ext.DestroyDB (cfg.rocksdb_dir ++ request.db_name) = Status.OK)
    (hopen : ext.DB_Open (cfg.rocksdb_dir ++ request.db_name) = Status.NotOK text) :
    (async_tm_addS3SstFilesToDB cfg ext request s).2 =
        Except.error ⟨some AdminErrorCode.DB_ADMIN_ERROR,
          "Failed to open DB: " ++ request.db_name⟩ ∧
      NameMap.find (async_tm_addS3SstFilesToDB cfg ext request s).1.db_manager_
        request.db_name = none := by
  obtain ⟨hX, hdiff, hgate, hrm, hmk, herr, hbody, hfetched⟩ := hreach
  obtain ⟨db, hdb⟩ := Option.ne_none_iff_exists'.mp hX
  have hg : ¬ s.num_current_s3_sst_downloadings_ ≥ cfg.max_s3_sst_loading_concurrency :=
    not_le.mpr hgate
  have hallow2 : ext.DbNameToSegment request.db_name ∉ cfg.allow_overlapping_keys_segments_ ∧
      cfg.rocksdb_allow_overlapping_keys = false := by
    simpa [allow_overlapping_keys] using hallow
  simp only [async_tm_addS3SstFilesToDB, withLock, withDownloadCount, withScratchDir,
    getDB_fst, State.emit_db_manager, getMetaData_emit, hdb, hdiff, if_false]
  simp [State.emit, hg, hrm, hmk, herr, hbody, hfetched, hallow2, hdestroy, hopen,
    addS3_clear_and_reopen, removeDB, ApplicationDBManager.removeDB,
    clearMetaData_db_manager, createLocalS3Util_db_manager, OKOrSetException, Status.ok,
    Status.ToString, hdb, NameMap.find_erase_self]

theorem addS3_ingest_fails (cfg : Flags) (ext : Ext) (request : AddS3SstFilesToDBRequest)
    (s : State) (text : String)
    (hreach : ReachesMetadataClear cfg ext request s)
    (hreopen : allow_overlapping_keys cfg ext request.db_name = true ∨
      (ext.DestroyDB (cfg.rocksdb_dir ++ request.db_name) = Status.OK ∧
        ext.DB_Open (cfg.rocksdb_dir ++ request.db_name) = Status.OK))
    (hingest : ∀ r f o, ext.IngestExternalFile r f o = Status.NotOK text) :
    (async_tm_addS3SstFilesToDB cfg ext request s).2 =
        Except.error ⟨some AdminErrorCode.DB_ADMIN_ERROR, text⟩ ∧
      NameMap.find (async_tm_addS3SstFilesToDB cfg ext request s).1.db_manager_
        request.db_name ≠ none := by
  obtain ⟨hX, hdiff, hgate, hrm, hmk, herr, hbody, hfetched⟩ := hreach
  obtain ⟨db, hdb⟩ := Option.ne_none_iff_exists'.mp hX
  have hg : ¬ s.num_current_s3_sst_downloadings_ ≥ cfg.max_s3_sst_loading_concurrency :=
    not_le.mpr hgate
  cases hallow : allow_overlapping_keys cfg ext request.db_name with
  | true =>
    have hallow2 : ext.DbNameToSegment request.db_name ∈ cfg.allow_overlapping_keys_segments_ ∨
        cfg.rocksdb_allow_overlapping_keys = true := by
      simpa [allow_overlapping_keys] using hallow
    have hallow3 : ¬ (ext.DbNameToSegment request.db_name ∉
        cfg.allow_overlapping_keys_segments_ ∧ cfg.rocksdb_allow_overlapping_keys = false) := by
      intro h
      rcases hallow2 with h2 | h2
      · exact h.1 h2
      · rw [h.2] at h2; cases h2
    simp only [async_tm_addS3SstFilesToDB, withLock, withDownloadCount, withScratchDir,
      getDB_fst, State.emit_db_manager, getMetaData_emit, hdb, hdiff, if_false]
    simp [State.emit, hg, hrm, hmk, herr, hbody, hfetched, hallow3, hingest,
      clearMetaData_db_manager, createLocalS3Util_db_manager, OKOrSetException, Status.ok,
      Status.ToString, hdb]
  | false =>
    have hallow2 : ext.DbNameToSegment request.db_name ∉
        cfg.allow_overlapping_keys_segments_ ∧ cfg.rocksdb_allow_overlapping_keys = false := by
      simpa [allow_overlapping_keys] using hallow
    rcases hreopen with h | ⟨hdestroy, hopen⟩
    · rw [hallow] at h; cases h
    · simp only [async_tm_addS3SstFilesToDB, withLock, withDownloadCount, withScratchDir,
        getDB_fst, State.emit_db_manager, getMetaData_emit, hdb, hdiff, if_false]
      simp [State.emit, hg, hrm, hmk, herr, hbody, hfetched, hallow2, hdestroy, hopen, hingest,
        addS3_clear_and_reopen, removeDB, ApplicationDBManager.removeDB,
        ApplicationDBManager.addDB, getDB_fst, NameMap.insert, NameMap.find,
        clearMetaData_db_manager, createLocalS3Util_db_manager, OKOrSetException, Status.ok,
        Status.ToString, hdb, NameMap.find_erase_self]
/-- C16 (amended): for a run of add-object-store-files-to-db that gets as far
as clearing the metadata record: when it then fails at the ingest, `X` is
still registered when the call returns; when overlapping keys are not allowed
and it fails at the destroy or at the re-open, `X` has been removed from the
registry and is not registered when the call returns. -/
theorem C16_registered_after_failed_ingest_only (cfg : Flags) (ext : Ext)
    (request : AddS3SstFilesToDBRequest) (s : State)
    (hreach : ReachesMetadataClear cfg ext request s) :
    ((allow_overlapping_keys cfg ext request.db_name = true ∨
        (ext.DestroyDB (cfg.rocksdb_dir ++ request.db_name) = Status.OK ∧
          ext.DB_Open (cfg.rocksdb_dir ++ request.db_name) = Status.OK)) →
      ∀ text, (∀ r f o, ext.IngestExternalFile r f o = Status.NotOK text) →
      (async_tm_addS3SstFilesToDB cfg ext request s).2 =
          Except.error ⟨some AdminErrorCode.DB_ADMIN_ERROR, text⟩ ∧
        NameMap.find (async_tm_addS3SstFilesToDB cfg ext request s).1.db_manager_
          request.db_name ≠ none) ∧
    (allow_overlapping_keys cfg ext request.db_name = false →
      ∀ text, ext.DestroyDB (cfg.rocksdb_dir ++ request.db_name) = Status.NotOK text →
      (async_tm_addS3SstFilesToDB cfg ext request s).2 =
          Except.error ⟨some AdminErrorCode.DB_ADMIN_ERROR, text⟩ ∧
        NameMap.find (async_tm_addS3SstFilesToDB cfg ext request s).1.db_manager_
          request.db_name = none) ∧
    (allow_overlapping_keys cfg ext request.db_name = false →
      ext.DestroyDB (cfg.rocksdb_dir ++ request.db_name) = Status.OK →
      ∀ text, ext.DB_Open (cfg.rocksdb_dir ++ request.db_name) = Status.NotOK text →
      (async_tm_addS3SstFilesToDB cfg ext request s).2 =
          Except.error ⟨some AdminErrorCode.DB_ADMIN_ERROR,
            "Failed to open DB: " ++ request.db_name⟩ ∧
        NameMap.find (async_tm_addS3SstFilesToDB cfg ext request s).1.db_manager_
          request.db_name = none) :=
  ⟨fun hreopen text hingest => addS3_ingest_fails cfg ext request s text hreach hreopen hingest,
   fun hallow text hdestroy => addS3_destroy_fails cfg ext request s text hreach hallow hdestroy,
   fun hallow hdestroy text hopen =>
     addS3_open_fails cfg ext request s text hreach hallow hdestroy hopen⟩

/-- C16, counterexample: `alpha_0` is registered and overlapping keys are not
allowed.  When the destroy fails, and when the re-open fails, bulk ingest
returns an error after the metadata record was cleared, and `alpha_0` is no
longer registered. -/
theorem C16_counterexample_failed_destroy_unregisters :
    NameMap.find st_snapshot.db_manager_ "alpha_0" ≠ none ∧
    (async_tm_addS3SstFilesToDB cfg0 ext_destroy_fails ⟨"alpha_0", "b", "snap/2", none⟩
        st_snapshot).2 =
      Except.error ⟨some AdminErrorCode.DB_ADMIN_ERROR, "IO error: lock held"⟩ ∧
    (async_tm_addS3SstFilesToDB cfg0 ext_destroy_fails ⟨"alpha_0", "b", "snap/2", none⟩
        st_snapshot).1.meta_db_ = [] ∧
    (async_tm_addS3SstFilesToDB cfg0 ext_destroy_fails ⟨"alpha_0", "b", "snap/2", none⟩
        st_snapshot).1.db_manager_ = [] ∧
    (async_tm_addS3SstFilesToDB cfg0 ext_open_fails ⟨"alpha_0", "b", "snap/2", none⟩
        st_snapshot).2 =
      Except.error ⟨some AdminErrorCode.DB_ADMIN_ERROR, "Failed to open DB: alpha_0"⟩ ∧
    (async_tm_addS3SstFilesToDB cfg0 ext_open_fails ⟨"alpha_0", "b", "snap/2", none⟩
        st_snapshot).1.db_manager_ = [] := by
  decide

/-- C16, witness: a failed ingest into `alpha_0` leaves it registered. -/
theorem C16_witness :
    ReachesMetadataClear cfg0 ext_ingest_fails ⟨"alpha_0", "b", "snap/2", none⟩ st_snapshot ∧
    (async_tm_addS3SstFilesToDB cfg0 ext_ingest_fails ⟨"alpha_0", "b", "snap/2", none⟩
        st_snapshot).2 =
      Except.error ⟨some AdminErrorCode.DB_ADMIN_ERROR, "Corruption: bad table"⟩ ∧
    NameMap.find
        (async_tm_addS3SstFilesToDB cfg0 ext_ingest_fails ⟨"alpha_0", "b", "snap/2", none⟩
          st_snapshot).1.db_manager_ "alpha_0" ≠ none :=
  ⟨by decide,
   (C16_registered_after_failed_ingest_only cfg0 ext_ingest_fails
      ⟨"alpha_0", "b", "snap/2", none⟩ st_snapshot (by decide)).1
      (Or.inr ⟨rfl, rfl⟩) "Corruption: bad table" (fun _ _ _ => rfl)⟩

/-! ## Backup failures and rate limits (C17, C18) -/

/-- C17, evaluation at the failing input: `alpha_0` is registered, the backup
engine opens and its create-new-backup call fails with status text
"IO error: No space left on device".  Backup-db to the distributed file system
and to the object store both fail with an exception whose error code was never
assigned and whose message is empty; the status text is lost.  When it is the
opening of the backup engine that fails, the sibling path does carry the code
`DB_ADMIN_ERROR` and the status text. -/
theorem C17_failed_backup_loses_status_text :
    NameMap.find st_alpha.db_manager_ "alpha_0" ≠ none ∧
    ext_backup_fails.CreateNewBackup "/tmp/alpha_0" =
      Status.NotOK "IO error: No space left on device" ∧
    (async_tm_backupDB cfg0 ext_backup_fails ⟨"alpha_0", "/backup/alpha_0", none⟩
        st_alpha).2 = Except.error { errorCode := none, message := "" } ∧
    (async_tm_backupDBToS3 cfg0 ext_backup_fails ⟨"alpha_0", "b", "backup/alpha_0", none⟩
        st_alpha).2 = Except.error { errorCode := none, message := "" } ∧
    (async_tm_backupDB cfg0
        { ext_ok with BackupEngine_Open := fun _ => Status.NotOK "IO error: cannot open" }
        ⟨"alpha_0", "/backup/alpha_0", none⟩ st_alpha).2 =
      Except.error ⟨some AdminErrorCode.DB_ADMIN_ERROR, "IO error: cannot open"⟩ := by
  decide

/-- C18, evaluation at the failing input: a backup and a restore with rate
limit 4096 MiB/s open the backup engine with rate limit 0, that is unlimited,
because 4096 * 1048576 is computed in 32 bits; with rate limit 4097 the
configured limit is 1048576 bytes per second.  With rate limit 100 it is
100 * 1048576. -/
theorem C18_rate_limit_wraps_at_4096 :
    (async_tm_backupDB cfg0 ext_ok ⟨"alpha_0", "/backup/alpha_0", some 4096⟩ st_alpha).1.trace =
      [Effect.NewHdfsEnv "hdfs://namenode:8020/backup/alpha_0",
       Effect.Lock "alpha_0",
       Effect.BackupEngine_Open
         { backup_dir := "hdfs://namenode:8020/backup/alpha_0",
           max_background_operations := 8, backup_rate_limit := 0, restore_rate_limit := 0 },
       Effect.CreateNewBackup "/tmp/alpha_0",
       Effect.Unlock "alpha_0"] ∧
    (async_tm_backupDB cfg0 ext_ok ⟨"alpha_0", "/backup/alpha_0", some 4097⟩ st_alpha).1.trace =
      [Effect.NewHdfsEnv "hdfs://namenode:8020/backup/alpha_0",
       Effect.Lock "alpha_0",
       Effect.BackupEngine_Open
         { backup_dir := "hdfs://namenode:8020/backup/alpha_0",
           max_background_operations := 8, backup_rate_limit := 1048576,
           restore_rate_limit := 0 },
       Effect.CreateNewBackup "/tmp/alpha_0",
       Effect.Unlock "alpha_0"] ∧
    (async_tm_restoreDB cfg0 ext_ok ⟨"beta_0", "/backup/beta_0", "10.0.0.2", some 4096⟩
        st_alpha).1.trace =
      [Effect.NewHdfsEnv "hdfs://namenode:8020/backup/beta_0",
       Effect.Lock "beta_0",
       Effect.BackupEngine_Open
         { backup_dir := "hdfs://namenode:8020/backup/beta_0",
           max_background_operations := 8, backup_rate_limit := 0, restore_rate_limit := 0 },
       Effect.RestoreDBFromLatestBackup "/tmp/beta_0",
       Effect.DB_Open "/tmp/beta_0",
       Effect.Unlock "beta_0"] ∧
    (async_tm_backupDB cfg0 ext_ok ⟨"alpha_0", "/backup/alpha_0", some 100⟩ st_alpha).1.trace =
      [Effect.NewHdfsEnv "hdfs://namenode:8020/backup/alpha_0",
       Effect.Lock "alpha_0",
       Effect.BackupEngine_Open
         { backup_dir := "hdfs://namenode:8020/backup/alpha_0",
           max_background_operations := 8, backup_rate_limit := 100 * 1048576,
           restore_rate_limit := 0 },
       Effect.CreateNewBackup "/tmp/alpha_0",
       Effect.Unlock "alpha_0"] := by
  decide

/-! ## Message ingestion: replay timestamp and watcher map (C19, C20) -/

theorem startMessageIngestion_of_fresh (ext : Ext) (request : StartMessageIngestionRequest)
    (s : State) (db : ApplicationDB)
    (hX : NameMap.find s.db_manager_ request.db_name = some db)
    (hW : NameMap.find s.kafka_watcher_map_ request.db_name = none)
    (hshard : ext.ExtractShardId request.db_name ≠ -1) :
    async_tm_startMessageIngestion ext request s =
      ({ s with
          kafka_watcher_map_ :=
            (request.db_name,
              { partition_id := ext.ExtractShardId request.db_name,
                topic_name := request.topic_name,
                replay_timestamp_ms :=
                  max ((getMetaData s request.db_name).last_kafka_msg_timestamp_ms.getD 0)
                    request.replay_timestamp_ms,
                should_deserialize := request.is_kafka_payload_serialized,
                message_count := 0 }) :: s.kafka_watcher_map_,
          trace := s.trace ++
            [Effect.Lock request.db_name,
             Effect.StartWith request.db_name
               (max ((getMetaData s request.db_name).last_kafka_msg_timestamp_ms.getD 0)
                 request.replay_timestamp_ms),
             Effect.Unlock request.db_name] },
       Except.ok ()) := by
  have herase := NameMap.erase_of_find_none s.kafka_watcher_map_ request.db_name hW
  simp [async_tm_startMessageIngestion, withLock, getDB, ApplicationDBManager.getDB,
    getMetaData, NameMap.insert, State.emit, hX, hW, hshard, herase]

theorem startMessageIngestion_of_refused (ext : Ext) (request : StartMessageIngestionRequest)
    (s : State)
    (hrefuse : NameMap.find s.kafka_watcher_map_ request.db_name ≠ none ∨
      ext.ExtractShardId request.db_name = -1) :
    (∃ e, (async_tm_startMessageIngestion ext request s).2 = Except.error e) ∧
    (async_tm_startMessageIngestion ext request s).1 =
      { s with trace := s.trace ++
          [Effect.Lock request.db_name, Effect.Unlock request.db_name] } := by
  cases hdb : NameMap.find s.db_manager_ request.db_name with
  | none =>
    simp [async_tm_startMessageIngestion, withLock, getDB, ApplicationDBManager.getDB,
      State.emit, hdb]
  | some db =>
    cases hw : NameMap.find s.kafka_watcher_map_ request.db_name with
    | some w =>
      simp [async_tm_startMessageIngestion, withLock, getDB, ApplicationDBManager.getDB,
        State.emit, hdb, hw]
    | none =>
      rcases hrefuse with h | h
      · exact absurd hw h
      · simp [async_tm_startMessageIngestion, withLock, getDB, ApplicationDBManager.getDB,
          State.emit, hdb, hw, h]

/-- C19: for a registered `X`, every stored metadata value m (an absent
timestamp read as 0) and every requested replay timestamp d,
start-message-ingestion starts the watcher at exactly max(m, d): a call that is
refused (a watcher exists already, or the name has no shard index) starts
nothing, and every other call succeeds, calls `StartWith` once, with max(m, d),
and records that timestamp in the watcher.  The timestamp is neither smaller
than m nor smaller than d. -/
theorem C19_replay_timestamp_is_max (ext : Ext) (request : StartMessageIngestionRequest)
    (s : State) (db : ApplicationDB)
    (hX : NameMap.find s.db_manager_ request.db_name = some db) :
    ((NameMap.find s.kafka_watcher_map_ request.db_name ≠ none ∨
        ext.ExtractShardId request.db_name = -1) →
      (async_tm_startMessageIngestion ext request s).1.trace =
        s.trace ++ [Effect.Lock request.db_name, Effect.Unlock request.db_name]) ∧
    (NameMap.find s.kafka_watcher_map_ request.db_name = none →
      ext.ExtractShardId request.db_name ≠ -1 →
      (async_tm_startMessageIngestion ext request s).2 = Except.ok () ∧
      (async_tm_startMessageIngestion ext request s).1.trace =
        s.trace ++
          [Effect.Lock request.db_name,
           Effect.StartWith request.db_name
             (max ((getMetaData s request.db_name).last_kafka_msg_timestamp_ms.getD 0)
               request.replay_timestamp_ms),
           Effect.Unlock request.db_name] ∧
      (NameMap.find (async_tm_startMessageIngestion ext request s).1.kafka_watcher_map_
          request.db_name).map KafkaWatcher.replay_timestamp_ms =
        some (max ((getMetaData s request.db_name).last_kafka_msg_timestamp_ms.getD 0)
          request.replay_timestamp_ms)) ∧
    (getMetaData s request.db_name).last_kafka_msg_timestamp_ms.getD 0 ≤
      max ((getMetaData s request.db_name).last_kafka_msg_timestamp_ms.getD 0)
        request.replay_timestamp_ms ∧
    request.replay_timestamp_ms ≤
      max ((getMetaData s request.db_name).last_kafka_msg_timestamp_ms.getD 0)
        request.replay_timestamp_ms := by
  refine ⟨?_, ?_, le_max_left _ _, le_max_right _ _⟩
  · intro hrefuse
    rw [(startMessageIngestion_of_refused ext request s hrefuse).2]
  · intro hW hshard
    rw [startMessageIngestion_of_fresh ext request s db hX hW hshard]
    simp [NameMap.find]

/-- C19, witness: the record of `alpha_0` holds timestamp 5000; a start with
requested timestamp 3000 starts the watcher at 5000, and one with 9000 starts
it at 9000. -/
theorem C19_witness :
    (async_tm_startMessageIngestion ext_ok ⟨"alpha_0", "topic", "/brokers", 3000, false⟩
        { st_alpha with meta_db_ :=
            [("alpha_0", { db_name := "alpha_0",
                           last_kafka_msg_timestamp_ms := some 5000 })] }).1.trace =
      [Effect.Lock "alpha_0", Effect.StartWith "alpha_0" 5000, Effect.Unlock "alpha_0"] ∧
    (async_tm_startMessageIngestion ext_ok ⟨"alpha_0", "topic", "/brokers", 9000, false⟩
        { st_alpha with meta_db_ :=
            [("alpha_0", { db_name := "alpha_0",
                           last_kafka_msg_timestamp_ms := some 5000 })] }).1.trace =
      [Effect.Lock "alpha_0", Effect.StartWith "alpha_0" 9000, Effect.Unlock "alpha_0"] :=
  ⟨((C19_replay_timestamp_is_max ext_ok ⟨"alpha_0", "topic", "/brokers", 3000, false⟩
      { st_alpha with meta_db_ :=
          [("alpha_0", { db_name := "alpha_0",
                         last_kafka_msg_timestamp_ms := some 5000 })] }
      ⟨"/tmp/alpha_0", DBRole.SLAVE, some ⟨"10.0.0.2", 9091⟩⟩ (by decide)).2.1
      (by decide) (by decide)).2.1,
   ((C19_replay_timestamp_is_max ext_ok ⟨"alpha_0", "topic", "/brokers", 9000, false⟩
      { st_alpha with meta_db_ :=
          [("alpha_0", { db_name := "alpha_0",
                         last_kafka_msg_timestamp_ms := some 5000 })] }
      ⟨"/tmp/alpha_0", DBRole.SLAVE, some ⟨"10.0.0.2", 9091⟩⟩ (by decide)).2.1
      (by decide) (by decide)).2.1⟩

theorem stopMessageIngestion_of_watching (ext : Ext) (db_name : String) (s : State)
    (db : ApplicationDB) (w : KafkaWatcher)
    (hX : NameMap.find s.db_manager_ db_name = some db)
    (hW : NameMap.find s.kafka_watcher_map_ db_name = some w) :
    async_tm_stopMessageIngestion ext db_name s =
      ({ s with
          kafka_watcher_map_ := NameMap.erase s.kafka_watcher_map_ db_name,
          trace := s.trace ++
            [Effect.Lock db_name, Effect.StopAndWait db_name, Effect.Unlock db_name] },
       Except.ok ()) := by
  simp [async_tm_stopMessageIngestion, withLock, getDB, ApplicationDBManager.getDB,
    State.emit, hX, hW]

theorem stopMessageIngestion_of_idle (ext : Ext) (db_name : String) (s : State)
    (hW : NameMap.find s.kafka_watcher_map_ db_name = none) :
    (∃ e, (async_tm_stopMessageIngestion ext db_name s).2 = Except.error e) ∧
    (async_tm_stopMessageIngestion ext db_name s).1 =
      { s with trace := s.trace ++ [Effect.Lock db_name, Effect.Unlock db_name] } := by
  cases hdb : NameMap.find s.db_manager_ db_name <;>
  simp [async_tm_stopMessageIngestion, withLock, getDB, ApplicationDBManager.getDB,
    State.emit, hdb, hW]

/-- C20: for a registered `X` and a watcher map W, start-message-ingestion
fails and leaves W unchanged when `X` has a watcher in W or when the name of
`X` has no shard index, and otherwise succeeds and adds exactly the entry of
`X`; stop-message-ingestion fails and leaves W unchanged when `X` has no
watcher in W, and otherwise calls stop-and-wait and removes exactly the entry
of `X`; so a start that takes effect followed by a stop restores W. -/
theorem C20_watcher_map_start_stop (ext : Ext) (request : StartMessageIngestionRequest)
    (s : State) (db : ApplicationDB)
    (hX : NameMap.find s.db_manager_ request.db_name = some db) :
    ((NameMap.find s.kafka_watcher_map_ request.db_name ≠ none ∨
        ext.ExtractShardId request.db_name = -1) →
      (∃ e, (async_tm_startMessageIngestion ext request s).2 = Except.error e) ∧
      (async_tm_startMessageIngestion ext request s).1.kafka_watcher_map_ =
        s.kafka_watcher_map_) ∧
    (NameMap.find s.kafka_watcher_map_ request.db_name = none →
      ext.ExtractShardId request.db_name ≠ -1 →
      (async_tm_startMessageIngestion ext request s).2 = Except.ok () ∧
      NameMap.find (async_tm_startMessageIngestion ext request s).1.kafka_watcher_map_
        request.db_name ≠ none ∧
      ∀ other, other ≠ request.db_name →
        NameMap.find (async_tm_startMessageIngestion ext request s).1.kafka_watcher_map_
          other = NameMap.find s.kafka_watcher_map_ other) ∧
    (NameMap.find s.kafka_watcher_map_ request.db_name = none →
      (∃ e, (async_tm_stopMessageIngestion ext request.db_name s).2 = Except.error e) ∧
      (async_tm_stopMessageIngestion ext request.db_name s).1.kafka_watcher_map_ =
        s.kafka_watcher_map_ ∧
      (async_tm_stopMessageIngestion ext request.db_name s).1.trace =
        s.trace ++ [Effect.Lock request.db_name, Effect.Unlock request.db_name]) ∧
    (NameMap.find s.kafka_watcher_map_ request.db_name ≠ none →
      (async_tm_stopMessageIngestion ext request.db_name s).2 = Except.ok () ∧
      (async_tm_stopMessageIngestion ext request.db_name s).1.trace =
        s.trace ++ [Effect.Lock request.db_name, Effect.StopAndWait request.db_name,
          Effect.Unlock request.db_name] ∧
      NameMap.find (async_tm_stopMessageIngestion ext request.db_name s).1.kafka_watcher_map_
        request.db_name = none ∧
      ∀ other, other ≠ request.db_name →
        NameMap.find (async_tm_stopMessageIngestion ext request.db_name s).1.kafka_watcher_map_
          other = NameMap.find s.kafka_watcher_map_ other) ∧
    (NameMap.find s.kafka_watcher_map_ request.db_name = none →
      ext.ExtractShardId request.db_name ≠ -1 →
      ∀ ext2 : Ext,
        (async_tm_stopMessageIngestion ext2 request.db_name
          (async_tm_startMessageIngestion ext request s).1).2 = Except.ok () ∧
        (async_tm_stopMessageIngestion ext2 request.db_name
          (async_tm_startMessageIngestion ext request s).1).1.kafka_watcher_map_ =
          s.kafka_watcher_map_) := by
  refine ⟨?_, ?_, ?_, ?_, ?_⟩
  · intro hrefuse
    obtain ⟨he, hs⟩ := startMessageIngestion_of_refused ext request s hrefuse
    exact ⟨he, by rw [hs]⟩
  · intro hW hshard
    rw [startMessageIngestion_of_fresh ext request s db hX hW hshard]
    refine ⟨rfl, by simp [NameMap.find], ?_⟩
    intro other hother
    have hne : ¬ request.db_name = other := fun hh => hother hh.symm
    simp [NameMap.find, hne]
  · intro hW
    obtain ⟨he, hs⟩ := stopMessageIngestion_of_idle ext request.db_name s hW
    exact ⟨he, by rw [hs], by rw [hs]⟩
  · intro hW
    obtain ⟨w, hw⟩ := Option.ne_none_iff_exists'.mp hW
    rw [stopMessageIngestion_of_watching ext request.db_name s db w hX hw]
    refine ⟨rfl, rfl, NameMap.find_erase_self _ _, ?_⟩
    intro other hother
    exact NameMap.find_erase_ne _ _ _ hother
  · intro hW hshard ext2
    have hstart := startMessageIngestion_of_fresh ext request s db hX hW hshard
    have hX2 : NameMap.find (async_tm_startMessageIngestion ext request s).1.db_manager_
        request.db_name = some db := by
      rw [hstart]; exact hX
    have hW2 : NameMap.find (async_tm_startMessageIngestion ext request s).1.kafka_watcher_map_
        request.db_name ≠ none := by
      rw [hstart]; simp [NameMap.find]
    obtain ⟨w, hw⟩ := Option.ne_none_iff_exists'.mp hW2
    rw [stopMessageIngestion_of_watching ext2 request.db_name _ db w hX2 hw]
    refine ⟨rfl, ?_⟩
    rw [hstart]
    simp [NameMap.erase, NameMap.erase_of_find_none _ _ hW]

/-- C20, witness: on the handler hosting `alpha_0` without watcher, start
succeeds, a second start is refused, and stop after start leaves the watcher
map empty again. -/
theorem C20_witness :
    (async_tm_startMessageIngestion ext_ok ⟨"alpha_0", "topic", "/brokers", 0, false⟩
        st_alpha).2 = Except.ok () ∧
    (∃ e, (async_tm_startMessageIngestion ext_ok ⟨"alpha_0", "topic", "/brokers", 0, false⟩
        (async_tm_startMessageIngestion ext_ok ⟨"alpha_0", "topic", "/brokers", 0, false⟩
          st_alpha).1).2 = Except.error e) ∧
    (async_tm_stopMessageIngestion ext_ok "alpha_0"
        (async_tm_startMessageIngestion ext_ok ⟨"alpha_0", "topic", "/brokers", 0, false⟩
          st_alpha).1).1.kafka_watcher_map_ = [] :=
  ⟨((C20_watcher_map_start_stop ext_ok ⟨"alpha_0", "topic", "/brokers", 0, false⟩ st_alpha
      ⟨"/tmp/alpha_0", DBRole.SLAVE, some ⟨"10.0.0.2", 9091⟩⟩ (by decide)).2.1
      (by decide) (by decide)).1,
   ((C20_watcher_map_start_stop ext_ok ⟨"alpha_0", "topic", "/brokers", 0, false⟩
      (async_tm_startMessageIngestion ext_ok ⟨"alpha_0", "topic", "/brokers", 0, false⟩
        st_alpha).1
      ⟨"/tmp/alpha_0", DBRole.SLAVE, some ⟨"10.0.0.2", 9091⟩⟩ (by decide)).1
      (Or.inl (by decide))).1,
   ((C20_watcher_map_start_stop ext_ok ⟨"alpha_0", "topic", "/brokers", 0, false⟩ st_alpha
      ⟨"/tmp/alpha_0", DBRole.SLAVE, some ⟨"10.0.0.2", 9091⟩⟩ (by decide)).2.2.2.2
      (by decide) (by decide) ext_ok).2⟩

/-! ## The message callback: engine writes (C23) -/

/-- The run of the callback over two sequences of deliveries, one after the
other. -/
theorem message_callback_run_append (cfg : Flags) (ext : Ext) (kext : KafkaExt)
    (db_name : String) (db : ApplicationDB) (should_deserialize : Bool) (segment : String)
    (xs ys : List (Option KafkaMessage × Bool)) (cs : Int × State) :
    message_callback_run cfg ext kext db_name db should_deserialize segment (xs ++ ys) cs =
      message_callback_run cfg ext kext db_name db should_deserialize segment ys
        (message_callback_run cfg ext kext db_name db should_deserialize segment xs cs) := by
  induction xs generalizing cs with
  | nil => rfl
  | cons x xs ih => simp [message_callback_run, ih]

theorem engineWrites_emit_Stats_Incr (s : State) (c : String) :
    engineWrites (s.emit (Effect.Stats_Incr c)).trace = engineWrites s.trace := by
  simp [engineWrites, State.emit, List.filter_append]

theorem engineWrites_emit_Stats_AddMetric (s : State) (c : String) (v : Int) :
    engineWrites (s.emit (Effect.Stats_AddMetric c v)).trace = engineWrites s.trace := by
  simp [engineWrites, State.emit, List.filter_append]

theorem engineWrites_emit_Put (s : State) (r k v : String) :
    engineWrites (s.emit (Effect.Put r k v)).trace =
      engineWrites s.trace ++ [Effect.Put r k v] := by
  simp [engineWrites, State.emit, List.filter_append]

theorem engineWrites_emit_Delete (s : State) (r k : String) :
    engineWrites (s.emit (Effect.Delete r k)).trace =
      engineWrites s.trace ++ [Effect.Delete r k] := by
  simp [engineWrites, State.emit, List.filter_append]

theorem engineWrites_emit_Merge (s : State) (r k v : String) :
    engineWrites (s.emit (Effect.Merge r k v)).trace =
      engineWrites s.trace ++ [Effect.Merge r k v] := by
  simp [engineWrites, State.emit, List.filter_append]

/-- The engine writes of one call of the callback. -/
theorem message_callback_engineWrites (cfg : Flags) (ext : Ext) (kext : KafkaExt)
    (db_name : String) (db : ApplicationDB) (should_deserialize : Bool) (segment : String)
    (m : KafkaMessage) (is_replay : Bool) (message_count : Int) (s : State) :
    engineWrites (message_callback cfg ext kext db_name db should_deserialize segment
        (some m) is_replay message_count s).2.trace =
      engineWrites s.trace ++
        spec_message_writes should_deserialize kext.deserialize db.rocksdb m := by
  cases is_replay <;> cases should_deserialize
  case false.false | true.false =>
    all_goals simp only [message_callback, spec_message_writes, Bool.not_true, Bool.not_false,
      Bool.false_eq_true, if_true, if_false]
    all_goals repeat' split
    all_goals simp_all [writeMetaData_trace, engineWrites_emit_Stats_Incr,
      engineWrites_emit_Stats_AddMetric, engineWrites_emit_Put]
  all_goals cases hd : kext.deserialize m.payload with
    | none =>
      simp [message_callback, spec_message_writes, DeserializeKafkaPayload, DecodeThriftStruct,
        hd, engineWrites_emit_Stats_Incr, engineWrites_emit_Stats_AddMetric]
    | some p =>
      obtain ⟨op, v⟩ := p
      cases op <;> cases v <;>
      simp only [message_callback, spec_message_writes, DeserializeKafkaPayload,
        DecodeThriftStruct, hd, Bool.not_true, Bool.not_false, Bool.false_eq_true, if_true,
        if_false] <;>
      repeat' split
      all_goals simp_all [writeMetaData_trace, engineWrites_emit_Stats_Incr,
        engineWrites_emit_Stats_AddMetric, engineWrites_emit_Put, engineWrites_emit_Delete,
        engineWrites_emit_Merge]

/-- C23: for every non-null message with key k and payload p, whatever the
state, the message count and the answers of the engine: with deserialization
disabled the callback issues exactly one engine write, put(k, p); with it
enabled and p decoding to an operation and a value, exactly one write:
put(k, value) for PUT, delete(k) for DELETE, merge(k, value) for MERGE (an
absent value being the empty string), and none for any other operation code;
when p does not decode, none.  Over a whole sequence of deliveries the engine
writes are those of the messages one after the other, whether or not earlier
writes failed. -/
theorem C23_callback_engine_writes (cfg : Flags) (ext : Ext) (kext : KafkaExt)
    (db_name : String) (db : ApplicationDB) (segment : String) :
    (∀ (m : KafkaMessage) (is_replay : Bool) (message_count : Int) (s : State),
      engineWrites (message_callback cfg ext kext db_name db false segment
          (some m) is_replay message_count s).2.trace =
        engineWrites s.trace ++ [Effect.Put db.rocksdb m.key m.payload]) ∧
    (∀ (m : KafkaMessage) (is_replay : Bool) (message_count : Int) (s : State)
        (op : KafkaOperationCode) (value : Option String),
      kext.deserialize m.payload = some ⟨op, value⟩ →
      engineWrites (message_callback cfg ext kext db_name db true segment
          (some m) is_replay message_count s).2.trace =
        engineWrites s.trace ++
          (match op with
            | KafkaOperationCode.PUT => [Effect.Put db.rocksdb m.key (value.getD "")]
            | KafkaOperationCode.DELETE => [Effect.Delete db.rocksdb m.key]
            | KafkaOperationCode.MERGE => [Effect.Merge db.rocksdb m.key (value.getD "")]
            | KafkaOperationCode.other _ => [])) ∧
    (∀ (m : KafkaMessage) (is_replay : Bool) (message_count : Int) (s : State),
      kext.deserialize m.payload = none →
      engineWrites (message_callback cfg ext kext db_name db true segment
          (some m) is_replay message_count s).2.trace = engineWrites s.trace) ∧
    (∀ (should_deserialize : Bool) (ms : List (Option KafkaMessage × Bool))
        (cs : Int × State),
      engineWrites (message_callback_run cfg ext kext db_name db should_deserialize segment
          ms cs).2.trace =
        engineWrites cs.2.trace ++
          spec_run_writes should_deserialize kext.deserialize db.rocksdb ms) := by
  refine ⟨?_, ?_, ?_, ?_⟩
  · intro m r c s
    rw [message_callback_engineWrites]
    rfl
  · intro m r c s op value hd
    rw [message_callback_engineWrites]
    cases op <;> simp [spec_message_writes, hd]
  · intro m r c s hd
    rw [message_callback_engineWrites]
    simp [spec_message_writes, hd]
  · intro sd ms
    induction ms with
    | nil => intro cs; simp [message_callback_run, spec_run_writes]
    | cons x xs ih =>
      intro cs
      obtain ⟨m, r⟩ := x
      cases m with
      | none => simp only [message_callback_run, spec_run_writes, ih, message_callback]
      | some m =>
        simp only [message_callback_run, spec_run_writes, ih, message_callback_engineWrites,
          List.append_assoc]

/-- C23, witness: a payload that decodes to a merge, delivered while every
engine write fails. -/
theorem C23_witness :
    kext_writes_fail.deserialize "merge:v" = some ⟨KafkaOperationCode.MERGE, some "v"⟩ ∧
    engineWrites (message_callback cfg0 ext_ok kext_writes_fail "alpha_0" db_alpha_0 true
        "alpha" (some ⟨"k", "merge:v", 100⟩) false 0 st_alpha).2.trace =
      engineWrites st_alpha.trace ++ [Effect.Merge "/tmp/alpha_0" "k" "v"] :=
  ⟨by decide,
   (C23_callback_engine_writes cfg0 ext_ok kext_writes_fail "alpha_0" db_alpha_0 "alpha").2.1
     ⟨"k", "merge:v", 100⟩ false 0 st_alpha KafkaOperationCode.MERGE (some "v") (by decide)⟩

/-! ## The message callback: checkpoints (C21) -/

theorem message_callback_count (cfg : Flags) (ext : Ext) (kext : KafkaExt)
    (db_name : String) (db : ApplicationDB) (should_deserialize : Bool) (segment : String)
    (m : KafkaMessage) (is_replay : Bool) (message_count : Int) (s : State) :
    (message_callback cfg ext kext db_name db should_deserialize segment
        (some m) is_replay message_count s).1 = message_count + 1 := by
  simp only [message_callback]
  repeat' split
  all_goals rfl

/-- The messages of a sequence, none of them null. -/
theorem message_callback_run_count (cfg : Flags) (ext : Ext) (kext : KafkaExt)
    (db_name : String) (db : ApplicationDB) (should_deserialize : Bool) (segment : String)
    (ms : List (KafkaMessage × Bool)) (cs : Int × State) :
    (message_callback_run cfg ext kext db_name db should_deserialize segment
        (ms.map (fun x => (some x.1, x.2))) cs).1 = cs.1 + ms.length := by
  induction ms generalizing cs with
  | nil => simp [message_callback_run]
  | cons x xs ih =>
    simp only [List.map_cons, message_callback_run, ih, message_callback_count,
      List.length_cons]
    push_cast
    omega


/-- The checkpoint at the end of the callback, from a state with the metadata
store of `s`. -/
theorem checkpoint_meta_db (ext : Ext) (db_name : String) (interval count ts : Int)
    (s1 s : State) (h : s1.meta_db_ = s.meta_db_) :
    (if count % interval = 0 then
        (count, (writeMetaData ext s1 db_name ((getMetaData s1 db_name).s3_bucket.getD "")
          ((getMetaData s1 db_name).s3_path.getD "") ts).2)
      else (count, s1)).2.meta_db_ =
      if count % interval = 0 ∧ ext.meta_db_Put_ok db_name = true then
        NameMap.insert s.meta_db_ db_name
          { db_name := db_name
            s3_bucket := some ((getMetaData s db_name).s3_bucket.getD "")
            s3_path := some ((getMetaData s db_name).s3_path.getD "")
            last_kafka_msg_timestamp_ms := some ts }
      else s.meta_db_ := by
  have hg : getMetaData s1 db_name = getMetaData s db_name := by
    simp [getMetaData, h]
  by_cases hk : count % interval = 0 <;>
  by_cases hput : ext.meta_db_Put_ok db_name = true
  · rw [if_pos hk, if_pos ⟨hk, hput⟩]
    simp only [writeMetaData, hput, if_true, hg, h]
  · rw [if_pos hk, if_neg (fun hc => hput hc.2)]
    simp [writeMetaData, hput, h]
  · rw [if_neg hk, if_neg (fun hc => hk hc.1)]
    exact h
  · rw [if_neg hk, if_neg (fun hc => hk hc.1)]
    exact h

theorem message_callback_meta_db (cfg : Flags) (ext : Ext) (kext : KafkaExt)
    (db_name : String) (db : ApplicationDB) (should_deserialize : Bool) (segment : String)
    (m : KafkaMessage) (is_replay : Bool) (message_count : Int) (s : State)
    (happ : is_applied kext should_deserialize m = true) :
    (message_callback cfg ext kext db_name db should_deserialize segment
        (some m) is_replay message_count s).2.meta_db_ =
      if (message_count + 1) % cfg.kafka_ts_update_interval = 0 ∧
          ext.meta_db_Put_ok db_name = true then
        NameMap.insert s.meta_db_ db_name
          { db_name := db_name
            s3_bucket := some ((getMetaData s db_name).s3_bucket.getD "")
            s3_path := some ((getMetaData s db_name).s3_path.getD "")
            last_kafka_msg_timestamp_ms := some m.timestamp }
      else s.meta_db_ := by
  cases should_deserialize
  · simp only [message_callback]
    refine checkpoint_meta_db ext db_name _ _ _ _ s ?_
    repeat' split
    all_goals first | rfl | contradiction
  · cases hd : kext.deserialize m.payload with
    | none => simp [is_applied, hd] at happ
    | some p =>
      obtain ⟨op, v⟩ := p
      cases op <;>
      simp only [message_callback, DeserializeKafkaPayload, DecodeThriftStruct, hd] <;>
      refine checkpoint_meta_db ext db_name _ _ _ _ s ?_ <;>
      repeat' split
      all_goals rfl

theorem message_callback_not_applied (cfg : Flags) (ext : Ext) (kext : KafkaExt)
    (db_name : String) (db : ApplicationDB) (should_deserialize : Bool) (segment : String)
    (m : KafkaMessage) (is_replay : Bool) (message_count : Int) (s : State)
    (happ : is_applied kext should_deserialize m = false) :
    (message_callback cfg ext kext db_name db should_deserialize segment
        (some m) is_replay message_count s).2.meta_db_ = s.meta_db_ := by
  cases should_deserialize
  · simp [is_applied] at happ
  · cases hd : kext.deserialize m.payload with
    | none =>
      cases is_replay <;>
      simp [message_callback, DeserializeKafkaPayload, DecodeThriftStruct, hd, State.emit]
    | some p => simp [is_applied, hd] at happ


/-- C21 (amended): for every checkpoint interval N > 0 and every sequence of
non-null messages delivered to the callback of a database, counted from 1: the
k-th message leaves the message count at k.  When k is a multiple of N, the
message is applied (deserialization is disabled or its payload decodes) and the
write to the metadata store succeeds, the record of the database afterwards
holds that message's timestamp and the bucket and path it held before, an
absent bucket or path written as the empty string.  When k is no multiple of
N, or the message's payload does not decode, or the write to the metadata store
fails, the metadata store is left as it was. -/
theorem C21_checkpoint_every_N_applied_messages (cfg : Flags) (ext : Ext) (kext : KafkaExt)
    (db_name : String) (db : ApplicationDB) (should_deserialize : Bool) (segment : String)
    (pre : List (KafkaMessage × Bool)) (m : KafkaMessage) (is_replay : Bool) (s : State)
    (hN : 0 < cfg.kafka_ts_update_interval) :
    (message_callback_run cfg ext kext db_name db should_deserialize segment
        (pre.map (fun x => (some x.1, x.2)) ++ [(some m, is_replay)]) (0, s)).1 =
      pre.length + 1 ∧
    (((pre.length : Int) + 1) % cfg.kafka_ts_update_interval = 0 →
      is_applied kext should_deserialize m = true →
      ext.meta_db_Put_ok db_name = true →
      getMetaData (message_callback_run cfg ext kext db_name db should_deserialize segment
          (pre.map (fun x => (some x.1, x.2)) ++ [(some m, is_replay)]) (0, s)).2 db_name =
        { db_name := db_name
          s3_bucket := some ((getMetaData (message_callback_run cfg ext kext db_name db
            should_deserialize segment (pre.map (fun x => (some x.1, x.2)))
            (0, s)).2 db_name).s3_bucket.getD "")
          s3_path := some ((getMetaData (message_callback_run cfg ext kext db_name db
            should_deserialize segment (pre.map (fun x => (some x.1, x.2)))
            (0, s)).2 db_name).s3_path.getD "")
          last_kafka_msg_timestamp_ms := some m.timestamp }) ∧
    ((((pre.length : Int) + 1) % cfg.kafka_ts_update_interval ≠ 0 ∨
        is_applied kext should_deserialize m = false ∨
        ext.meta_db_Put_ok db_name = false) →
      (message_callback_run cfg ext kext db_name db should_deserialize segment
          (pre.map (fun x => (some x.1, x.2)) ++ [(some m, is_replay)]) (0, s)).2.meta_db_ =
        (message_callback_run cfg ext kext db_name db should_deserialize segment
          (pre.map (fun x => (some x.1, x.2))) (0, s)).2.meta_db_) := by
  -- the interval is positive, so the remainder is that of the source
  have _ := hN
  have hc := message_callback_run_count cfg ext kext db_name db should_deserialize segment
    pre (0, s)
  simp only [Int.zero_add] at hc
  rw [message_callback_run_append]
  simp only [message_callback_run]
  refine ⟨?_, ?_, ?_⟩
  · rw [message_callback_count, hc]
  · intro hk happ hput
    rw [getMetaData, message_callback_meta_db _ _ _ _ _ _ _ _ _ _ _ happ, hc,
      if_pos ⟨hk, hput⟩, NameMap.find_insert_self]
  · intro h
    by_cases happ : is_applied kext should_deserialize m = true
    · rw [message_callback_meta_db _ _ _ _ _ _ _ _ _ _ _ happ, hc, if_neg]
      rintro ⟨hk, hput⟩
      rcases h with h | h | h
      · exact h hk
      · rw [happ] at h
        cases h
      · rw [hput] at h
        cases h
    · exact message_callback_not_applied _ _ _ _ _ _ _ _ _ _ _ (by simpa using happ)

/-- C21, counterexample: with a checkpoint every second message and
deserialization enabled, a second message whose payload does not decode is
counted, yet no metadata record is written for it. -/
theorem C21_counterexample_undecodable_message_skips_checkpoint :
    (message_callback_run cfg_interval2 ext_ok kext_ok "alpha_0" db_alpha_0 true "alpha"
        [(some ⟨"k1", "put:v", 100⟩, false), (some ⟨"k2", "garbage", 200⟩, false)]
        (0, st_alpha)).1 = 2 ∧
    (message_callback_run cfg_interval2 ext_ok kext_ok "alpha_0" db_alpha_0 true "alpha"
        [(some ⟨"k1", "put:v", 100⟩, false), (some ⟨"k2", "garbage", 200⟩, false)]
        (0, st_alpha)).2.meta_db_ = [] ∧
    (getMetaData (message_callback_run cfg_interval2 ext_ok kext_ok "alpha_0" db_alpha_0
        true "alpha"
        [(some ⟨"k1", "put:v", 100⟩, false), (some ⟨"k2", "garbage", 200⟩, false)]
        (0, st_alpha)).2 "alpha_0").last_kafka_msg_timestamp_ms = none := by
  decide

/-- C21, witness: the second of two decodable messages, with a checkpoint every
second message. -/
theorem C21_witness :
    getMetaData (message_callback_run cfg_interval2 ext_ok kext_ok "alpha_0" db_alpha_0
        true "alpha"
        ([(⟨"k1", "put:v", 100⟩, false)].map (fun x => (some x.1, x.2)) ++
          [(some ⟨"k2", "del", 200⟩, false)]) (0, st_snapshot)).2 "alpha_0" =
      { db_name := "alpha_0", s3_bucket := some "b", s3_path := some "snap/1",
        last_kafka_msg_timestamp_ms := some 200 } :=
  (C21_checkpoint_every_N_applied_messages cfg_interval2 ext_ok kext_ok "alpha_0" db_alpha_0
    true "alpha" [(⟨"k1", "put:v", 100⟩, false)] ⟨"k2", "del", 200⟩ false st_snapshot
    (by decide)).2.1 (by decide) (by decide) (by decide)

/-! ## The stored last-event timestamp (C22) -/

theorem backupDBHelper_meta_db (cfg : Flags) (ext : Ext) (db_name backup_dir : String)
    (enable : Bool) (limit : Nat) (e : AdminException) (s : State) :
    (backupDBHelper cfg ext db_name backup_dir enable limit e s).1.meta_db_ = s.meta_db_ := by
  simp only [backupDBHelper, withLock, getDB, State.emit]
  repeat' split
  all_goals simp

theorem restoreDBHelper_meta_db (cfg : Flags) (ext : Ext) (db_name backup_dir : String)
    (upstream_addr : SocketAddress) (enable : Bool) (limit : Nat) (e : AdminException)
    (s : State) :
    (restoreDBHelper cfg ext db_name backup_dir upstream_addr enable limit e s).1.meta_db_ =
      s.meta_db_ := by
  simp only [restoreDBHelper, withLock, State.emit, ApplicationDBManager.addDB]
  repeat' split
  all_goals simp

theorem addS3_clear_and_reopen_meta_db (cfg : Flags) (ext : Ext) (db_name : String)
    (db : ApplicationDB) (s : State) :
    (addS3_clear_and_reopen cfg ext db_name db s).1.meta_db_ = s.meta_db_ := by
  simp only [addS3_clear_and_reopen, removeDB, ApplicationDBManager.removeDB,
    ApplicationDBManager.addDB, getDB, State.emit]
  repeat' split
  all_goals simp

theorem removeDB_meta_db (ext : Ext) (s : State) (db_name : String) (e : AdminException) :
    (removeDB ext s db_name e).2.2.meta_db_ = s.meta_db_ := by
  unfold removeDB
  split <;> rfl

theorem find_clearMetaData_ne (ext : Ext) (s : State) (db_name X : String)
    (hne : db_name ≠ X) :
    NameMap.find (clearMetaData ext s db_name).2.meta_db_ X = NameMap.find s.meta_db_ X := by
  unfold clearMetaData
  split
  · exact NameMap.find_erase_ne _ _ _ (Ne.symm hne)
  · rfl

theorem find_writeMetaData_ne (ext : Ext) (s : State) (db_name b p X : String) (ts : Int)
    (hne : db_name ≠ X) :
    NameMap.find (writeMetaData ext s db_name b p ts).2.meta_db_ X =
      NameMap.find s.meta_db_ X := by
  unfold writeMetaData
  split
  · exact NameMap.find_insert_ne _ _ _ _ (Ne.symm hne)
  · rfl

theorem backupDB_meta_db (cfg : Flags) (ext : Ext) (request : BackupDBRequest) (s : State) :
    (async_tm_backupDB cfg ext request s).1.meta_db_ = s.meta_db_ := by
  simp only [async_tm_backupDB]
  repeat' split
  all_goals simp [backupDBHelper_meta_db, State.emit_meta_db]

theorem restoreDB_meta_db (cfg : Flags) (ext : Ext) (request : RestoreDBRequest) (s : State) :
    (async_tm_restoreDB cfg ext request s).1.meta_db_ = s.meta_db_ := by
  simp only [async_tm_restoreDB]
  repeat' split
  all_goals simp [restoreDBHelper_meta_db, State.emit_meta_db]

theorem backupDBToS3_meta_db (cfg : Flags) (ext : Ext) (request : BackupDBToS3Request)
    (s : State) :
    (async_tm_backupDBToS3 cfg ext request s).1.meta_db_ = s.meta_db_ := by
  simp only [async_tm_backupDBToS3, withUploadCount, withScratchDir]
  repeat' split
  all_goals simp [backupDBHelper_meta_db, State.emit_meta_db, createLocalS3Util_meta_db]

theorem restoreDBFromS3_meta_db (cfg : Flags) (ext : Ext) (request : RestoreDBFromS3Request)
    (s : State) :
    (async_tm_restoreDBFromS3 cfg ext request s).1.meta_db_ = s.meta_db_ := by
  simp only [async_tm_restoreDBFromS3, withDownloadCount, withScratchDir]
  repeat' split
  all_goals simp [restoreDBHelper_meta_db, State.emit_meta_db, createLocalS3Util_meta_db]

theorem checkDB_meta_db (ext : Ext) (db_name : String) (s : State) :
    (async_tm_checkDB ext db_name s).1.meta_db_ = s.meta_db_ := by
  simp only [async_tm_checkDB]
  repeat' split
  all_goals simp [State.emit_meta_db]

theorem closeDB_meta_db (ext : Ext) (db_name : String) (s : State) :
    (async_tm_closeDB ext db_name s).1.meta_db_ = s.meta_db_ := by
  simp only [async_tm_closeDB, withLock, removeDB]
  repeat' split
  all_goals simp [State.emit_meta_db]

theorem changeRole_meta_db (cfg : Flags) (ext : Ext)
    (request : ChangeDBRoleAndUpstreamRequest) (s : State) :
    (async_tm_changeDBRoleAndUpStream cfg ext request s).1.meta_db_ = s.meta_db_ := by
  simp only [async_tm_changeDBRoleAndUpStream, withLock, removeDB]
  repeat' split
  all_goals simp [State.emit_meta_db]

theorem getSequenceNumber_meta_db (ext : Ext) (db_name : String) (s : State) :
    (async_tm_getSequenceNumber ext db_name s).1.meta_db_ = s.meta_db_ := by
  simp only [async_tm_getSequenceNumber]
  repeat' split
  all_goals simp [State.emit_meta_db]

theorem startMessageIngestion_meta_db (ext : Ext) (request : StartMessageIngestionRequest)
    (s : State) :
    (async_tm_startMessageIngestion ext request s).1.meta_db_ = s.meta_db_ := by
  simp only [async_tm_startMessageIngestion, withLock]
  repeat' split
  all_goals simp [State.emit_meta_db]

theorem stopMessageIngestion_meta_db (ext : Ext) (db_name : String) (s : State) :
    (async_tm_stopMessageIngestion ext db_name s).1.meta_db_ = s.meta_db_ := by
  simp only [async_tm_stopMessageIngestion, withLock]
  repeat' split
  all_goals simp [State.emit_meta_db]

theorem setDBOptions_meta_db (ext : Ext) (db_name : String) (options : List (String × String))
    (s : State) :
    (async_tm_setDBOptions ext db_name options s).1.meta_db_ = s.meta_db_ := by
  simp only [async_tm_setDBOptions, withLock]
  repeat' split
  all_goals simp [State.emit_meta_db]

theorem compactDB_meta_db (ext : Ext) (db_name : String) (s : State) :
    (async_tm_compactDB ext db_name s).1.meta_db_ = s.meta_db_ := by
  simp only [async_tm_compactDB]
  repeat' split
  all_goals simp [State.emit_meta_db]

theorem addDB_meta_db (cfg : Flags) (ext : Ext) (request : AddDBRequest) (s : State)
    (X : String) (h : request.overwrite ≠ some true ∨ request.db_name ≠ X) :
    NameMap.find (async_tm_addDB cfg ext request s).1.meta_db_ X =
      NameMap.find s.meta_db_ X := by
  have key : request.overwrite.getD false = true → request.db_name ≠ X := by
    intro ho
    rcases h with h | h
    · exfalso
      apply h
      cases hov : request.overwrite <;> simp_all
    · exact h
  clear h
  simp only [async_tm_addDB, withLock]
  repeat' split
  all_goals first
    | (rename_i ho
       simp [State.emit_meta_db, find_clearMetaData_ne _ _ _ _ (key ho)])
    | simp [State.emit_meta_db]

theorem clearDB_meta_db (cfg : Flags) (ext : Ext) (request : ClearDBRequest) (s : State)
    (X : String) (h : request.db_name ≠ X) :
    NameMap.find (async_tm_clearDB cfg ext request s).1.meta_db_ X =
      NameMap.find s.meta_db_ X := by
  simp only [async_tm_clearDB, withLock]
  repeat' split
  all_goals simp_all [State.emit_meta_db, find_clearMetaData_ne, removeDB_meta_db]

theorem addS3_meta_db (cfg : Flags) (ext : Ext) (request : AddS3SstFilesToDBRequest)
    (s : State) (X : String) (h : request.db_name ≠ X) :
    NameMap.find (async_tm_addS3SstFilesToDB cfg ext request s).1.meta_db_ X =
      NameMap.find s.meta_db_ X := by
  simp only [async_tm_addS3SstFilesToDB, withLock, withDownloadCount, withScratchDir]
  repeat' split
  all_goals simp_all [State.emit_meta_db, find_clearMetaData_ne, find_writeMetaData_ne,
    addS3_clear_and_reopen_meta_db, createLocalS3Util_meta_db]

theorem message_callback_find_ne (cfg : Flags) (ext : Ext) (kext : KafkaExt)
    (db_name : String) (db : ApplicationDB) (should_deserialize : Bool) (segment : String)
    (message : Option KafkaMessage) (is_replay : Bool) (message_count : Int) (s : State)
    (X : String) (hne : db_name ≠ X) :
    NameMap.find (message_callback cfg ext kext db_name db should_deserialize segment
        message is_replay message_count s).2.meta_db_ X = NameMap.find s.meta_db_ X := by
  cases message with
  | none => rfl
  | some m =>
    by_cases happ : is_applied kext should_deserialize m = true
    · rw [message_callback_meta_db _ _ _ _ _ _ _ _ _ _ _ happ]
      split
      · exact NameMap.find_insert_ne _ _ _ _ (Ne.symm hne)
      · rfl
    · rw [message_callback_not_applied _ _ _ _ _ _ _ _ _ _ _ (by simpa using happ)]

/-- C22 (amended): the last-event timestamp stored for a database X (absent
read as 0) is left as it was by add-db unless it overwrites X, by clear-db and
by add-object-store-files-to-db of another database, by a message delivered for
another database, and by close-db, change-role-and-upstream, backup and restore
(file system and object store), check-db, get-sequence-number, start and stop
of ingestion, set-db-options and compact-db on any database.  A message
delivered for X sets it to that message's timestamp when the message is
applied, the message count reaches a multiple of the checkpoint interval and
the metadata write succeeds, and leaves it as it was otherwise. -/
theorem C22_stored_timestamp_per_step (cfg : Flags) (ext : Ext) (s : State) (X : String) :
    (∀ request : AddDBRequest, request.overwrite ≠ some true ∨ request.db_name ≠ X →
      stored_timestamp_ms (async_tm_addDB cfg ext request s).1 X =
        stored_timestamp_ms s X) ∧
    (∀ request : ClearDBRequest, request.db_name ≠ X →
      stored_timestamp_ms (async_tm_clearDB cfg ext request s).1 X =
        stored_timestamp_ms s X) ∧
    (∀ request : AddS3SstFilesToDBRequest, request.db_name ≠ X →
      stored_timestamp_ms (async_tm_addS3SstFilesToDB cfg ext request s).1 X =
        stored_timestamp_ms s X) ∧
    (∀ (kext : KafkaExt) (db_name : String) (db : ApplicationDB) (should_deserialize : Bool)
        (segment : String) (message : Option KafkaMessage) (is_replay : Bool)
        (message_count : Int), db_name ≠ X →
      stored_timestamp_ms (message_callback cfg ext kext db_name db should_deserialize
          segment message is_replay message_count s).2 X = stored_timestamp_ms s X) ∧
    (∀ (kext : KafkaExt) (db : ApplicationDB) (should_deserialize : Bool)
        (segment : String) (m : KafkaMessage) (is_replay : Bool) (message_count : Int),
      stored_timestamp_ms (message_callback cfg ext kext X db should_deserialize
          segment (some m) is_replay message_count s).2 X =
        if is_applied kext should_deserialize m = true ∧
            (message_count + 1) % cfg.kafka_ts_update_interval = 0 ∧
            ext.meta_db_Put_ok X = true then m.timestamp
        else stored_timestamp_ms s X) ∧
    (∀ db_name, stored_timestamp_ms (async_tm_closeDB ext db_name s).1 X =
      stored_timestamp_ms s X) ∧
    (∀ request, stored_timestamp_ms (async_tm_changeDBRoleAndUpStream cfg ext request s).1 X =
      stored_timestamp_ms s X) ∧
    (∀ request, stored_timestamp_ms (async_tm_backupDB cfg ext request s).1 X =
      stored_timestamp_ms s X) ∧
    (∀ request, stored_timestamp_ms (async_tm_restoreDB cfg ext request s).1 X =
      stored_timestamp_ms s X) ∧
    (∀ request, stored_timestamp_ms (async_tm_backupDBToS3 cfg ext request s).1 X =
      stored_timestamp_ms s X) ∧
    (∀ request, stored_timestamp_ms (async_tm_restoreDBFromS3 cfg ext request s).1 X =
      stored_timestamp_ms s X) ∧
    (∀ db_name, stored_timestamp_ms (async_tm_checkDB ext db_name s).1 X =
      stored_timestamp_ms s X) ∧
    (∀ db_name, stored_timestamp_ms (async_tm_getSequenceNumber ext db_name s).1 X =
      stored_timestamp_ms s X) ∧
    (∀ request, stored_timestamp_ms (async_tm_startMessageIngestion ext request s).1 X =
      stored_timestamp_ms s X) ∧
    (∀ db_name, stored_timestamp_ms (async_tm_stopMessageIngestion ext db_name s).1 X =
      stored_timestamp_ms s X) ∧
    (∀ db_name options, stored_timestamp_ms (async_tm_setDBOptions ext db_name options s).1 X =
      stored_timestamp_ms s X) ∧
    (∀ db_name, stored_timestamp_ms (async_tm_compactDB ext db_name s).1 X =
      stored_timestamp_ms s X) := by
  refine ⟨?_, ?_, ?_, ?_, ?_, ?_, ?_, ?_, ?_, ?_, ?_, ?_, ?_, ?_, ?_, ?_, ?_⟩
  · intro request h
    simp only [stored_timestamp_ms, getMetaData, addDB_meta_db cfg ext request s X h]
  · intro request h
    simp only [stored_timestamp_ms, getMetaData, clearDB_meta_db cfg ext request s X h]
  · intro request h
    simp only [stored_timestamp_ms, getMetaData, addS3_meta_db cfg ext request s X h]
  · intro kext db_name db sd segment message r c h
    simp only [stored_timestamp_ms, getMetaData,
      message_callback_find_ne cfg ext kext db_name db sd segment message r c s X h]
  · intro kext db sd segment m r c
    by_cases happ : is_applied kext sd m = true
    · by_cases hc : (c + 1) % cfg.kafka_ts_update_interval = 0 ∧ ext.meta_db_Put_ok X = true
      · rw [if_pos ⟨happ, hc⟩]
        simp only [stored_timestamp_ms, getMetaData,
          message_callback_meta_db _ _ _ _ _ _ _ _ _ _ _ happ, if_pos hc,
          NameMap.find_insert_self, Option.getD_some]
      · rw [if_neg (fun h => hc h.2)]
        simp only [stored_timestamp_ms, getMetaData,
          message_callback_meta_db _ _ _ _ _ _ _ _ _ _ _ happ, if_neg hc]
    · rw [if_neg (fun hc => happ hc.1)]
      simp only [stored_timestamp_ms, getMetaData,
        message_callback_not_applied _ _ _ _ _ _ _ _ _ _ _ (by simpa using happ)]
  · intro n; simp only [stored_timestamp_ms, getMetaData, closeDB_meta_db]
  · intro r; simp only [stored_timestamp_ms, getMetaData, changeRole_meta_db]
  · intro r; simp only [stored_timestamp_ms, getMetaData, backupDB_meta_db]
  · intro r; simp only [stored_timestamp_ms, getMetaData, restoreDB_meta_db]
  · intro r; simp only [stored_timestamp_ms, getMetaData, backupDBToS3_meta_db]
  · intro r; simp only [stored_timestamp_ms, getMetaData, restoreDBFromS3_meta_db]
  · intro n; simp only [stored_timestamp_ms, getMetaData, checkDB_meta_db]
  · intro n; simp only [stored_timestamp_ms, getMetaData, getSequenceNumber_meta_db]
  · intro r; simp only [stored_timestamp_ms, getMetaData, startMessageIngestion_meta_db]
  · intro n; simp only [stored_timestamp_ms, getMetaData, stopMessageIngestion_meta_db]
  · intro n o; simp only [stored_timestamp_ms, getMetaData, setDBOptions_meta_db]
  · intro n; simp only [stored_timestamp_ms, getMetaData, compactDB_meta_db]

/-- C22, counterexample: with 5000 stored for `alpha_0`, clear-db of `alpha_0`
succeeds and leaves 0; and the checkpoint of a message stamped 100 leaves
100. -/
theorem C22_counterexample_timestamp_decreases :
    stored_timestamp_ms st_checkpointed "alpha_0" = 5000 ∧
    (async_tm_clearDB cfg0 ext_ok ⟨"alpha_0", some true⟩ st_checkpointed).2 = Except.ok () ∧
    stored_timestamp_ms
      (async_tm_clearDB cfg0 ext_ok ⟨"alpha_0", some true⟩ st_checkpointed).1 "alpha_0" = 0 ∧
    stored_timestamp_ms
      (message_callback cfg_interval2 ext_ok kext_ok "alpha_0" db_alpha_0 false "alpha"
        (some ⟨"k", "v", 100⟩) false 1 st_checkpointed).2 "alpha_0" = 100 := by
  decide

/-- C22, witness: clear-db of `beta_0` leaves the 5000 stored for `alpha_0`. -/
theorem C22_witness :
    "beta_0" ≠ "alpha_0" ∧
    stored_timestamp_ms
      (async_tm_clearDB cfg0 ext_ok ⟨"beta_0", none⟩ st_checkpointed).1 "alpha_0" =
      stored_timestamp_ms st_checkpointed "alpha_0" :=
  ⟨by decide,
   (C22_stored_timestamp_per_step cfg0 ext_ok st_checkpointed "alpha_0").2.1
     ⟨"beta_0", none⟩ (by decide)⟩

/-! ## Bulk ingest: overlapping keys (C24) -/

theorem closeDB_watchers (ext : Ext) (db_name : String) (s : State) :
    (async_tm_closeDB ext db_name s).1.kafka_watcher_map_ = s.kafka_watcher_map_ := by
  simp only [async_tm_closeDB, withLock, removeDB]
  repeat' split
  all_goals simp [State.emit_watchers]

theorem stopMessageIngestion_of_unregistered (ext : Ext) (db_name : String) (s : State)
    (hX : NameMap.find s.db_manager_ db_name = none) :
    async_tm_stopMessageIngestion ext db_name s =
      ({ s with trace := s.trace ++ [Effect.Lock db_name, Effect.Unlock db_name] },
       Except.error ⟨some AdminErrorCode.DB_NOT_FOUND, db_name ++ " doesn't exist."⟩) := by
  simp [async_tm_stopMessageIngestion, withLock, getDB, ApplicationDBManager.getDB,
    State.emit, hX]

/-- C27: close-db never changes the watcher map.  In every state in which `X`
has a watcher but is not registered, stop-message-ingestion of `X` fails with
`DB_NOT_FOUND`, only takes and releases the lock (no stop-and-wait) and leaves
the watcher map as it was, the watcher of `X` included.  Such a state is
reached from any state in which `X` is registered without a watcher and has a
shard index, by start-message-ingestion of `X` followed by close-db of `X`,
both of which succeed; so that every name in the watcher map is registered is
not an invariant of the handler. -/
theorem C27_stop_after_close_keeps_the_watcher (ext ext2 : Ext) :
    (∀ (db_name : String) (s : State),
      (async_tm_closeDB ext db_name s).1.kafka_watcher_map_ = s.kafka_watcher_map_) ∧
    (∀ (db_name : String) (s : State) (w : KafkaWatcher),
      NameMap.find s.db_manager_ db_name = none →
      NameMap.find s.kafka_watcher_map_ db_name = some w →
      (async_tm_stopMessageIngestion ext db_name s).2 =
          Except.error ⟨some AdminErrorCode.DB_NOT_FOUND, db_name ++ " doesn't exist."⟩ ∧
        (async_tm_stopMessageIngestion ext db_name s).1.trace =
          s.trace ++ [Effect.Lock db_name, Effect.Unlock db_name] ∧
        (async_tm_stopMessageIngestion ext db_name s).1.kafka_watcher_map_ =
          s.kafka_watcher_map_ ∧
        NameMap.find (async_tm_stopMessageIngestion ext db_name s).1.kafka_watcher_map_
          db_name = some w) ∧
    (∀ (request : StartMessageIngestionRequest) (s : State) (db : ApplicationDB),
      NameMap.find s.db_manager_ request.db_name = some db →
      NameMap.find s.kafka_watcher_map_ request.db_name = none →
      ext.ExtractShardId request.db_name ≠ -1 →
      (async_tm_startMessageIngestion ext request s).2 = Except.ok () ∧
        (async_tm_closeDB ext2 request.db_name
          (async_tm_startMessageIngestion ext request s).1).2 = Except.ok () ∧
        NameMap.find (async_tm_closeDB ext2 request.db_name
          (async_tm_startMessageIngestion ext request s).1).1.db_manager_
            request.db_name = none ∧
        NameMap.find (async_tm_closeDB ext2 request.db_name
          (async_tm_startMessageIngestion ext request s).1).1.kafka_watcher_map_
            request.db_name ≠ none) := by
  refine ⟨closeDB_watchers ext, ?_, ?_⟩
  · intro db_name s w hX hW
    rw [stopMessageIngestion_of_unregistered ext db_name s hX]
    exact ⟨rfl, rfl, rfl, hW⟩
  · intro request s db hX hW hshard
    have hs := startMessageIngestion_of_fresh ext request s db hX hW hshard
    have hX1 : NameMap.find (async_tm_startMessageIngestion ext request s).1.db_manager_
        request.db_name = some db := by
      rw [hs]
      exact hX
    have hW1 : NameMap.find (async_tm_startMessageIngestion ext request s).1.kafka_watcher_map_
        request.db_name ≠ none := by
      rw [hs]
      simp [NameMap.find]
    refine ⟨by rw [hs], ?_⟩
    rw [closeDB_of_registered ext2 request.db_name _ db hX1]
    exact ⟨rfl, NameMap.find_erase_self _ _, hW1⟩

/-- C27, witness: `alpha_0` is registered without a watcher; after start and
close it has a watcher and is not registered. -/
theorem C27_witness :
    NameMap.find st_alpha.db_manager_ "alpha_0" = some db_alpha_0 ∧
    NameMap.find (async_tm_closeDB ext_ok "alpha_0"
      (async_tm_startMessageIngestion ext_ok ⟨"alpha_0", "events", "/brokers", 0, true⟩
        st_alpha).1).1.db_manager_ "alpha_0" = none ∧
    NameMap.find (async_tm_closeDB ext_ok "alpha_0"
      (async_tm_startMessageIngestion ext_ok ⟨"alpha_0", "events", "/brokers", 0, true⟩
        st_alpha).1).1.kafka_watcher_map_ "alpha_0" ≠ none :=
  ⟨by decide,
   ((C27_stop_after_close_keeps_the_watcher ext_ok ext_ok).2.2
      ⟨"alpha_0", "events", "/brokers", 0, true⟩ st_alpha db_alpha_0
      (by decide) (by decide) (by decide)).2.2⟩

/-! ## add-db: order of the validations (C28) -/

theorem addDB_of_invalid_upstream (cfg : Flags) (ext : Ext) (request : AddDBRequest)
    (s : State)
    (hX : NameMap.find s.db_manager_ request.db_name = none)
    (hip : ext.setFromIpPort_ok request.upstream_ip = false) :
    async_tm_addDB cfg ext request s =
      ({ s with trace := s.trace ++
          [Effect.Lock request.db_name, Effect.Unlock request.db_name] },
       Except.error ⟨some AdminErrorCode.INVALID_UPSTREAM,
         "Invalid ip:port " ++ request.upstream_ip ++ ":" ++
           toString (uint16_t cfg.rocksdb_replicator_port)⟩) := by
  simp [async_tm_addDB, withLock, getDB, ApplicationDBManager.getDB, State.emit,
    SetAddressOrException, hX, hip]

theorem addDB_of_unknown_role_overwrite (cfg : Flags) (ext : Ext) (request : AddDBRequest)
    (s : State) (role : String)
    (hX : NameMap.find s.db_manager_ request.db_name = none)
    (hip : ext.setFromIpPort_ok request.upstream_ip = true)
    (hover : request.overwrite = some true)
    (hdestroy : ext.DestroyDB (cfg.rocksdb_dir ++ request.db_name) = Status.OK)
    (hopen : ext.DB_Open (cfg.rocksdb_dir ++ request.db_name) = Status.OK)
    (hrole : request.db_role = some role) (h1 : role ≠ "SLAVE") (h2 : role ≠ "NOOP") :
    async_tm_addDB cfg ext request s =
      ({ s with
          meta_db_ :=
            if ext.meta_db_Delete_ok request.db_name then
              NameMap.erase s.meta_db_ request.db_name
            else s.meta_db_
          trace := s.trace ++
            [Effect.Lock request.db_name,
             Effect.DestroyDB (cfg.rocksdb_dir ++ request.db_name),
             Effect.DB_Open (cfg.rocksdb_dir ++ request.db_name),
             Effect.Unlock request.db_name] },
       Except.error ⟨some AdminErrorCode.INVALID_DB_ROLE, role⟩) := by
  cases hdel : ext.meta_db_Delete_ok request.db_name <;>
  simp [async_tm_addDB, withLock, getDB, ApplicationDBManager.getDB, State.emit,
    SetAddressOrException, OKOrSetException, Status.ok, hX, hip, hopen, hrole, hover, h1, h2,
    hdestroy, clearMetaData, hdel]

/-- C28 (amended): for every unregistered `X`, add-db with an upstream ip that
does not parse fails with `INVALID_UPSTREAM` and only takes and releases the
lock: registry and metadata store are as before and no engine call is made.
With an upstream ip that parses, overwrite = true and the destroy and the open
of the database succeeding, add-db with a role string other than "SLAVE" and
"NOOP" fails with `INVALID_DB_ROLE` with the registry as before, after it has
called the destroy and the open of `X` on disk, and with the metadata record of
`X` deleted when the delete in the metadata store succeeds. -/
theorem C28_addDB_validates_role_after_destroy_and_open (cfg : Flags) (ext : Ext)
    (request : AddDBRequest) (s : State)
    (hX : NameMap.find s.db_manager_ request.db_name = none) :
    (ext.setFromIpPort_ok request.upstream_ip = false →
      (∃ text, (async_tm_addDB cfg ext request s).2 =
        Except.error ⟨some AdminErrorCode.INVALID_UPSTREAM, text⟩) ∧
      (async_tm_addDB cfg ext request s).1.db_manager_ = s.db_manager_ ∧
      (async_tm_addDB cfg ext request s).1.meta_db_ = s.meta_db_ ∧
      (async_tm_addDB cfg ext request s).1.trace =
        s.trace ++ [Effect.Lock request.db_name, Effect.Unlock request.db_name]) ∧
    (∀ role : String, ext.setFromIpPort_ok request.upstream_ip = true →
      request.overwrite = some true →
      ext.DestroyDB (cfg.rocksdb_dir ++ request.db_name) = Status.OK →
      ext.DB_Open (cfg.rocksdb_dir ++ request.db_name) = Status.OK →
      request.db_role = some role → role ≠ "SLAVE" → role ≠ "NOOP" →
      (async_tm_addDB cfg ext request s).2 =
        Except.error ⟨some AdminErrorCode.INVALID_DB_ROLE, role⟩ ∧
      (async_tm_addDB cfg ext request s).1.db_manager_ = s.db_manager_ ∧
      (async_tm_addDB cfg ext request s).1.trace =
        s.trace ++
          [Effect.Lock request.db_name,
           Effect.DestroyDB (cfg.rocksdb_dir ++ request.db_name),
           Effect.DB_Open (cfg.rocksdb_dir ++ request.db_name),
           Effect.Unlock request.db_name] ∧
      (ext.meta_db_Delete_ok request.db_name = true →
        NameMap.find (async_tm_addDB cfg ext request s).1.meta_db_ request.db_name = none)) := by
  refine ⟨?_, ?_⟩
  · intro hip
    rw [addDB_of_invalid_upstream cfg ext request s hX hip]
    exact ⟨⟨_, rfl⟩, rfl, rfl, rfl⟩
  · intro role hip hover hdestroy hopen hrole h1 h2
    rw [addDB_of_unknown_role_overwrite cfg ext request s role hX hip hover hdestroy hopen
      hrole h1 h2]
    refine ⟨rfl, rfl, rfl, ?_⟩
    intro hdel
    simp only [hdel, if_true]
    exact NameMap.find_erase_self _ _

/-- C28, counterexample: `alpha_0` is not registered, the upstream ip parses,
the role string is unknown and overwrite is set, but the destroy on disk fails:
add-db fails with `DB_ADMIN_ERROR`, not with `INVALID_DB_ROLE`, and no open call
is made; with an upstream ip that does not parse the same request fails with
`INVALID_UPSTREAM`; and when everything succeeds but the delete in the metadata
store, it fails with `INVALID_DB_ROLE` and the metadata record is still there. -/
theorem C28_counterexample_unknown_role_other_error :
    NameMap.find st_checkpointed_unregistered.db_manager_ "alpha_0" = none ∧
    (async_tm_addDB cfg0 ext_destroy_fails ⟨"alpha_0", "10.0.0.2", some "MASTER", some true⟩
        st_checkpointed_unregistered).2 =
      Except.error ⟨some AdminErrorCode.DB_ADMIN_ERROR, "IO error: lock held"⟩ ∧
    (async_tm_addDB cfg0 ext_destroy_fails ⟨"alpha_0", "10.0.0.2", some "MASTER", some true⟩
        st_checkpointed_unregistered).1.trace =
      [Effect.Lock "alpha_0", Effect.DestroyDB "/tmp/alpha_0", Effect.Unlock "alpha_0"] ∧
    (async_tm_addDB cfg0 ext_ok ⟨"alpha_0", "not-an-ip", some "MASTER", some true⟩
        st_checkpointed_unregistered).2 =
      Except.error ⟨some AdminErrorCode.INVALID_UPSTREAM, "Invalid ip:port not-an-ip:9091"⟩ ∧
    (async_tm_addDB cfg0 ext_meta_delete_fails
        ⟨"alpha_0", "10.0.0.2", some "MASTER", some true⟩
        st_checkpointed_unregistered).2 =
      Except.error ⟨some AdminErrorCode.INVALID_DB_ROLE, "MASTER"⟩ ∧
    NameMap.find (async_tm_addDB cfg0 ext_meta_delete_fails
        ⟨"alpha_0", "10.0.0.2", some "MASTER", some true⟩
        st_checkpointed_unregistered).1.meta_db_ "alpha_0" ≠ none := by
  decide

/-- C28, witness: `alpha_0` is not registered and has a metadata record; add-db
with role "MASTER" and overwrite fails with `INVALID_DB_ROLE` after the destroy
and the open, and the record is gone. -/
theorem C28_witness :
    NameMap.find st_checkpointed_unregistered.db_manager_ "alpha_0" = none ∧
    NameMap.find st_checkpointed_unregistered.meta_db_ "alpha_0" ≠ none ∧
    (async_tm_addDB cfg0 ext_ok ⟨"alpha_0", "10.0.0.2", some "MASTER", some true⟩
        st_checkpointed_unregistered).2 =
      Except.error ⟨some AdminErrorCode.INVALID_DB_ROLE, "MASTER"⟩ ∧
    NameMap.find (async_tm_addDB cfg0 ext_ok
        ⟨"alpha_0", "10.0.0.2", some "MASTER", some true⟩
        st_checkpointed_unregistered).1.meta_db_ "alpha_0" = none :=
  ⟨by decide, by decide,
   ((C28_addDB_validates_role_after_destroy_and_open cfg0 ext_ok
      ⟨"alpha_0", "10.0.0.2", some "MASTER", some true⟩ st_checkpointed_unregistered
      (by decide)).2 "MASTER" (by decide) (by decide) (by decide) (by decide) (by decide)
      (by decide) (by decide)).1,
   ((C28_addDB_validates_role_after_destroy_and_open cfg0 ext_ok
      ⟨"alpha_0", "10.0.0.2", some "MASTER", some true⟩ st_checkpointed_unregistered
      (by decide)).2 "MASTER" (by decide) (by decide) (by decide) (by decide) (by decide)
      (by decide) (by decide)).2.2.2 (by decide)⟩

/-! ## The per-DB admin lock (C25) -/

theorem createLocalS3Util_trace (s : State) (limit : Nat) (bucket : String) :
    (createLocalS3Util s limit bucket).1.trace =
      s.trace ++
        (if (match s.s3_util_ with
              | none => true
              | some u => should_new_s3_client u limit bucket) = true then
          [Effect.BuildS3Util limit bucket]
         else []) := by
  unfold createLocalS3Util
  cases s.s3_util_ with
  | none => simp [State.emit]
  | some u =>
    by_cases hb : should_new_s3_client u limit bucket = true <;> simp [State.emit, hb]

theorem closeDB_locked (ext : Ext) (db_name : String) (s : State) :
    LockedThroughout db_name (newCalls s (async_tm_closeDB ext db_name s).1) := by
  suffices h : ∀ l, l = (async_tm_closeDB ext db_name s).1.trace →
      LockedThroughout db_name (l.drop s.trace.length) from h _ rfl
  intro l
  simp only [async_tm_closeDB, withLock, removeDB]
  repeat' split
  all_goals simp only [State.emit]
  all_goals rintro rfl
  all_goals simp [LockedThroughout, lockEvents, heldLocks, heldAfter]

theorem addS3_clear_and_reopen_trace (cfg : Flags) (ext : Ext) (db_name : String)
    (db : ApplicationDB) (s : State) :
    (addS3_clear_and_reopen cfg ext db_name db s).1.trace =
      s.trace ++
        (if (ext.DestroyDB (cfg.rocksdb_dir ++ db_name)).ok = true then
          [Effect.DestroyDB (cfg.rocksdb_dir ++ db_name),
           Effect.DB_Open (cfg.rocksdb_dir ++ db_name)]
         else [Effect.DestroyDB (cfg.rocksdb_dir ++ db_name)]) := by
  simp only [addS3_clear_and_reopen, removeDB, ApplicationDBManager.removeDB, State.emit,
    OKOrSetException]
  repeat' split
  all_goals simp_all

theorem removeDB_trace (ext : Ext) (s : State) (db_name : String) (e : AdminException) :
    (removeDB ext s db_name e).2.2.trace = s.trace := by
  unfold removeDB
  split <;> rfl

theorem addDB_locked (cfg : Flags) (ext : Ext) (request : AddDBRequest) (s : State) :
    LockedThroughout request.db_name (newCalls s (async_tm_addDB cfg ext request s).1) := by
  suffices h : ∀ l, l = (async_tm_addDB cfg ext request s).1.trace →
      LockedThroughout request.db_name (l.drop s.trace.length) from h _ rfl
  intro l
  simp only [async_tm_addDB, withLock]
  repeat' split
  all_goals simp only [State.emit, clearMetaData_trace]
  all_goals rintro rfl
  all_goals simp [LockedThroughout, lockEvents, heldLocks, heldAfter]

theorem changeRole_locked (cfg : Flags) (ext : Ext)
    (request : ChangeDBRoleAndUpstreamRequest) (s : State) :
    LockedThroughout request.db_name
      (newCalls s (async_tm_changeDBRoleAndUpStream cfg ext request s).1) := by
  suffices h : ∀ l, l = (async_tm_changeDBRoleAndUpStream cfg ext request s).1.trace →
      LockedThroughout request.db_name (l.drop s.trace.length) from h _ rfl
  intro l
  simp only [async_tm_changeDBRoleAndUpStream, withLock]
  repeat' split
  all_goals simp only [State.emit, State.setRegistry, removeDB_trace]
  all_goals rintro rfl
  all_goals simp [LockedThroughout, lockEvents, heldLocks, heldAfter]

theorem clearDB_locked (cfg : Flags) (ext : Ext) (request : ClearDBRequest) (s : State) :
    LockedThroughout request.db_name (newCalls s (async_tm_clearDB cfg ext request s).1) := by
  suffices h : ∀ l, l = (async_tm_clearDB cfg ext request s).1.trace →
      LockedThroughout request.db_name (l.drop s.trace.length) from h _ rfl
  intro l
  simp only [async_tm_clearDB, withLock]
  repeat' split
  all_goals simp only [State.emit, removeDB_trace, clearMetaData_trace]
  all_goals rintro rfl
  all_goals simp [LockedThroughout, lockEvents, heldLocks, heldAfter]

theorem startMessageIngestion_locked (ext : Ext) (request : StartMessageIngestionRequest)
    (s : State) :
    LockedThroughout request.db_name
      (newCalls s (async_tm_startMessageIngestion ext request s).1) := by
  suffices h : ∀ l, l = (async_tm_startMessageIngestion ext request s).1.trace →
      LockedThroughout request.db_name (l.drop s.trace.length) from h _ rfl
  intro l
  simp only [async_tm_startMessageIngestion, withLock]
  repeat' split
  all_goals simp only [State.emit]
  all_goals rintro rfl
  all_goals simp [LockedThroughout, lockEvents, heldLocks, heldAfter]

theorem stopMessageIngestion_locked (ext : Ext) (db_name : String) (s : State) :
    LockedThroughout db_name (newCalls s (async_tm_stopMessageIngestion ext db_name s).1) := by
  suffices h : ∀ l, l = (async_tm_stopMessageIngestion ext db_name s).1.trace →
      LockedThroughout db_name (l.drop s.trace.length) from h _ rfl
  intro l
  simp only [async_tm_stopMessageIngestion, withLock]
  repeat' split
  all_goals simp only [State.emit]
  all_goals rintro rfl
  all_goals simp [LockedThroughout, lockEvents, heldLocks, heldAfter]

theorem setDBOptions_locked (ext : Ext) (db_name : String) (options : List (String × String))
    (s : State) :
    LockedThroughout db_name (newCalls s (async_tm_setDBOptions ext db_name options s).1) := by
  suffices h : ∀ l, l = (async_tm_setDBOptions ext db_name options s).1.trace →
      LockedThroughout db_name (l.drop s.trace.length) from h _ rfl
  intro l
  simp only [async_tm_setDBOptions, withLock]
  repeat' split
  all_goals simp only [State.emit]
  all_goals rintro rfl
  all_goals simp [LockedThroughout, lockEvents, heldLocks, heldAfter]

theorem backupDBHelper_locked (cfg : Flags) (ext : Ext) (db_name backup_dir : String)
    (enable : Bool) (limit : Nat) (e : AdminException) (s : State) :
    LockedThroughout db_name
      (newCalls s (backupDBHelper cfg ext db_name backup_dir enable limit e s).1) := by
  suffices h : ∀ l, l = (backupDBHelper cfg ext db_name backup_dir enable limit e s).1.trace →
      LockedThroughout db_name (l.drop s.trace.length) from h _ rfl
  intro l
  simp only [backupDBHelper, withLock]
  repeat' split
  all_goals simp only [State.emit]
  all_goals rintro rfl
  all_goals simp [LockedThroughout, lockEvents, heldLocks, heldAfter]

theorem restoreDBHelper_locked (cfg : Flags) (ext : Ext) (db_name backup_dir : String)
    (upstream_addr : SocketAddress) (enable : Bool) (limit : Nat) (e : AdminException)
    (s : State) :
    LockedThroughout db_name
      (newCalls s (restoreDBHelper cfg ext db_name backup_dir upstream_addr enable limit e
        s).1) := by
  suffices h : ∀ l, l = (restoreDBHelper cfg ext db_name backup_dir upstream_addr enable limit
      e s).1.trace →
      LockedThroughout db_name (l.drop s.trace.length) from h _ rfl
  intro l
  simp only [restoreDBHelper, withLock]
  repeat' split
  all_goals simp only [State.emit]
  all_goals rintro rfl
  all_goals simp [LockedThroughout, lockEvents, heldLocks, heldAfter]

theorem addS3_locked (cfg : Flags) (ext : Ext) (request : AddS3SstFilesToDBRequest)
    (s : State) :
    LockedThroughout request.db_name
      (newCalls s (async_tm_addS3SstFilesToDB cfg ext request s).1) := by
  suffices h : ∀ l, l = (async_tm_addS3SstFilesToDB cfg ext request s).1.trace →
      LockedThroughout request.db_name (l.drop s.trace.length) from h _ rfl
  intro l
  simp only [async_tm_addS3SstFilesToDB, withLock, withDownloadCount, withScratchDir]
  repeat' split
  all_goals simp only [State.emit, clearMetaData_trace, writeMetaData_trace,
    addS3_clear_and_reopen_trace, createLocalS3Util_trace]
  all_goals rintro rfl
  all_goals simp only [newCalls, LockedThroughout]
  all_goals repeat' split
  all_goals simp [lockEvents, heldLocks, heldAfter]

theorem heldLocks_lockEvents (t : List Effect) (held : List String) :
    heldLocks t held = heldLocks (lockEvents t) held := by
  induction t generalizing held with
  | nil => rfl
  | cons e t ih =>
    cases e <;> simp [lockEvents, heldLocks, heldAfter, ih]

theorem backupDB_lock (cfg : Flags) (ext : Ext) (request : BackupDBRequest) (s : State) :
    (async_tm_backupDB cfg ext request s).1.db_manager_ = s.db_manager_ ∧
    (lockEvents (newCalls s (async_tm_backupDB cfg ext request s).1) = [] ∨
      lockEvents (newCalls s (async_tm_backupDB cfg ext request s).1) =
        [Effect.Lock request.db_name, Effect.Unlock request.db_name]) := by
  suffices h : ∀ r, r = (async_tm_backupDB cfg ext request s).1 →
      r.db_manager_ = s.db_manager_ ∧
      (lockEvents (newCalls s r) = [] ∨
        lockEvents (newCalls s r) =
          [Effect.Lock request.db_name, Effect.Unlock request.db_name]) from h _ rfl
  intro r
  simp only [async_tm_backupDB, backupDBHelper, withLock]
  repeat' split
  all_goals simp only [State.emit]
  all_goals rintro rfl
  all_goals simp [newCalls, lockEvents]

theorem backupDBToS3_lock (cfg : Flags) (ext : Ext) (request : BackupDBToS3Request)
    (s : State) :
    (async_tm_backupDBToS3 cfg ext request s).1.db_manager_ = s.db_manager_ ∧
    (lockEvents (newCalls s (async_tm_backupDBToS3 cfg ext request s).1) = [] ∨
      lockEvents (newCalls s (async_tm_backupDBToS3 cfg ext request s).1) =
        [Effect.Lock request.db_name, Effect.Unlock request.db_name]) := by
  suffices h : ∀ r, r = (async_tm_backupDBToS3 cfg ext request s).1 →
      r.db_manager_ = s.db_manager_ ∧
      (lockEvents (newCalls s r) = [] ∨
        lockEvents (newCalls s r) =
          [Effect.Lock request.db_name, Effect.Unlock request.db_name]) from h _ rfl
  intro r
  simp only [async_tm_backupDBToS3, backupDBHelper, withLock, withUploadCount, withScratchDir]
  repeat' split
  all_goals simp only [State.emit, createLocalS3Util_trace, createLocalS3Util_db_manager]
  all_goals rintro rfl
  all_goals simp only [newCalls]
  all_goals repeat' split
  all_goals simp [lockEvents, createLocalS3Util_db_manager]

theorem restoreDB_lock (cfg : Flags) (ext : Ext) (request : RestoreDBRequest) (s : State) :
    ((async_tm_restoreDB cfg ext request s).1.db_manager_ = s.db_manager_ ∧
      lockEvents (newCalls s (async_tm_restoreDB cfg ext request s).1) = []) ∨
    ∃ s1 backup_dir upstream_addr enable limit e,
      s1.db_manager_ = s.db_manager_ ∧
      (async_tm_restoreDB cfg ext request s).1.db_manager_ =
        (restoreDBHelper cfg ext request.db_name backup_dir upstream_addr enable limit e
          s1).1.db_manager_ ∧
      lockEvents (newCalls s (async_tm_restoreDB cfg ext request s).1) =
        [Effect.Lock request.db_name, Effect.Unlock request.db_name] := by
  cases hip : SetAddressOrException ext request.upstream_ip
      (uint16_t cfg.rocksdb_replicator_port) with
  | error ex =>
    left
    simp [async_tm_restoreDB, hip, newCalls, lockEvents]
  | ok addr =>
    cases hh : OKOrSetException (ext.NewHdfsEnv (cfg.hdfs_name_node ++ request.hdfs_backup_dir))
        AdminErrorCode.DB_ADMIN_ERROR with
    | some ex =>
      left
      simp [async_tm_restoreDB, hip, hh, newCalls, lockEvents, State.emit]
    | none =>
      right
      refine ⟨s.emit (Effect.NewHdfsEnv (cfg.hdfs_name_node ++ request.hdfs_backup_dir)),
        cfg.hdfs_name_node ++ request.hdfs_backup_dir, addr, request.limit_mbs.isSome,
        uint32_t (request.limit_mbs.getD 0), {}, rfl, ?_, ?_⟩
      · simp only [async_tm_restoreDB, hip, hh]
        split <;> rfl
      · suffices h : ∀ l, l = (async_tm_restoreDB cfg ext request s).1.trace →
            lockEvents (l.drop s.trace.length) =
              [Effect.Lock request.db_name, Effect.Unlock request.db_name] from h _ rfl
        intro l
        simp only [async_tm_restoreDB, hip, hh, restoreDBHelper, withLock]
        repeat' split
        all_goals simp only [State.emit]
        all_goals rintro rfl
        all_goals simp [lockEvents]

theorem restoreDBFromS3_lock (cfg : Flags) (ext : Ext) (request : RestoreDBFromS3Request)
    (s : State) :
    ((async_tm_restoreDBFromS3 cfg ext request s).1.db_manager_ = s.db_manager_ ∧
      lockEvents (newCalls s (async_tm_restoreDBFromS3 cfg ext request s).1) = []) ∨
    ∃ s1 backup_dir upstream_addr enable limit e,
      s1.db_manager_ = s.db_manager_ ∧
      (async_tm_restoreDBFromS3 cfg ext request s).1.db_manager_ =
        (restoreDBHelper cfg ext request.db_name backup_dir upstream_addr enable limit e
          s1).1.db_manager_ ∧
      lockEvents (newCalls s (async_tm_restoreDBFromS3 cfg ext request s).1) =
        [Effect.Lock request.db_name, Effect.Unlock request.db_name] := by
  by_cases hg : s.num_current_s3_sst_downloadings_ ≥ cfg.max_s3_sst_loading_concurrency
  · left
    simp [async_tm_restoreDBFromS3, withDownloadCount, hg, newCalls, lockEvents]
  by_cases herr : (ext.remove_all_err (cfg.rocksdb_dir ++ "s3_tmp/" ++ request.db_name ++ "/") ||
      ext.create_directories_err (cfg.rocksdb_dir ++ "s3_tmp/" ++ request.db_name ++ "/")) = true
  · left
    simp only [async_tm_restoreDBFromS3, withDownloadCount, withScratchDir, hg, herr, if_true,
      if_false]
    simp [newCalls, lockEvents, State.emit]
  cases hip : SetAddressOrException ext request.upstream_ip
      (uint16_t cfg.rocksdb_replicator_port) with
  | error ex =>
    left
    simp only [async_tm_restoreDBFromS3, withDownloadCount, withScratchDir, hg, herr, if_false,
      hip]
    simp [newCalls, lockEvents, State.emit]
  | ok addr =>
    right
    refine ⟨((createLocalS3Util
        (({ s with num_current_s3_sst_downloadings_ :=
              s.num_current_s3_sst_downloadings_ + 1 }.emit
            (Effect.remove_all (cfg.rocksdb_dir ++ "s3_tmp/" ++ request.db_name ++ "/"))).emit
          (Effect.create_directories (cfg.rocksdb_dir ++ "s3_tmp/" ++ request.db_name ++ "/")))
        (uint32_t (request.limit_mbs.getD 0)) request.s3_bucket).1.emit
          (Effect.NewS3Env (rtrim request.s3_backup_dir '/')
            (cfg.rocksdb_dir ++ "s3_tmp/" ++ request.db_name ++ "/"))),
      rtrim request.s3_backup_dir '/', addr, request.limit_mbs.isSome,
      uint32_t (request.limit_mbs.getD 0), {}, ?_, ?_, ?_⟩
    · simp [State.emit_db_manager, createLocalS3Util_db_manager, State.emit]
    · simp only [async_tm_restoreDBFromS3, withDownloadCount, withScratchDir, hg, herr,
        if_false, hip, Bool.false_eq_true]
      split <;> rfl
    · suffices h : ∀ l, l = (async_tm_restoreDBFromS3 cfg ext request s).1.trace →
          lockEvents (l.drop s.trace.length) =
            [Effect.Lock request.db_name, Effect.Unlock request.db_name] from h _ rfl
      intro l
      simp only [async_tm_restoreDBFromS3, withDownloadCount, withScratchDir, hg, herr,
        if_false, hip, restoreDBHelper, withLock, Bool.false_eq_true]
      repeat' split
      all_goals simp only [State.emit, createLocalS3Util_trace]
      all_goals rintro rfl
      all_goals repeat' split
      all_goals simp [lockEvents]
theorem lockHolders_cons_waiting (x : String) (cs : List (String × LockPhase)) :
    lockHolders ((x, LockPhase.waiting) :: cs) = lockHolders cs := rfl

theorem lockHolders_cons_holding (x : String) (cs : List (String × LockPhase)) :
    lockHolders ((x, LockPhase.holding) :: cs) = x :: lockHolders cs := rfl

theorem lockHolders_cons_released (x : String) (cs : List (String × LockPhase)) :
    lockHolders ((x, LockPhase.released) :: cs) = lockHolders cs := rfl

theorem lockStep_effect (i : Nat) (cs : List (String × LockPhase)) (held : List String)
    (cs2 : List (String × LockPhase)) (held2 : List String)
    (h : lockStep i cs held = some (cs2, held2)) :
    (∃ x, x ∉ held ∧ held2 = x :: held ∧
      ∀ y, (lockHolders cs2).count y = (lockHolders cs).count y + (if x = y then 1 else 0)) ∨
    (∃ x, held2 = held.erase x ∧
      ∀ y, (lockHolders cs2).count y + (if x = y then 1 else 0) = (lockHolders cs).count y) := by
  induction cs generalizing i cs2 with
  | nil => simp [lockStep] at h
  | cons c cs ih =>
    obtain ⟨x, p⟩ := c
    cases i with
    | zero =>
      cases p with
      | waiting =>
        simp only [lockStep] at h
        split at h
        · cases h
        · rename_i hx
          simp only [Option.some.injEq, Prod.mk.injEq] at h
          obtain ⟨rfl, rfl⟩ := h
          left
          refine ⟨x, by simpa using hx, rfl, ?_⟩
          intro y
          rw [lockHolders_cons_waiting, lockHolders_cons_holding, List.count_cons]
          by_cases hxy : x = y <;> simp [hxy]
      | holding =>
        simp only [lockStep, Option.some.injEq, Prod.mk.injEq] at h
        obtain ⟨rfl, rfl⟩ := h
        right
        refine ⟨x, rfl, ?_⟩
        intro y
        rw [lockHolders_cons_released, lockHolders_cons_holding, List.count_cons]
        by_cases hxy : x = y <;> simp [hxy]
      | released => simp [lockStep] at h
    | succ i =>
      simp only [lockStep] at h
      cases hr : lockStep i cs held with
      | none => simp [hr] at h
      | some r =>
        simp only [hr, Option.some.injEq, Prod.mk.injEq] at h
        obtain ⟨rfl, rfl⟩ := h
        have hcount : ∀ (l : List (String × LockPhase)) (y : String),
            (lockHolders ((x, p) :: l)).count y =
              (lockHolders l).count y + (if p = LockPhase.holding ∧ x = y then 1 else 0) := by
          intro l y
          cases p
          · rw [lockHolders_cons_waiting]
            simp
          · rw [lockHolders_cons_holding, List.count_cons]
            by_cases hxy : x = y <;> simp [hxy]
          · rw [lockHolders_cons_released]
            simp
        rcases ih i r.1 hr with ⟨z, hz, hheld, hc⟩ | ⟨z, hheld, hc⟩
        · left
          refine ⟨z, hz, hheld, ?_⟩
          intro y
          rw [hcount, hcount, hc y]
          omega
        · right
          refine ⟨z, hheld, ?_⟩
          intro y
          rw [hcount, hcount, ← hc y]
          omega

/-- What every schedule keeps: no name is held twice, and a name is held as
often as there are calls holding it. -/
theorem lockRun_invariant (schedule : List Nat) (cs : List (String × LockPhase))
    (held : List String) (cs2 : List (String × LockPhase)) (held2 : List String)
    (hnodup : held.Nodup)
    (hcount : ∀ y, (lockHolders cs).count y = held.count y)
    (h : lockRun schedule cs held = some (cs2, held2)) :
    held2.Nodup ∧ ∀ y, (lockHolders cs2).count y = held2.count y := by
  induction schedule generalizing cs held with
  | nil =>
    simp only [lockRun, Option.some.injEq, Prod.mk.injEq] at h
    obtain ⟨rfl, rfl⟩ := h
    exact ⟨hnodup, hcount⟩
  | cons i schedule ih =>
    simp only [lockRun] at h
    cases hr : lockStep i cs held with
    | none => simp [hr] at h
    | some r =>
      simp only [hr] at h
      rcases lockStep_effect i cs held r.1 r.2 hr with ⟨x, hx, hheld, hc⟩ | ⟨x, hheld, hc⟩
      · refine ih r.1 r.2 ?_ ?_ h
        · rw [hheld]
          exact List.nodup_cons.mpr ⟨hx, hnodup⟩
        · intro y
          rw [hc y, hheld, List.count_cons, hcount y]
          by_cases hxy : x = y <;> simp [hxy]
      · refine ih r.1 r.2 ?_ ?_ h
        · rw [hheld]
          exact hnodup.erase x
        · intro y
          have h1 := hc y
          have h2 := hcount y
          rw [hheld]
          by_cases hxy : x = y
          · subst hxy
            rw [List.count_erase_self]
            simp only [if_true] at h1
            omega
          · rw [List.count_erase_of_ne (Ne.symm hxy)]
            simp only [hxy, if_false] at h1
            omega

theorem lockHolders_all_waiting (names : List String) :
    lockHolders (names.map (fun x => (x, LockPhase.waiting))) = [] := by
  induction names with
  | nil => rfl
  | cons n ns ih =>
    rw [List.map_cons, lockHolders_cons_waiting]
    exact ih

/-- Under every schedule of handler calls, at most one call holds the lock of
a name. -/
theorem lockRun_exclusive (schedule : List Nat) (names : List String)
    (cs : List (String × LockPhase)) (held : List String)
    (h : lockRun schedule (names.map (fun x => (x, LockPhase.waiting))) [] = some (cs, held)) :
    ∀ x, (lockHolders cs).count x ≤ 1 := by
  have hinit : ∀ y, (lockHolders (names.map (fun x => (x, LockPhase.waiting)))).count y =
      ([] : List String).count y := by
    intro y
    rw [lockHolders_all_waiting]
  obtain ⟨hnodup, hcount⟩ := lockRun_invariant schedule _ [] cs held List.nodup_nil hinit h
  intro x
  rw [hcount x]
  exact List.nodup_iff_count_le_one.mp hnodup x

/-! ### Changes of the registry and the lock -/

theorem drop_take_append (t u : List Effect) (k : Nat) :
    List.drop t.length (List.take (t.length + k) (t ++ u)) = List.take k u := by
  rw [List.take_append_eq_append_take]
  simp

theorem closeDB_mutationsUnderLock (ext : Ext) (db_name : String) (s : State) :
    mutationsUnderLock s (async_tm_closeDB ext db_name s).1 = true := by
  suffices h : ∀ r, r = (async_tm_closeDB ext db_name s).1 →
      mutationsUnderLock s r = true from h _ rfl
  intro r
  simp only [async_tm_closeDB, withLock, removeDB, ApplicationDBManager.removeDB]
  repeat' split
  all_goals simp only [State.emit, State.setRegistry]
  all_goals rintro rfl
  all_goals simp [mutationsUnderLock, newMutations, heldByRunAt, heldLocks, heldAfter,
    drop_take_append]

theorem addDB_mutationsUnderLock (cfg : Flags) (ext : Ext) (request : AddDBRequest)
    (s : State) :
    mutationsUnderLock s (async_tm_addDB cfg ext request s).1 = true := by
  suffices h : ∀ r, r = (async_tm_addDB cfg ext request s).1 →
      mutationsUnderLock s r = true from h _ rfl
  intro r
  simp only [async_tm_addDB, withLock, clearMetaData]
  repeat' split
  all_goals simp only [State.emit, State.setRegistry]
  all_goals rintro rfl
  all_goals simp [mutationsUnderLock, newMutations, heldByRunAt, heldLocks, heldAfter,
    drop_take_append]

theorem changeRole_mutationsUnderLock (cfg : Flags) (ext : Ext)
    (request : ChangeDBRoleAndUpstreamRequest) (s : State) :
    mutationsUnderLock s (async_tm_changeDBRoleAndUpStream cfg ext request s).1 = true := by
  suffices h : ∀ r, r = (async_tm_changeDBRoleAndUpStream cfg ext request s).1 →
      mutationsUnderLock s r = true from h _ rfl
  intro r
  simp only [async_tm_changeDBRoleAndUpStream, withLock, removeDB,
    ApplicationDBManager.removeDB]
  repeat' split
  all_goals simp only [State.emit, State.setRegistry]
  all_goals rintro rfl
  all_goals simp [mutationsUnderLock, newMutations, heldByRunAt, heldLocks, heldAfter,
    drop_take_append]

theorem clearDB_mutationsUnderLock (cfg : Flags) (ext : Ext) (request : ClearDBRequest)
    (s : State) :
    mutationsUnderLock s (async_tm_clearDB cfg ext request s).1 = true := by
  suffices h : ∀ r, r = (async_tm_clearDB cfg ext request s).1 →
      mutationsUnderLock s r = true from h _ rfl
  intro r
  simp only [async_tm_clearDB, withLock, removeDB, ApplicationDBManager.removeDB,
    clearMetaData]
  repeat' split
  all_goals simp only [State.emit, State.setRegistry]
  all_goals rintro rfl
  all_goals simp [mutationsUnderLock, newMutations, heldByRunAt, heldLocks, heldAfter,
    drop_take_append]
theorem startMessageIngestion_mutationsUnderLock (ext : Ext)
    (request : StartMessageIngestionRequest) (s : State) :
    mutationsUnderLock s (async_tm_startMessageIngestion ext request s).1 = true := by
  suffices h : ∀ r, r = (async_tm_startMessageIngestion ext request s).1 →
      mutationsUnderLock s r = true from h _ rfl
  intro r
  simp only [async_tm_startMessageIngestion, withLock]
  repeat' split
  all_goals simp only [State.emit]
  all_goals rintro rfl
  all_goals simp [mutationsUnderLock, newMutations]

theorem stopMessageIngestion_mutationsUnderLock (ext : Ext) (db_name : String) (s : State) :
    mutationsUnderLock s (async_tm_stopMessageIngestion ext db_name s).1 = true := by
  suffices h : ∀ r, r = (async_tm_stopMessageIngestion ext db_name s).1 →
      mutationsUnderLock s r = true from h _ rfl
  intro r
  simp only [async_tm_stopMessageIngestion, withLock]
  repeat' split
  all_goals simp only [State.emit]
  all_goals rintro rfl
  all_goals simp [mutationsUnderLock, newMutations]

theorem setDBOptions_mutationsUnderLock (ext : Ext) (db_name : String)
    (options : List (String × String)) (s : State) :
    mutationsUnderLock s (async_tm_setDBOptions ext db_name options s).1 = true := by
  suffices h : ∀ r, r = (async_tm_setDBOptions ext db_name options s).1 →
      mutationsUnderLock s r = true from h _ rfl
  intro r
  simp only [async_tm_setDBOptions, withLock]
  repeat' split
  all_goals simp only [State.emit]
  all_goals rintro rfl
  all_goals simp [mutationsUnderLock, newMutations]

theorem backupDBHelper_mutationsUnderLock (cfg : Flags) (ext : Ext)
    (db_name backup_dir : String) (enable : Bool) (limit : Nat) (e : AdminException)
    (s : State) :
    mutationsUnderLock s (backupDBHelper cfg ext db_name backup_dir enable limit e s).1 =
      true := by
  suffices h : ∀ r, r = (backupDBHelper cfg ext db_name backup_dir enable limit e s).1 →
      mutationsUnderLock s r = true from h _ rfl
  intro r
  simp only [backupDBHelper, withLock]
  repeat' split
  all_goals simp only [State.emit]
  all_goals rintro rfl
  all_goals simp [mutationsUnderLock, newMutations]

theorem restoreDBHelper_mutationsUnderLock (cfg : Flags) (ext : Ext)
    (db_name backup_dir : String) (upstream_addr : SocketAddress) (enable : Bool)
    (limit : Nat) (e : AdminException) (s : State) :
    mutationsUnderLock s
      (restoreDBHelper cfg ext db_name backup_dir upstream_addr enable limit e s).1 =
      true := by
  suffices h : ∀ r, r = (restoreDBHelper cfg ext db_name backup_dir upstream_addr enable
      limit e s).1 → mutationsUnderLock s r = true from h _ rfl
  intro r
  simp only [restoreDBHelper, withLock]
  repeat' split
  all_goals simp only [State.emit, State.setRegistry]
  all_goals rintro rfl
  all_goals simp [mutationsUnderLock, newMutations, heldByRunAt, heldLocks, heldAfter,
    drop_take_append]

theorem backupDB_mutationsUnderLock (cfg : Flags) (ext : Ext) (request : BackupDBRequest)
    (s : State) :
    mutationsUnderLock s (async_tm_backupDB cfg ext request s).1 = true := by
  suffices h : ∀ r, r = (async_tm_backupDB cfg ext request s).1 →
      mutationsUnderLock s r = true from h _ rfl
  intro r
  simp only [async_tm_backupDB, backupDBHelper, withLock]
  repeat' split
  all_goals simp only [State.emit]
  all_goals rintro rfl
  all_goals simp [mutationsUnderLock, newMutations]

theorem restoreDB_mutationsUnderLock (cfg : Flags) (ext : Ext) (request : RestoreDBRequest)
    (s : State) :
    mutationsUnderLock s (async_tm_restoreDB cfg ext request s).1 = true := by
  suffices h : ∀ r, r = (async_tm_restoreDB cfg ext request s).1 →
      mutationsUnderLock s r = true from h _ rfl
  intro r
  simp only [async_tm_restoreDB, restoreDBHelper, withLock]
  repeat' split
  all_goals simp only [State.emit, State.setRegistry]
  all_goals rintro rfl
  all_goals simp [mutationsUnderLock, newMutations, heldByRunAt, heldLocks, heldAfter,
    drop_take_append]

theorem createLocalS3Util_registry_log (s : State) (limit : Nat) (bucket : String) :
    (createLocalS3Util s limit bucket).1.registry_log = s.registry_log := by
  unfold createLocalS3Util
  cases s.s3_util_ with
  | none => simp [State.emit]
  | some u =>
    by_cases hb : should_new_s3_client u limit bucket = true <;> simp [State.emit, hb]

theorem backupDBToS3_mutationsUnderLock (cfg : Flags) (ext : Ext)
    (request : BackupDBToS3Request) (s : State) :
    mutationsUnderLock s (async_tm_backupDBToS3 cfg ext request s).1 = true := by
  suffices h : ∀ r, r = (async_tm_backupDBToS3 cfg ext request s).1 →
      mutationsUnderLock s r = true from h _ rfl
  intro r
  simp only [async_tm_backupDBToS3, backupDBHelper, withLock, withUploadCount,
    withScratchDir]
  repeat' split
  all_goals simp only [State.emit]
  all_goals rintro rfl
  all_goals simp [mutationsUnderLock, newMutations, createLocalS3Util_registry_log]

theorem restoreDBFromS3_mutationsUnderLock (cfg : Flags) (ext : Ext)
    (request : RestoreDBFromS3Request) (s : State) :
    mutationsUnderLock s (async_tm_restoreDBFromS3 cfg ext request s).1 = true := by
  suffices h : ∀ r, r = (async_tm_restoreDBFromS3 cfg ext request s).1 →
      mutationsUnderLock s r = true from h _ rfl
  intro r
  simp only [async_tm_restoreDBFromS3, restoreDBHelper, withLock, withDownloadCount,
    withScratchDir]
  repeat' split
  all_goals simp only [State.emit, State.setRegistry, createLocalS3Util_trace,
    createLocalS3Util_registry_log]
  all_goals rintro rfl
  all_goals simp only [mutationsUnderLock, newMutations, heldByRunAt]
  all_goals repeat' split
  all_goals simp [heldLocks, heldAfter, drop_take_append]
theorem addS3_clear_and_reopen_registry_log (cfg : Flags) (ext : Ext) (db_name : String)
    (db : ApplicationDB) (s : State) :
    (addS3_clear_and_reopen cfg ext db_name db s).1.registry_log =
      s.registry_log ++
        (if (NameMap.find s.db_manager_ db_name).isSome = true then
          [⟨false, db_name, s.trace.length⟩]
         else []) ++
        (if (ext.DestroyDB (cfg.rocksdb_dir ++ db_name)).ok = true ∧
            (ext.DB_Open (cfg.rocksdb_dir ++ db_name)).ok = true then
          [⟨true, db_name, s.trace.length + 2⟩]
         else []) := by
  cases hX : NameMap.find s.db_manager_ db_name <;>
  cases hd : (ext.DestroyDB (cfg.rocksdb_dir ++ db_name)).ok <;>
  cases ho : (ext.DB_Open (cfg.rocksdb_dir ++ db_name)).ok <;>
  simp [addS3_clear_and_reopen, removeDB, ApplicationDBManager.removeDB,
    ApplicationDBManager.addDB, State.emit, OKOrSetException, getDB,
    ApplicationDBManager.getDB, hX, hd, ho, NameMap.find_erase_self, NameMap.find_insert_self]

theorem clearMetaData_registry_log (ext : Ext) (s : State) (db_name : String) :
    (clearMetaData ext s db_name).2.registry_log = s.registry_log := by
  unfold clearMetaData
  split <;> rfl

theorem writeMetaData_registry_log (ext : Ext) (s : State) (db_name b p : String) (ts : Int) :
    (writeMetaData ext s db_name b p ts).2.registry_log = s.registry_log := by
  unfold writeMetaData
  split <;> rfl

set_option maxHeartbeats 4000000 in
theorem addS3_mutationsUnderLock (cfg : Flags) (ext : Ext)
    (request : AddS3SstFilesToDBRequest) (s : State) :
    mutationsUnderLock s (async_tm_addS3SstFilesToDB cfg ext request s).1 = true := by
  suffices h : ∀ r, r = (async_tm_addS3SstFilesToDB cfg ext request s).1 →
      mutationsUnderLock s r = true from h _ rfl
  intro r
  simp only [async_tm_addS3SstFilesToDB, withLock, withDownloadCount, withScratchDir]
  repeat' split
  all_goals simp only [State.emit, clearMetaData_trace, writeMetaData_trace,
    addS3_clear_and_reopen_trace, createLocalS3Util_trace, clearMetaData_registry_log,
    writeMetaData_registry_log, addS3_clear_and_reopen_registry_log,
    createLocalS3Util_registry_log, clearMetaData_db_manager, createLocalS3Util_db_manager]
  all_goals rintro rfl
  all_goals simp only [mutationsUnderLock, newMutations, heldByRunAt]
  all_goals repeat' split
  all_goals simp [heldLocks, heldAfter, drop_take_append, Nat.add_assoc]

theorem heldLocks_of_lockEvents (db_name : String) (calls : List Effect)
    (h : lockEvents calls = [] ∨
      lockEvents calls = [Effect.Lock db_name, Effect.Unlock db_name]) :
    ∀ held, heldLocks calls held = held := by
  intro held
  rw [heldLocks_lockEvents]
  rcases h with h | h <;> rw [h] <;> simp [heldLocks, heldAfter]

/-- C25: every change of the registry is recorded with its place in the trace
of calls.  For every state and on every path of add-db, close-db,
change-role-and-upstream, clear-db, add-object-store-files-to-db, start and
stop of ingestion, set-db-options, backup and restore (file system and object
store) and of the backup and restore helpers, each addition to and removal from
the registry that the run makes is made at a place in the trace where the run
has taken the lock of that name and not yet released it.  Add-db, close-db,
change-role-and-upstream, clear-db, add-object-store-files-to-db, start and
stop of ingestion and set-db-options take the lock of their database as their
first call and release it as their last call, with no other lock or unlock call
in between; the same holds of the two helpers.  Backup never changes the
registry and takes and releases the lock once or not at all.  Restore either
leaves the registry as it was and takes no lock, or changes it only inside the
restore helper, which it enters with the registry as it was at entry, and takes
and releases the lock once.  In every case the names held after the run are the
names held before it.  With calls that each take their lock and then release
it, under every schedule at most one call holds the lock of a name. -/
theorem C25_registry_mutations_under_the_lock (cfg : Flags) (ext : Ext) (s : State) :
    ((∀ request, mutationsUnderLock s (async_tm_addDB cfg ext request s).1 = true) ∧
      (∀ db_name, mutationsUnderLock s (async_tm_closeDB ext db_name s).1 = true) ∧
      (∀ request,
        mutationsUnderLock s (async_tm_changeDBRoleAndUpStream cfg ext request s).1 = true) ∧
      (∀ request, mutationsUnderLock s (async_tm_clearDB cfg ext request s).1 = true) ∧
      (∀ request,
        mutationsUnderLock s (async_tm_addS3SstFilesToDB cfg ext request s).1 = true) ∧
      (∀ request,
        mutationsUnderLock s (async_tm_startMessageIngestion ext request s).1 = true) ∧
      (∀ db_name,
        mutationsUnderLock s (async_tm_stopMessageIngestion ext db_name s).1 = true) ∧
      (∀ db_name options,
        mutationsUnderLock s (async_tm_setDBOptions ext db_name options s).1 = true) ∧
      (∀ request, mutationsUnderLock s (async_tm_backupDB cfg ext request s).1 = true) ∧
      (∀ request, mutationsUnderLock s (async_tm_backupDBToS3 cfg ext request s).1 = true) ∧
      (∀ request, mutationsUnderLock s (async_tm_restoreDB cfg ext request s).1 = true) ∧
      (∀ request,
        mutationsUnderLock s (async_tm_restoreDBFromS3 cfg ext request s).1 = true) ∧
      (∀ db_name backup_dir enable limit e, mutationsUnderLock s
        (backupDBHelper cfg ext db_name backup_dir enable limit e s).1 = true) ∧
      (∀ db_name backup_dir upstream_addr enable limit e, mutationsUnderLock s
        (restoreDBHelper cfg ext db_name backup_dir upstream_addr enable limit e s).1 =
          true)) ∧
    (∀ request, LockedThroughout request.db_name
      (newCalls s (async_tm_addDB cfg ext request s).1)) ∧
    (∀ db_name, LockedThroughout db_name (newCalls s (async_tm_closeDB ext db_name s).1)) ∧
    (∀ request, LockedThroughout request.db_name
      (newCalls s (async_tm_changeDBRoleAndUpStream cfg ext request s).1)) ∧
    (∀ request, LockedThroughout request.db_name
      (newCalls s (async_tm_clearDB cfg ext request s).1)) ∧
    (∀ request, LockedThroughout request.db_name
      (newCalls s (async_tm_addS3SstFilesToDB cfg ext request s).1)) ∧
    (∀ request, LockedThroughout request.db_name
      (newCalls s (async_tm_startMessageIngestion ext request s).1)) ∧
    (∀ db_name, LockedThroughout db_name
      (newCalls s (async_tm_stopMessageIngestion ext db_name s).1)) ∧
    (∀ db_name options, LockedThroughout db_name
      (newCalls s (async_tm_setDBOptions ext db_name options s).1)) ∧
    (∀ db_name backup_dir enable limit e, LockedThroughout db_name
      (newCalls s (backupDBHelper cfg ext db_name backup_dir enable limit e s).1)) ∧
    (∀ db_name backup_dir upstream_addr enable limit e, LockedThroughout db_name
      (newCalls s (restoreDBHelper cfg ext db_name backup_dir upstream_addr enable limit e
        s).1)) ∧
    (∀ request,
      (async_tm_backupDB cfg ext request s).1.db_manager_ = s.db_manager_ ∧
      (lockEvents (newCalls s (async_tm_backupDB cfg ext request s).1) = [] ∨
        lockEvents (newCalls s (async_tm_backupDB cfg ext request s).1) =
          [Effect.Lock request.db_name, Effect.Unlock request.db_name]) ∧
      ∀ held, heldLocks (newCalls s (async_tm_backupDB cfg ext request s).1) held = held) ∧
    (∀ request,
      (async_tm_backupDBToS3 cfg ext request s).1.db_manager_ = s.db_manager_ ∧
      (lockEvents (newCalls s (async_tm_backupDBToS3 cfg ext request s).1) = [] ∨
        lockEvents (newCalls s (async_tm_backupDBToS3 cfg ext request s).1) =
          [Effect.Lock request.db_name, Effect.Unlock request.db_name]) ∧
      ∀ held, heldLocks (newCalls s (async_tm_backupDBToS3 cfg ext request s).1) held = held) ∧
    (∀ request,
      (((async_tm_restoreDB cfg ext request s).1.db_manager_ = s.db_manager_ ∧
          lockEvents (newCalls s (async_tm_restoreDB cfg ext request s).1) = []) ∨
        ∃ s1 backup_dir upstream_addr enable limit e,
          s1.db_manager_ = s.db_manager_ ∧
          (async_tm_restoreDB cfg ext request s).1.db_manager_ =
            (restoreDBHelper cfg ext request.db_name backup_dir upstream_addr enable limit e
              s1).1.db_manager_ ∧
          lockEvents (newCalls s (async_tm_restoreDB cfg ext request s).1) =
            [Effect.Lock request.db_name, Effect.Unlock request.db_name]) ∧
      ∀ held, heldLocks (newCalls s (async_tm_restoreDB cfg ext request s).1) held = held) ∧
    (∀ request,
      (((async_tm_restoreDBFromS3 cfg ext request s).1.db_manager_ = s.db_manager_ ∧
          lockEvents (newCalls s (async_tm_restoreDBFromS3 cfg ext request s).1) = []) ∨
        ∃ s1 backup_dir upstream_addr enable limit e,
          s1.db_manager_ = s.db_manager_ ∧
          (async_tm_restoreDBFromS3 cfg ext request s).1.db_manager_ =
            (restoreDBHelper cfg ext request.db_name backup_dir upstream_addr enable limit e
              s1).1.db_manager_ ∧
          lockEvents (newCalls s (async_tm_restoreDBFromS3 cfg ext request s).1) =
            [Effect.Lock request.db_name, Effect.Unlock request.db_name]) ∧
      ∀ held,
        heldLocks (newCalls s (async_tm_restoreDBFromS3 cfg ext request s).1) held = held) ∧
    (∀ (schedule : List Nat) (names : List String) (cs : List (String × LockPhase))
        (held : List String),
      lockRun schedule (names.map (fun x => (x, LockPhase.waiting))) [] = some (cs, held) →
      ∀ x, (lockHolders cs).count x ≤ 1) := by
  refine ⟨⟨fun request => addDB_mutationsUnderLock cfg ext request s,
      fun db_name => closeDB_mutationsUnderLock ext db_name s,
      fun request => changeRole_mutationsUnderLock cfg ext request s,
      fun request => clearDB_mutationsUnderLock cfg ext request s,
      fun request => addS3_mutationsUnderLock cfg ext request s,
      fun request => startMessageIngestion_mutationsUnderLock ext request s,
      fun db_name => stopMessageIngestion_mutationsUnderLock ext db_name s,
      fun db_name options => setDBOptions_mutationsUnderLock ext db_name options s,
      fun request => backupDB_mutationsUnderLock cfg ext request s,
      fun request => backupDBToS3_mutationsUnderLock cfg ext request s,
      fun request => restoreDB_mutationsUnderLock cfg ext request s,
      fun request => restoreDBFromS3_mutationsUnderLock cfg ext request s,
      fun db_name backup_dir enable limit e =>
        backupDBHelper_mutationsUnderLock cfg ext db_name backup_dir enable limit e s,
      fun db_name backup_dir upstream_addr enable limit e =>
        restoreDBHelper_mutationsUnderLock cfg ext db_name backup_dir upstream_addr enable
          limit e s⟩,
    fun request => addDB_locked cfg ext request s,
    fun db_name => closeDB_locked ext db_name s,
    fun request => changeRole_locked cfg ext request s,
    fun request => clearDB_locked cfg ext request s,
    fun request => addS3_locked cfg ext request s,
    fun request => startMessageIngestion_locked ext request s,
    fun db_name => stopMessageIngestion_locked ext db_name s,
    fun db_name options => setDBOptions_locked ext db_name options s,
    fun db_name backup_dir enable limit e =>
      backupDBHelper_locked cfg ext db_name backup_dir enable limit e s,
    fun db_name backup_dir upstream_addr enable limit e =>
      restoreDBHelper_locked cfg ext db_name backup_dir upstream_addr enable limit e s,
    ?_, ?_, ?_, ?_, lockRun_exclusive⟩
  · intro request
    have h := backupDB_lock cfg ext request s
    exact ⟨h.1, h.2, heldLocks_of_lockEvents request.db_name _ h.2⟩
  · intro request
    have h := backupDBToS3_lock cfg ext request s
    exact ⟨h.1, h.2, heldLocks_of_lockEvents request.db_name _ h.2⟩
  · intro request
    have h := restoreDB_lock cfg ext request s
    refine ⟨h, heldLocks_of_lockEvents request.db_name _ ?_⟩
    rcases h with h | ⟨_, _, _, _, _, _, _, _, h⟩
    · exact Or.inl h.2
    · exact Or.inr h
  · intro request
    have h := restoreDBFromS3_lock cfg ext request s
    refine ⟨h, heldLocks_of_lockEvents request.db_name _ ?_⟩
    rcases h with h | ⟨_, _, _, _, _, _, _, _, h⟩
    · exact Or.inl h.2
    · exact Or.inr h

/-- C25, witness: close-db of `alpha_0` removes it from the registry after its
one call so far, the taking of the lock, while `alpha_0` is held; and two calls
on `alpha_0`: the first takes and releases the lock, then the second takes it;
while the first holds it the second cannot step. -/
theorem C25_witness :
    newMutations st_alpha (async_tm_closeDB ext_ok "alpha_0" st_alpha).1 =
      [⟨false, "alpha_0", 1⟩] ∧
    heldByRunAt st_alpha (async_tm_closeDB ext_ok "alpha_0" st_alpha).1 1 = ["alpha_0"] ∧
    heldByRunAt st_alpha (async_tm_closeDB ext_ok "alpha_0" st_alpha).1 0 = [] ∧
    heldByRunAt st_alpha (async_tm_closeDB ext_ok "alpha_0" st_alpha).1 2 = [] ∧
    lockRun [0, 0, 1] (["alpha_0", "alpha_0"].map (fun x => (x, LockPhase.waiting))) [] =
      some ([("alpha_0", LockPhase.released), ("alpha_0", LockPhase.holding)], ["alpha_0"]) ∧
    lockRun [0, 1] (["alpha_0", "alpha_0"].map (fun x => (x, LockPhase.waiting))) [] = none ∧
    ∀ x, (lockHolders
      [("alpha_0", LockPhase.released), ("alpha_0", LockPhase.holding)]).count x ≤ 1 :=
  ⟨by decide, by decide, by decide, by decide, by decide, by decide,
   (C25_registry_mutations_under_the_lock cfg0 ext_ok st_alpha).2.2.2.2.2.2.2.2.2.2.2.2.2.2.2
     [0, 0, 1] ["alpha_0", "alpha_0"]
     [("alpha_0", LockPhase.released), ("alpha_0", LockPhase.holding)] ["alpha_0"]
     (by decide)⟩

/-! ## The scratch directory and the lock (C26) -/

theorem lockEvents_cons (e : Effect) (t : List Effect) :
    lockEvents (e :: t) = lockEvents [e] ++ lockEvents t := by
  cases e <;> simp [lockEvents]

theorem lockEvents_singleton (e : Effect) :
    (lockEvents [e] = [] ∧ ∀ held, heldAfter e held = held) ∨ lockEvents [e] = [e] := by
  cases e <;> simp [lockEvents, heldAfter]

theorem getLast?_cons_of_ne_nil (e : Effect) (t : List Effect) (h : t ≠ []) :
    (e :: t).getLast? = t.getLast? := by
  cases t with
  | nil => exact absurd rfl h
  | cons b l => rw [List.getLast?_cons_cons]

theorem lockEvents_singleton_of_mem (t : List Effect) (e : Effect)
    (ht : lockEvents t = []) (hmem : e ∈ t) : lockEvents [e] = [] := by
  rcases lockEvents_singleton e with h | h
  · exact h.1
  · exfalso
    have hin : e ∈ lockEvents t := by
      unfold lockEvents at h ⊢
      rw [List.mem_filter]
      refine ⟨hmem, ?_⟩
      by_contra hc
      simp [List.filter, hc] at h
    rw [ht] at hin
    cases hin

theorem allUnderLock_of_no_lockEvents (p : Effect → Bool) (db_name : String)
    (t : List Effect) (held : List String) (hheld : db_name ∈ held)
    (ht : lockEvents t = []) : allUnderLock p db_name t held = true := by
  induction t with
  | nil => rfl
  | cons e t ih =>
    have he := lockEvents_singleton_of_mem (e :: t) e ht (List.mem_cons_self e t)
    rw [lockEvents_cons, he, List.nil_append] at ht
    rcases lockEvents_singleton e with h | h
    · simp [allUnderLock, hheld, h.2, ih ht]
    · rw [he] at h
      cases h

theorem allUnderLock_until_unlock (p : Effect → Bool) (db_name : String)
    (hp : p (Effect.Unlock db_name) = false)
    (t : List Effect) (held : List String) (hheld : db_name ∈ held)
    (ht : lockEvents t = [Effect.Unlock db_name])
    (hl : t.getLast? = some (Effect.Unlock db_name)) :
    allUnderLock p db_name t held = true := by
  induction t with
  | nil => simp [lockEvents] at ht
  | cons e t ih =>
    rw [lockEvents_cons] at ht
    rcases lockEvents_singleton e with h | h
    · -- `e` is no lock call: the unlock call is further on
      rw [h.1, List.nil_append] at ht
      have hne : t ≠ [] := by
        rintro rfl
        simp [lockEvents] at ht
      rw [getLast?_cons_of_ne_nil e t hne] at hl
      simp [allUnderLock, hheld, h.2, ih ht hl]
    · -- `e` is the unlock call and nothing follows it
      rw [h, List.singleton_append, List.cons.injEq] at ht
      obtain ⟨rfl, ht2⟩ := ht
      have hnil : t = [] := by
        by_contra hne
        rw [getLast?_cons_of_ne_nil _ t hne] at hl
        have := lockEvents_singleton_of_mem t _ ht2 (List.mem_of_getLast?_eq_some hl)
        simp [lockEvents] at this
      subst hnil
      simp [allUnderLock, hp]

/-- Calls that are no lock calls, in a run that holds the lock from its first
call to its last, are made under the lock. -/
theorem allUnderLock_of_lockedThroughout (p : Effect → Bool) (db_name : String)
    (hp1 : p (Effect.Lock db_name) = false) (hp2 : p (Effect.Unlock db_name) = false)
    (calls : List Effect) (h : LockedThroughout db_name calls) :
    allUnderLock p db_name calls [] = true := by
  obtain ⟨hhead, hlast, hevents, -⟩ := h
  cases calls with
  | nil => simp at hhead
  | cons e t =>
    simp only [List.head?_cons, Option.some.injEq] at hhead
    subst hhead
    rw [lockEvents_cons] at hevents
    have h1 : lockEvents [Effect.Lock db_name] = [Effect.Lock db_name] := by
      simp [lockEvents]
    rw [h1, List.singleton_append, List.cons.injEq] at hevents
    have hne : t ≠ [] := by
      rintro rfl
      simp [lockEvents] at hevents
    rw [getLast?_cons_of_ne_nil _ t hne] at hlast
    simp only [allUnderLock, hp1, heldAfter, Bool.not_false, Bool.true_or, Bool.true_and]
    exact allUnderLock_until_unlock p db_name hp2 t [db_name] (List.mem_singleton.mpr rfl)
      hevents.2 hlast


/-- C26: in backup to and restore from the object store, once the gate is
passed, the removal and the creation of the scratch directory of `X` are the
first calls of the run, made before the lock of `X` is taken, and the removal
at scope exit comes after the lock has been released: not every scratch
operation is made under the lock.  In add-object-store-files-to-db every
removal and creation of the scratch directory is made while the lock of `X` is
held. -/
theorem C26_scratch_staging_outside_the_lock (cfg : Flags) (ext : Ext) (s : State) :
    (∀ request : BackupDBToS3Request,
      s.num_current_s3_sst_uploadings_ < cfg.max_s3_sst_loading_concurrency →
      allUnderLock (isScratchOp cfg request.db_name) request.db_name
        (newCalls s (async_tm_backupDBToS3 cfg ext request s).1) [] = false) ∧
    (∀ request : RestoreDBFromS3Request,
      s.num_current_s3_sst_downloadings_ < cfg.max_s3_sst_loading_concurrency →
      allUnderLock (isScratchOp cfg request.db_name) request.db_name
        (newCalls s (async_tm_restoreDBFromS3 cfg ext request s).1) [] = false) ∧
    (∀ request : AddS3SstFilesToDBRequest,
      allUnderLock (isScratchOp cfg request.db_name) request.db_name
        (newCalls s (async_tm_addS3SstFilesToDB cfg ext request s).1) [] = true) := by
  refine ⟨?_, ?_, ?_⟩
  · intro request hgate
    have hg : ¬ s.num_current_s3_sst_uploadings_ ≥ cfg.max_s3_sst_loading_concurrency :=
      not_le.mpr hgate
    suffices h : ∀ l, l = (async_tm_backupDBToS3 cfg ext request s).1.trace →
        allUnderLock (isScratchOp cfg request.db_name) request.db_name
          (l.drop s.trace.length) [] = false from h _ rfl
    intro l
    simp only [async_tm_backupDBToS3, withUploadCount, withScratchDir, hg, if_false,
      backupDBHelper, withLock]
    repeat' split
    all_goals simp only [State.emit, createLocalS3Util_trace]
    all_goals rintro rfl
    all_goals simp [allUnderLock, isScratchOp]
  · intro request hgate
    have hg : ¬ s.num_current_s3_sst_downloadings_ ≥ cfg.max_s3_sst_loading_concurrency :=
      not_le.mpr hgate
    suffices h : ∀ l, l = (async_tm_restoreDBFromS3 cfg ext request s).1.trace →
        allUnderLock (isScratchOp cfg request.db_name) request.db_name
          (l.drop s.trace.length) [] = false from h _ rfl
    intro l
    simp only [async_tm_restoreDBFromS3, withDownloadCount, withScratchDir, hg, if_false,
      restoreDBHelper, withLock]
    repeat' split
    all_goals simp only [State.emit, createLocalS3Util_trace]
    all_goals rintro rfl
    all_goals simp [allUnderLock, isScratchOp]
  · intro request
    exact allUnderLock_of_lockedThroughout (isScratchOp cfg request.db_name) request.db_name
      rfl rfl _ (addS3_locked cfg ext request s)

/-- C26, witness: backup of `alpha_0` to the object store with the gate open:
the scratch directory is removed and created before the lock is taken and
removed again after the lock has been released. -/
theorem C26_witness :
    st_alpha.num_current_s3_sst_uploadings_ < cfg0.max_s3_sst_loading_concurrency ∧
    newCalls st_alpha
        (async_tm_backupDBToS3 cfg0 ext_ok ⟨"alpha_0", "b", "backups/alpha_0/", none⟩
          st_alpha).1 =
      [Effect.remove_all "/tmp/s3_tmp/alpha_0/",
       Effect.create_directories "/tmp/s3_tmp/alpha_0/",
       Effect.BuildS3Util 0 "b",
       Effect.NewS3Env "backups/alpha_0" "/tmp/s3_tmp/alpha_0/",
       Effect.Lock "alpha_0",
       Effect.BackupEngine_Open ⟨"backups/alpha_0", 8, 0, 0⟩,
       Effect.CreateNewBackup "/tmp/alpha_0",
       Effect.Unlock "alpha_0",
       Effect.remove_all "/tmp/s3_tmp/alpha_0/"] ∧
    allUnderLock (isScratchOp cfg0 "alpha_0") "alpha_0"
      (newCalls st_alpha
        (async_tm_backupDBToS3 cfg0 ext_ok ⟨"alpha_0", "b", "backups/alpha_0/", none⟩
          st_alpha).1) [] = false :=
  ⟨by decide, by decide,
   (C26_scratch_staging_outside_the_lock cfg0 ext_ok st_alpha).1
     ⟨"alpha_0", "b", "backups/alpha_0/", none⟩ (by decide)⟩

end admin
